import Mathlib

/-!
# Freestyle mesh import: near/far plane clipping, quad splitting, mesh assembly

A shallow embedding of `BlenderFileLoader.cpp`
(`source/blender/freestyle/intern/blender_interface`).

Coordinates are elements of a linearly ordered field `α` (exact arithmetic);
every definition is computable and can be evaluated at `α := ℚ`.
C arrays that are filled through a running cursor (`triCoords[k++]`,
`*ls->pvi++`) are lists that grow at the end; unsigned counters are natural
numbers.
-/

namespace Freestyle

/-- A `float[3]`: the components `[0]`, `[1]`, `[2]`. -/
structure Vec3 (α : Type) where
  x : α
  y : α
  z : α
deriving DecidableEq, Repr

/-- A three-element C array (`v[3]`, `n[3]`, `em[3]`, `clip[3]`). -/
structure Arr3 (β : Type) where
  a0 : β
  a1 : β
  a2 : β
deriving DecidableEq, Repr

namespace Arr3

/-- Read `a[i]` for `i` in `0..2`. -/
def get {β : Type} (a : Arr3 β) (i : Nat) : β :=
  match i with
  | 0 => a.a0
  | 1 => a.a1
  | _ => a.a2

/-- Write `a[i] = b` for `i` in `0..2`. -/
def set {β : Type} (a : Arr3 β) (i : Nat) (b : β) : Arr3 β :=
  match i with
  | 0 => { a with a0 := b }
  | 1 => { a with a1 := b }
  | _ => { a with a2 := b }

end Arr3

/-- `#define CLIPPED_BY_NEAR -1` -/
def CLIPPED_BY_NEAR : Int := -1
/-- `#define NOT_CLIPPED 0` -/
def NOT_CLIPPED : Int := 0
/-- `#define CLIPPED_BY_FAR 1` -/
def CLIPPED_BY_FAR : Int := 1

/-- The members of `BlenderFileLoader` that the geometry code reads. -/
structure BlenderFileLoader (α : Type) where
  _z_near : α
  _z_far : α
  _z_offset : α
  _smooth : Bool

/-- Locals of `countClippedFaces` that the classification loop updates. -/
structure CountState where
  clip : Arr3 Int
  numClipped : Nat
  sum : Int
deriving DecidableEq, Repr

/-- Where an output slot of `clipTriangle` got its coordinates from (a ghost
tag, not stored by the C code): `vertex i` is `copy_v3_v3(triCoords[k], v[i])`,
`cut i c` is `clipLine(v[i], v[(i + 1) % 3], triCoords[k], ...)` at the plane
of classification code `c`. -/
inductive Origin where
  | vertex (i : Nat)
  | cut (i : Nat) (c : Int)
deriving DecidableEq, Repr

/-- One filled slot `k` of the scratch arrays of `clipTriangle`:
`triCoords[k]`, `triNormals[k]`, `edgeMarks[k]`, and the ghost tag. -/
structure Slot (α : Type) where
  co : Vec3 α
  no : Vec3 α
  em : Bool
  origin : Origin
deriving DecidableEq, Repr

/-- Whether the slot's coordinates were computed by `clipLine`. -/
def Slot.byClipLine {α : Type} (s : Slot α) : Bool :=
  match s.origin with
  | .vertex _ => false
  | .cut _ _ => true

namespace BlenderFileLoader

variable {α : Type} [LinearOrderedField α]

/-- Body of the loop `for (int i = 0; i < 3; i++)` of `countClippedFaces`. -/
def countClippedFaces_body (L : BlenderFileLoader α) (v : Arr3 (Vec3 α)) (s : CountState)
    (i : Nat) : CountState :=
  let s1 : CountState :=
    if (v.get i).z > L._z_near then
      { s with clip := s.clip.set i CLIPPED_BY_NEAR, numClipped := s.numClipped + 1 }
    else if (v.get i).z < L._z_far then
      { s with clip := s.clip.set i CLIPPED_BY_FAR, numClipped := s.numClipped + 1 }
    else
      { s with clip := s.clip.set i NOT_CLIPPED }
  { s1 with sum := s1.sum + s1.clip.get i }

/-- The `switch (numClipped)` of `countClippedFaces`; `numTris` starts at 0. -/
def countClippedFaces_switch (numClipped : Nat) (sum : Int) : Nat :=
  match numClipped with
  | 0 => 1
  | 1 => 2
  | 2 => if sum = 0 then 3 else 1
  | 3 => if sum = 3 ∨ sum = -3 then 0 else 2
  | _ => 0

/-- `BlenderFileLoader::countClippedFaces`: returns `numTris` and the filled
out-parameter `clip`. -/
def countClippedFaces (L : BlenderFileLoader α) (v1 v2 v3 : Vec3 α) : Nat × Arr3 Int :=
  let v : Arr3 (Vec3 α) := ⟨v1, v2, v3⟩
  let s := [0, 1, 2].foldl (countClippedFaces_body L v) ⟨⟨0, 0, 0⟩, 0, 0⟩
  (countClippedFaces_switch s.numClipped s.sum, s.clip)

/-- The pair `(p, q)` chosen at the start of `clipLine`: the endpoints ordered
by their Z values. -/
def clipLine_order (v1 v2 : Vec3 α) : Vec3 α × Vec3 α :=
  if v1.z < v2.z then (v1, v2) else (v2, v1)

/-- The arithmetic of `clipLine` on the ordered endpoints `p`, `q`. -/
def clipLine_interp (p q : Vec3 α) (z : α) : Vec3 α :=
  let d : Vec3 α := ⟨q.x - p.x, q.y - p.y, q.z - p.z⟩
  let t := (z - p.z) / d.z
  ⟨p.x + t * d.x, p.y + t * d.y, z⟩

/-- `BlenderFileLoader::clipLine`: the point `c`. -/
def clipLine (v1 v2 : Vec3 α) (z : α) : Vec3 α :=
  clipLine_interp (clipLine_order v1 v2).1 (clipLine_order v1 v2).2 z

/-- The depth argument `(c == CLIPPED_BY_NEAR) ? _z_near : _z_far`. -/
def planeDepth (L : BlenderFileLoader α) (c : Int) : α :=
  if c = CLIPPED_BY_NEAR then L._z_near else L._z_far

/-- Body of the loop `for (i = 0; i < 3; i++)` of `clipTriangle`; `out` holds
the slots `0 .. k-1` written so far. -/
def clipTriangle_body (L : BlenderFileLoader α) (v n : Arr3 (Vec3 α)) (em : Arr3 Bool)
    (clip : Arr3 Int) (out : List (Slot α)) (i : Nat) : List (Slot α) :=
  let j := (i + 1) % 3
  if clip.get i = NOT_CLIPPED then
    let out1 := out ++ [⟨v.get i, n.get i, em.get i, .vertex i⟩]
    if clip.get j ≠ NOT_CLIPPED then
      out1 ++ [⟨clipLine (v.get i) (v.get j) (planeDepth L (clip.get j)), n.get j, false,
        .cut i (clip.get j)⟩]
    else out1
  else if clip.get i ≠ clip.get j then
    if clip.get j = NOT_CLIPPED then
      out ++ [⟨clipLine (v.get i) (v.get j) (planeDepth L (clip.get i)), n.get i, em.get i,
        .cut i (clip.get i)⟩]
    else
      out ++ [⟨clipLine (v.get i) (v.get j) (planeDepth L (clip.get i)), n.get i, em.get i,
        .cut i (clip.get i)⟩,
        ⟨clipLine (v.get i) (v.get j) (planeDepth L (clip.get j)), n.get j, false,
        .cut i (clip.get j)⟩]
  else out

/-- `BlenderFileLoader::clipTriangle`: the slots written to `triCoords`,
`triNormals` and `edgeMarks`, in order `k = 0, 1, ...`. -/
def clipTriangle (L : BlenderFileLoader α) (v1 v2 v3 n1 n2 n3 : Vec3 α) (em1 em2 em3 : Bool)
    (clip : Arr3 Int) : List (Slot α) :=
  [0, 1, 2].foldl (clipTriangle_body L ⟨v1, v2, v3⟩ ⟨n1, n2, n3⟩ ⟨em1, em2, em3⟩ clip) []

end BlenderFileLoader

/-- Helpers of Blender's math library (`BLI_math`) that the loader calls and
whose code is not part of these sources; they are parameters of the model. -/
structure Blenlib (α : Type) where
  equals_v3v3 : Vec3 α → Vec3 α → Bool
  dist_squared_to_line_segment_v3 : Vec3 α → Vec3 α → Vec3 α → α
  normalize_v3 : Vec3 α → Vec3 α

/-- `IndexedFaceSet::FaceEdgeMark`: the four single-bit flags `FACE_MARK`,
`EDGE_MARK_V1V2`, `EDGE_MARK_V2V3`, `EDGE_MARK_V3V1` or-ed into `marks`. -/
structure FaceEdgeMark where
  face : Bool
  v1v2 : Bool
  v2v3 : Bool
  v3v1 : Bool
deriving DecidableEq, Repr

/-- `struct LoaderState`: the buffers written through the cursors `pv`, `pn`,
`pm`, `pvi`, `pni`, `pmi` (each list holds what has been written so far, one
`Vec3` per three floats), and the remaining members. -/
structure LoaderState (α : Type) where
  vertices : List (Vec3 α)
  normals : List (Vec3 α)
  faceEdgeMarks : List FaceEdgeMark
  VIndices : List Nat
  NIndices : List Nat
  MIndices : List Nat
  currentIndex : Nat
  currentMIndex : Nat
  minBBox : Vec3 α
  maxBBox : Vec3 α

/-- `Material`: its address (materials are compared as pointers) and the two
tests the loader makes on it. -/
structure Material where
  ptr : Nat
  onlycast : Bool
  wire : Bool
deriving DecidableEq, Repr

/-- `VertRen`: position `co` and normal `n`. -/
structure VertRen (α : Type) where
  co : Vec3 α
  n : Vec3 α

/-- `VlakRen`, one face: three or four vertices, its material, the test
`flag & R_SMOOTH`, the face mark, the tests of `freestyle_edge_mark` against
`R_EDGE_V1V2`, `R_EDGE_V2V3`, `R_EDGE_V3V1`, `R_EDGE_V3V4`, `R_EDGE_V4V1`, and
the normal that `RE_vlakren_get_normal` returns for it. -/
structure VlakRen (α : Type) where
  v1 : VertRen α
  v2 : VertRen α
  v3 : VertRen α
  v4 : Option (VertRen α)
  mat : Material
  smooth : Bool
  freestyle_face_mark : Bool
  edge_v1v2 : Bool
  edge_v2v3 : Bool
  edge_v3v1 : Bool
  edge_v3v4 : Bool
  edge_v4v1 : Bool
  facenormal : Vec3 α

/-- `ObjectInstanceRen`: the test `flag & R_TRANSFORMED`, the maps
`mul_m4_v3(obi->mat, ·)` and `mul_m3_v3(obi->nmat, ·)`, and the faces of
`obi->obr` in the order `a = 0 .. totvlak - 1`. -/
structure ObjectInstanceRen (α : Type) where
  transformed : Bool
  mat : Vec3 α → Vec3 α
  nmat : Vec3 α → Vec3 α
  vlak : List (VlakRen α)

/-- Locals of the first loop of `insertShapeNode`. The count `numFaces` is the
natural number of triangles counted; the value that the 32-bit `unsigned
numFaces` of the source holds, and the buffer sizes computed from it, are those
of `insertShapeNode_alloc`. -/
structure FirstPass where
  numFaces : Nat
  wire_material : Bool
deriving DecidableEq, Repr

/-- State of the second loop of `insertShapeNode`: the loader state `ls`, the
table `meshMaterials` (`meshFrsMaterials` is pushed in lockstep with it), and
the member `_numFacesRead`, incremented after every `addTriangle` call. -/
structure SecondPass (α : Type) where
  ls : LoaderState α
  meshMaterials : List Material
  _numFacesRead : Nat

namespace BlenderFileLoader

variable {α : Type} [LinearOrderedField α]

/-- Body of the loop `for (i = 0; i < 3; i++)` of `addTriangle`. The cursor
`currentIndex` is counted in natural numbers here; `addTriangle_body_unsigned`
is the same body with the cursor wrapping at `2^32` as the 32-bit `unsigned` of
the source does, and the two agree while the cursor stays below `2^32`. -/
def addTriangle_body (fv fn : Arr3 (Vec3 α)) (ls : LoaderState α) (i : Nat) : LoaderState α :=
  let pv := fv.get i
  let pn := fn.get i
  { ls with
    vertices := ls.vertices ++ [pv]
    normals := ls.normals ++ [pn]
    minBBox := ⟨if ls.minBBox.x > pv.x then pv.x else ls.minBBox.x,
                if ls.minBBox.y > pv.y then pv.y else ls.minBBox.y,
                if ls.minBBox.z > pv.z then pv.z else ls.minBBox.z⟩
    maxBBox := ⟨if ls.maxBBox.x < pv.x then pv.x else ls.maxBBox.x,
                if ls.maxBBox.y < pv.y then pv.y else ls.maxBBox.y,
                if ls.maxBBox.z < pv.z then pv.z else ls.maxBBox.z⟩
    VIndices := ls.VIndices ++ [ls.currentIndex]
    NIndices := ls.NIndices ++ [ls.currentIndex]
    MIndices := ls.MIndices ++ [ls.currentMIndex]
    currentIndex := ls.currentIndex + 3 }

/-- `BlenderFileLoader::addTriangle`. The diagnostic member `_minEdgeSize`,
which nothing else in the loader reads, is left out. -/
def addTriangle (ls : LoaderState α) (v1 v2 v3 n1 n2 n3 : Vec3 α) (fm em1 em2 em3 : Bool) :
    LoaderState α :=
  let ls0 : LoaderState α :=
    if ls.currentIndex = 0 then { ls with minBBox := v1, maxBBox := v1 } else ls
  let ls1 := [0, 1, 2].foldl (addTriangle_body ⟨v1, v2, v3⟩ ⟨n1, n2, n3⟩) ls0
  { ls1 with faceEdgeMarks := ls1.faceEdgeMarks ++ [⟨fm, em1, em2, em3⟩] }

/-- `const float eps = 1.0e-6; const float eps_sq = eps * eps;` -/
def eps_sq : α := (1 / 1000000) * (1 / 1000000)

/-- `BlenderFileLoader::testDegenerateTriangle`. -/
def testDegenerateTriangle (B : Blenlib α) (v1 v2 v3 : Vec3 α) : Int :=
  if B.equals_v3v3 v1 v2 || B.equals_v3v3 v2 v3 || B.equals_v3v3 v1 v3 then 1
  else if B.dist_squared_to_line_segment_v3 v1 v2 v3 < eps_sq
      ∨ B.dist_squared_to_line_segment_v3 v2 v1 v3 < eps_sq
      ∨ B.dist_squared_to_line_segment_v3 v3 v1 v2 < eps_sq then 2
  else 0

/-- `BlenderFileLoader::testEdgeRotation`. -/
def testEdgeRotation (B : Blenlib α) (v1 v2 v3 v4 : Vec3 α) : Bool :=
  if testDegenerateTriangle B v1 v2 v3 = 2 ∨ testDegenerateTriangle B v1 v3 v4 = 2 then
    if testDegenerateTriangle B v1 v2 v4 = 2 ∨ testDegenerateTriangle B v2 v3 v4 = 2 then false
    else true
  else false

/-- Lines 404-420 and 500-516: `copy_v3_v3(v, co)`, then `mul_m4_v3(obi->mat, v)`
when `obi->flag & R_TRANSFORMED`, then `v[2] += _z_offset`. -/
def cameraCo (L : BlenderFileLoader α) (obi : ObjectInstanceRen α) (co : Vec3 α) : Vec3 α :=
  let v := if obi.transformed then obi.mat co else co
  ⟨v.x, v.y, v.z + L._z_offset⟩

/-- Body of the first loop of `insertShapeNode` (the face count). -/
def insertShapeNode_count (L : BlenderFileLoader α) (B : Blenlib α) (obi : ObjectInstanceRen α)
    (st : FirstPass) (vlr : VlakRen α) : FirstPass :=
  if vlr.mat.onlycast then st
  else if vlr.mat.wire then { st with wire_material := true }
  else
    let v1 := cameraCo L obi vlr.v1.co
    let v2 := cameraCo L obi vlr.v2.co
    let v3 := cameraCo L obi vlr.v3.co
    match vlr.v4 with
    | none => { st with numFaces := st.numFaces + (countClippedFaces L v1 v2 v3).1 }
    | some w4 =>
      let v4 := cameraCo L obi w4.co
      if !testEdgeRotation B v1 v2 v3 v4 then
        { st with numFaces :=
            st.numFaces + (countClippedFaces L v1 v2 v3).1 + (countClippedFaces L v1 v3 v4).1 }
      else
        { st with numFaces :=
            st.numFaces + (countClippedFaces L v1 v2 v4).1 + (countClippedFaces L v2 v3 v4).1 }

/-- The first loop of `insertShapeNode`. -/
def insertShapeNode_firstPass (L : BlenderFileLoader α) (B : Blenlib α)
    (obi : ObjectInstanceRen α) : FirstPass :=
  obi.vlak.foldl (insertShapeNode_count L B obi) ⟨0, false⟩

/-- Lines 517-552: the normal of a face vertex in the second loop. -/
def cameraNo (L : BlenderFileLoader α) (B : Blenlib α) (obi : ObjectInstanceRen α)
    (vlr : VlakRen α) (n : Vec3 α) : Vec3 α :=
  if L._smooth && vlr.smooth then
    if obi.transformed then B.normalize_v3 (obi.nmat n) else n
  else vlr.facenormal

/-- Lines 596-622: look the face's material up in `meshMaterials` (by
address), appending it when it is new, and set `ls.currentMIndex`. -/
def insertShapeNode_material (st : SecondPass α) (mat : Material) : SecondPass α :=
  if st.meshMaterials.isEmpty then
    { st with meshMaterials := st.meshMaterials ++ [mat] }
  else
    match st.meshMaterials.findIdx? (fun it => it.ptr = mat.ptr) with
    | some i => { st with ls := { st.ls with currentMIndex := i } }
    | none =>
      { st with
        meshMaterials := st.meshMaterials ++ [mat]
        ls := { st.ls with currentMIndex := (st.meshMaterials ++ [mat]).length - 1 } }

/-- The slot `k` of the scratch arrays; the fan reads slots `0 .. numTris + 1`,
the default stands for the stale contents of a slot that was not filled. -/
def slotAt (tri : List (Slot α)) (k : Nat) : Slot α :=
  tri.getD k ⟨⟨0, 0, 0⟩, ⟨0, 0, 0⟩, false, .vertex 0⟩

/-- Lines 636-642 and 654-660: emit the triangle fan of the clipped polygon;
iteration `i` calls `addTriangle` and increments `_numFacesRead`. -/
def insertShapeNode_fan (tri : List (Slot α)) (fm : Bool) (numTris : Nat) (st : SecondPass α) :
    SecondPass α :=
  (List.range numTris).foldl (fun st i =>
    { st with
      ls := addTriangle st.ls (slotAt tri 0).co (slotAt tri (i + 1)).co (slotAt tri (i + 2)).co
        (slotAt tri 0).no (slotAt tri (i + 1)).no (slotAt tri (i + 2)).no fm
        (if i = 0 then (slotAt tri 0).em else false) (slotAt tri (i + 1)).em
        (if i = numTris - 1 then (slotAt tri (i + 2)).em else false)
      _numFacesRead := st._numFacesRead + 1 }) st

/-- Lines 569-661 of the second loop, for the two halves of a face: `numTris_1`
triangles from the clipped polygon `tri1` and `numTris_2` from `tri2`
(`clipTriangle` is only called, and its result only read, for a half with
`numTris > 0`). -/
def insertShapeNode_halves (st : SecondPass α) (mat : Material) (fm : Bool)
    (numTris_1 : Nat) (tri1 : List (Slot α)) (numTris_2 : Nat) (tri2 : List (Slot α)) :
    SecondPass α :=
  if numTris_1 = 0 ∧ numTris_2 = 0 then st
  else
    let st1 := insertShapeNode_material st mat
    let st2 := if numTris_1 > 0 then insertShapeNode_fan tri1 fm numTris_1 st1 else st1
    if numTris_2 > 0 then insertShapeNode_fan tri2 fm numTris_2 st2 else st2

/-- Body of the second loop of `insertShapeNode` (clipping and emission). -/
def insertShapeNode_emit (L : BlenderFileLoader α) (B : Blenlib α) (obi : ObjectInstanceRen α)
    (st : SecondPass α) (vlr : VlakRen α) : SecondPass α :=
  if vlr.mat.onlycast || vlr.mat.wire then st
  else
    let v1 := cameraCo L obi vlr.v1.co
    let v2 := cameraCo L obi vlr.v2.co
    let v3 := cameraCo L obi vlr.v3.co
    let n1 := cameraNo L B obi vlr vlr.v1.n
    let n2 := cameraNo L B obi vlr vlr.v2.n
    let n3 := cameraNo L B obi vlr vlr.v3.n
    let fm := vlr.freestyle_face_mark
    let em1 := vlr.edge_v1v2
    let em2 := vlr.edge_v2v3
    match vlr.v4 with
    | none =>
      let c1 := countClippedFaces L v1 v2 v3
      let em3 := vlr.edge_v3v1
      insertShapeNode_halves st vlr.mat fm
        c1.1 (clipTriangle L v1 v2 v3 n1 n2 n3 em1 em2 em3 c1.2) 0 []
    | some w4 =>
      let v4 := cameraCo L obi w4.co
      let n4 := cameraNo L B obi vlr w4.n
      let em3 := vlr.edge_v3v4
      let em4 := vlr.edge_v4v1
      if !testEdgeRotation B v1 v2 v3 v4 then
        let c1 := countClippedFaces L v1 v2 v3
        let c2 := countClippedFaces L v1 v3 v4
        insertShapeNode_halves st vlr.mat fm
          c1.1 (clipTriangle L v1 v2 v3 n1 n2 n3 em1 em2 false c1.2)
          c2.1 (clipTriangle L v1 v3 v4 n1 n3 n4 false em3 em4 c2.2)
      else
        let c1 := countClippedFaces L v1 v2 v4
        let c2 := countClippedFaces L v2 v3 v4
        insertShapeNode_halves st vlr.mat fm
          c1.1 (clipTriangle L v1 v2 v4 n1 n2 n4 em1 false em4 c1.2)
          c2.1 (clipTriangle L v2 v3 v4 n2 n3 n4 em2 em3 false c2.2)

/-- The `LoaderState` set up before the second loop (lines 478-486); the
bounding box members are not initialised there. -/
def initialLoaderState : LoaderState α :=
  ⟨[], [], [], [], [], [], 0, 0, ⟨0, 0, 0⟩, ⟨0, 0, 0⟩⟩

/-- The second loop of `insertShapeNode`, entered with `_numFacesRead = r`. -/
def insertShapeNode_secondPass (L : BlenderFileLoader α) (B : Blenlib α)
    (obi : ObjectInstanceRen α) (r : Nat) : SecondPass α :=
  obi.vlak.foldl (insertShapeNode_emit L B obi) ⟨initialLoaderState, [], r⟩

end BlenderFileLoader

/-- The second-loop state `st` has made exactly `n` calls of `addTriangle`
since `_numFacesRead = r`: every cursor has advanced by the amount of `n`
calls. -/
def Emitted {α : Type} (st : SecondPass α) (r n : Nat) : Prop :=
  st._numFacesRead = r + n ∧ st.ls.faceEdgeMarks.length = n ∧ st.ls.currentIndex = 9 * n
    ∧ st.ls.vertices.length = 3 * n ∧ st.ls.normals.length = 3 * n
    ∧ st.ls.VIndices.length = 3 * n ∧ st.ls.NIndices.length = 3 * n
    ∧ st.ls.MIndices.length = 3 * n

namespace Vec3

variable {α : Type} [LinearOrderedField α]

/-- Component-wise difference `a - b`. -/
def sub (a b : Vec3 α) : Vec3 α := ⟨a.x - b.x, a.y - b.y, a.z - b.z⟩

/-- Cross product. -/
def cross (a b : Vec3 α) : Vec3 α :=
  ⟨a.y * b.z - a.z * b.y, a.z * b.x - a.x * b.z, a.x * b.y - a.y * b.x⟩

/-- Squared Euclidean length. -/
def normSq (a : Vec3 α) : α := a.x * a.x + a.y * a.y + a.z * a.z

/-- The point `a + s (b - a)` of the line through `a` and `b`. -/
def lerp (a b : Vec3 α) (s : α) : Vec3 α :=
  ⟨a.x + s * (b.x - a.x), a.y + s * (b.y - a.y), a.z + s * (b.z - a.z)⟩

end Vec3

/-- Area of the triangle `a b c`: half the length of `(b - a) × (c - a)`; the
square root is a parameter so that the definition stays computable. -/
def triArea {α : Type} [LinearOrderedField α] (sqrt : α → α) (a b c : Vec3 α) : α :=
  sqrt (Vec3.normSq (Vec3.cross (Vec3.sub b a) (Vec3.sub c a))) / 2

/-- Total area of the triangles stored three vertices at a time in a vertex
buffer. -/
def trianglesArea {α : Type} [LinearOrderedField α] (sqrt : α → α) : List (Vec3 α) → α
  | a :: b :: c :: rest => triArea sqrt a b c + trianglesArea sqrt rest
  | _ => 0

/-- The point at depth `z` of the line from `a` to `b`, measured from `a`. -/
def planePoint {α : Type} [LinearOrderedField α] (a b : Vec3 α) (z : α) : Vec3 α :=
  Vec3.lerp a b ((z - a.z) / (b.z - a.z))

/-- The clip plane that a vertex at depth `z` outside the slab lies beyond. -/
def crossedPlane {α : Type} [LinearOrderedField α] (L : BlenderFileLoader α) (z : α) : α :=
  if z > L._z_near then L._z_near else L._z_far

/-- Area of the part of the triangle `a b c` inside the slab when only `a` is
outside: the triangle without the corner cut off at `a` by the plane that `a`
lies beyond, the corner's other two vertices being the points where the edges
`a b` and `a c` meet that plane. -/
def slabQuadArea {α : Type} [LinearOrderedField α] (sqrt : α → α) (L : BlenderFileLoader α)
    (a b c : Vec3 α) : α :=
  triArea sqrt a b c
    - triArea sqrt a (planePoint a b (crossedPlane L a.z)) (planePoint a c (crossedPlane L a.z))

/-- The arguments of one call of `addTriangle`. -/
structure TriangleArgs (α : Type) where
  v1 : Vec3 α
  v2 : Vec3 α
  v3 : Vec3 α
  n1 : Vec3 α
  n2 : Vec3 α
  n3 : Vec3 α
  fm : Bool
  em1 : Bool
  em2 : Bool
  em3 : Bool

/-- A sequence of `addTriangle` calls on one `LoaderState`, in call order. -/
def addTriangles {α : Type} [LinearOrderedField α] (ls : LoaderState α)
    (calls : List (TriangleArgs α)) : LoaderState α :=
  calls.foldl (fun ls c => BlenderFileLoader.addTriangle ls c.v1 c.v2 c.v3 c.n1 c.n2 c.n3 c.fm c.em1 c.em2 c.em3) ls

/-- The vertex `v` lies in the box with corners `lo` and `hi`, component by
component. -/
def Vec3.within {α : Type} [LinearOrderedField α] (lo hi v : Vec3 α) : Prop :=
  (lo.x ≤ v.x ∧ v.x ≤ hi.x) ∧ (lo.y ≤ v.y ∧ v.y ≤ hi.y) ∧ (lo.z ≤ v.z ∧ v.z ≤ hi.z)

instance {α : Type} [LinearOrderedField α] (lo hi v : Vec3 α) : Decidable (Vec3.within lo hi v) :=
  inferInstanceAs (Decidable (_ ∧ _))

/-- Number of triangles the loops of `insertShapeNode` produce for one face
(what the first loop adds to `numFaces` for it). -/
def faceTriangles {α : Type} [LinearOrderedField α] (L : BlenderFileLoader α) (B : Blenlib α)
    (obi : ObjectInstanceRen α) (vlr : VlakRen α) : Nat :=
  (BlenderFileLoader.insertShapeNode_count L B obi ⟨0, false⟩ vlr).numFaces

/-- The face each entry of `MIndices` comes from: three entries per emitted
triangle, faces in mesh order. -/
def entryFaces {α : Type} [LinearOrderedField α] (L : BlenderFileLoader α) (B : Blenlib α)
    (obi : ObjectInstanceRen α) : List (VlakRen α) :=
  (obi.vlak.map (fun f => List.replicate (3 * faceTriangles L B obi f) f)).flatten

/-- Table entry `mi` of `table` exists and is the material of face `f`, by
address. -/
def IsMaterialOf {α : Type} (table : List Material) (mi : Nat) (f : VlakRen α) : Prop :=
  mi < table.length ∧ ∃ m, table[mi]? = some m ∧ m.ptr = f.mat.ptr

/-- One step of listing identities in first-seen order: `x` is appended unless
it is already listed. -/
def firstSeen_step (acc : List Nat) (x : Nat) : List Nat :=
  if x ∈ acc then acc else acc ++ [x]

/-- The identities of a sequence in the order in which they are first met,
each listed once. -/
def firstSeen (l : List Nat) : List Nat :=
  l.foldl firstSeen_step []

namespace Vec3

variable {α : Type} [LinearOrderedField α]

/-- Component-wise sum `a + b`. -/
def add (a b : Vec3 α) : Vec3 α := ⟨a.x + b.x, a.y + b.y, a.z + b.z⟩

/-- The multiple `k a`. -/
def smul (k : α) (a : Vec3 α) : Vec3 α := ⟨k * a.x, k * a.y, k * a.z⟩

/-- Dot product (`operator*` of two `Vec3r`). -/
def dot (a b : Vec3 α) : α := a.x * b.x + a.y * b.y + a.z * b.z

/-- `Vec3r::norm()`: the Euclidean length, with the square root as a
parameter. -/
def norm (sqrt : α → α) (a : Vec3 α) : α := sqrt (normSq a)

/-- `Vec3r::normalizeSafe()`: divide by the norm unless the norm is zero. -/
def normalizeSafe (sqrt : α → α) (a : Vec3 α) : Vec3 α :=
  if norm sqrt a ≠ 0 then ⟨a.x / norm sqrt a, a.y / norm sqrt a, a.z / norm sqrt a⟩ else a

end Vec3

/-- Modelled from the spec: `GeomUtils::distPointSegment` is not part of these
sources; it is the distance between the point `P` and the line segment `A B`
(the distance to the nearer end point when the foot of the perpendicular
falls outside the segment). -/
def distPointSegment {α : Type} [LinearOrderedField α] (sqrt : α → α) (P A B : Vec3 α) : α :=
  let AB := Vec3.sub B A
  let AP := Vec3.sub P A
  let BP := Vec3.sub P B
  let c1 := Vec3.dot AB AP
  if c1 ≤ 0 then Vec3.norm sqrt AP
  else
    let c2 := Vec3.dot AB AB
    if c2 ≤ c1 then Vec3.norm sqrt BP
    else Vec3.norm sqrt (Vec3.sub P (Vec3.add A (Vec3.smul (c1 / c2) AB)))

/-- `detri_t`: a recorded degenerate triangle, apex `viP`, base `viA`, `viB`,
accumulated direction `v` and number `n` of contributing triangles. -/
structure detri_t (α : Type) where
  viA : Nat
  viB : Nat
  viP : Nat
  v : Vec3 α
  n : Nat
deriving DecidableEq

namespace BlenderFileLoader

variable {α : Type} [LinearOrderedField α]

/-- The vertex array `cleanVertices` after the write
`cleanVertices[vi .. vi + 2] = p`. The array holds three reals per vertex and
every index of `cleanVIndices` is the offset of a vertex; the model keeps the
vertex at offset `vi` as the single value `cleanVertices vi`. -/
def writeVertex (cleanVertices : Nat → Vec3 α) (vi : Nat) (p : Vec3 α) : Nat → Vec3 α :=
  fun k => if k = vi then p else cleanVertices k

/-- Lines 704-730: the test of one triangle `(vi0, vi1, vi2)` of the index
stream; `none` stands for `continue`, otherwise the apex and base indices of
the new record are set (its `v` and `n` are set by the scan that follows). -/
def detri_find (sqrt : α → α) (cleanVertices : Nat → Vec3 α) (t : Arr3 Nat) :
    Option (detri_t α) :=
  let v0 := cleanVertices t.a0
  let v1 := cleanVertices t.a1
  let v2 := cleanVertices t.a2
  if v0 = v1 ∨ v0 = v2 ∨ v1 = v2 then none
  else if distPointSegment sqrt v0 v1 v2 < 1 / 1000000 then some ⟨t.a1, t.a2, t.a0, ⟨0, 0, 0⟩, 0⟩
  else if distPointSegment sqrt v1 v0 v2 < 1 / 1000000 then some ⟨t.a0, t.a2, t.a1, ⟨0, 0, 0⟩, 0⟩
  else if distPointSegment sqrt v2 v0 v1 < 1 / 1000000 then some ⟨t.a0, t.a1, t.a2, ⟨0, 0, 0⟩, 0⟩
  else none

/-- Lines 737-766: what one other triangle `(vi0, vi1, vi2)` adds to the record
`detri`. -/
def detri_neighbour (cleanVertices : Nat → Vec3 α) (detri : detri_t α) (t : Arr3 Nat) :
    detri_t α :=
  let v0 := cleanVertices t.a0
  let v1 := cleanVertices t.a1
  let v2 := cleanVertices t.a2
  if detri.viP = t.a0 ∧ (detri.viA = t.a1 ∨ detri.viB = t.a1) then
    { detri with v := Vec3.add detri.v (Vec3.sub v2 v0), n := detri.n + 1 }
  else if detri.viP = t.a0 ∧ (detri.viA = t.a2 ∨ detri.viB = t.a2) then
    { detri with v := Vec3.add detri.v (Vec3.sub v1 v0), n := detri.n + 1 }
  else if detri.viP = t.a1 ∧ (detri.viA = t.a0 ∨ detri.viB = t.a0) then
    { detri with v := Vec3.add detri.v (Vec3.sub v2 v1), n := detri.n + 1 }
  else if detri.viP = t.a1 ∧ (detri.viA = t.a2 ∨ detri.viB = t.a2) then
    { detri with v := Vec3.add detri.v (Vec3.sub v0 v1), n := detri.n + 1 }
  else if detri.viP = t.a2 ∧ (detri.viA = t.a0 ∨ detri.viB = t.a0) then
    { detri with v := Vec3.add detri.v (Vec3.sub v1 v2), n := detri.n + 1 }
  else if detri.viP = t.a2 ∧ (detri.viA = t.a1 ∨ detri.viB = t.a1) then
    { detri with v := Vec3.add detri.v (Vec3.sub v0 v2), n := detri.n + 1 }
  else detri

/-- Lines 732-767: the loop over every triangle `j` of the index stream other
than `i`, started with `v = 0`, `n = 0`. -/
def detri_scan (cleanVertices : Nat → Vec3 α) (cleanVIndices : List (Arr3 Nat)) (i : Nat)
    (detri : detri_t α) : detri_t α :=
  cleanVIndices.enum.foldl
    (fun d jt => if i = jt.1 then d else detri_neighbour cleanVertices d jt.2)
    { detri with v := ⟨0, 0, 0⟩, n := 0 }

/-- Lines 768-770: `if (detri.n > 0) detri.v.normalizeSafe();`. -/
def detri_normalize (sqrt : α → α) (detri : detri_t α) : detri_t α :=
  if detri.n > 0 then { detri with v := Vec3.normalizeSafe sqrt detri.v } else detri

/-- Lines 699-772: the list `detriList` built from the cleaned mesh; the index
stream holds one `Arr3` per triangle. -/
def detriList (sqrt : α → α) (cleanVertices : Nat → Vec3 α) (cleanVIndices : List (Arr3 Nat)) :
    List (detri_t α) :=
  cleanVIndices.enum.filterMap (fun it =>
    (detri_find sqrt cleanVertices it.2).map (fun d =>
      detri_normalize sqrt (detri_scan cleanVertices cleanVIndices it.1 d)))

/-- Lines 777-787: the repair of one record. -/
def detri_apply (sqrt : α → α) (cleanVertices : Nat → Vec3 α) (detri : detri_t α) :
    Nat → Vec3 α :=
  if detri.n = 0 then
    writeVertex cleanVertices detri.viP (cleanVertices detri.viA)
  else if Vec3.norm sqrt detri.v > 0 then
    writeVertex cleanVertices detri.viP
      (Vec3.add (cleanVertices detri.viP) (Vec3.smul (1 / 100000) detri.v))
  else cleanVertices

/-- Lines 699-793: the fix for degenerate triangles, returning `cleanVertices`
as it stands afterwards. -/
def insertShapeNode_repair (sqrt : α → α) (cleanVertices : Nat → Vec3 α)
    (cleanVIndices : List (Arr3 Nat)) : Nat → Vec3 α :=
  (detriList sqrt cleanVertices cleanVIndices).foldl (detri_apply sqrt) cleanVertices

end BlenderFileLoader
/-- The square of `distPointSegment`, without square roots. -/
def distSqPointSegment {α : Type} [LinearOrderedField α] (P A B : Vec3 α) : α :=
  let AB := Vec3.sub B A
  let AP := Vec3.sub P A
  let BP := Vec3.sub P B
  let c1 := Vec3.dot AB AP
  if c1 ≤ 0 then Vec3.normSq AP
  else
    let c2 := Vec3.dot AB AB
    if c2 ≤ c1 then Vec3.normSq BP
    else Vec3.normSq (Vec3.sub P (Vec3.add A (Vec3.smul (c1 / c2) AB)))
/-- The neighbour rule as the specification words it: the triangle `t` has the
apex `viP` among its indices and exactly one of `viA`, `viB` among its other
two indices. -/
def sharesApexAndOneBase {α : Type} (d : detri_t α) (t : Arr3 Nat) : Prop :=
  (t.a0 = d.viP ∧ ((d.viA ∈ [t.a1, t.a2] ∧ d.viB ∉ [t.a1, t.a2])
      ∨ (d.viB ∈ [t.a1, t.a2] ∧ d.viA ∉ [t.a1, t.a2])))
    ∨ (t.a1 = d.viP ∧ ((d.viA ∈ [t.a0, t.a2] ∧ d.viB ∉ [t.a0, t.a2])
      ∨ (d.viB ∈ [t.a0, t.a2] ∧ d.viA ∉ [t.a0, t.a2])))
    ∨ (t.a2 = d.viP ∧ ((d.viA ∈ [t.a0, t.a1] ∧ d.viB ∉ [t.a0, t.a1])
      ∨ (d.viB ∈ [t.a0, t.a1] ∧ d.viA ∉ [t.a0, t.a1])))

instance {α : Type} (d : detri_t α) (t : Arr3 Nat) : Decidable (sharesApexAndOneBase d t) :=
  inferInstanceAs (Decidable (_ ∨ _))

/-- The triangle `t` has the apex `viP` at one position and `viA` or `viB` at
another position. -/
def sharesApexAndBase {α : Type} (d : detri_t α) (t : Arr3 Nat) : Prop :=
  (t.a0 = d.viP ∧ (d.viA ∈ [t.a1, t.a2] ∨ d.viB ∈ [t.a1, t.a2]))
    ∨ (t.a1 = d.viP ∧ (d.viA ∈ [t.a0, t.a2] ∨ d.viB ∈ [t.a0, t.a2]))
    ∨ (t.a2 = d.viP ∧ (d.viA ∈ [t.a0, t.a1] ∨ d.viB ∈ [t.a0, t.a1]))

instance {α : Type} (d : detri_t α) (t : Arr3 Nat) : Decidable (sharesApexAndBase d t) :=
  inferInstanceAs (Decidable (_ ∨ _))

/-- Modelled from the spec: `GeomCleaner::CleanIndexedVertexArray` is not part
of these sources. It scans the vertex buffer, merges entries that are equal
component by component, keeping them in the order in which they are first met,
and rewrites every index to the offset (three reals per vertex) of the merged
entry. -/
def CleanIndexedVertexArray {α : Type} [LinearOrderedField α] (vertices : List (Vec3 α))
    (indices : List Nat) : List (Vec3 α) × List Nat :=
  let clean := vertices.foldl (fun acc v => if v ∈ acc then acc else acc ++ [v]) []
  (clean, indices.map (fun vi => 3 * clean.indexOf (vertices.getD (vi / 3) ⟨0, 0, 0⟩)))

/-- The array `cleanVertices` (three reals per vertex) as a map from the offset
of a vertex to the vertex. -/
def vertexArray {α : Type} [LinearOrderedField α] (cleanVertices : List (Vec3 α)) :
    Nat → Vec3 α :=
  fun vi => cleanVertices.getD (vi / 3) ⟨0, 0, 0⟩

/-- The index stream read three entries at a time (`i`, `i + 1`, `i + 2`). -/
def indexTriples : List Nat → List (Arr3 Nat)
  | a :: b :: c :: rest => ⟨a, b, c⟩ :: indexTriples rest
  | _ => []
/-- The part of the `IndexedFaceSet` built at lines 797-806 that the geometry
claims are about: the vertex array (by vertex offset), the vertex index
stream, and the two corners of the bounding box set with `setBBox`. -/
structure IndexedFaceSet (α : Type) where
  Vertices : Nat → Vec3 α
  VIndices : List Nat
  bboxMin : Vec3 α
  bboxMax : Vec3 α

/-- Lines 664-806 of `insertShapeNode`: clean the vertex array, fix the
degenerate triangles, and hand vertices, indices and the bounding box of the
`LoaderState` to the `IndexedFaceSet`. -/
def BlenderFileLoader.insertShapeNode_rep {α : Type} [LinearOrderedField α] (sqrt : α → α)
    (st : SecondPass α) : IndexedFaceSet α :=
  let clean := CleanIndexedVertexArray st.ls.vertices st.ls.VIndices
  { Vertices := BlenderFileLoader.insertShapeNode_repair sqrt (vertexArray clean.1)
      (indexTriples clean.2)
    VIndices := clean.2
    bboxMin := st.ls.minBBox
    bboxMax := st.ls.maxBBox }

/-- The table of the specification on `k` clipped vertices and code sum `s`;
`none` where the table has no row. -/
def specTable (k : Nat) (s : Int) : Option Nat :=
  if k = 0 then some 1
  else if k = 1 then some 2
  else if k = 2 ∧ s = 0 then some 3
  else if k = 2 ∧ (s = 2 ∨ s = -2) then some 1
  else if k = 3 ∧ (s = 3 ∨ s = -3) then some 0
  else if k = 3 then some 2
  else none

/-- Number of clipped entries of a classification array. -/
def numClippedOf (clip : Arr3 Int) : Nat :=
  (if clip.a0 ≠ NOT_CLIPPED then 1 else 0) + (if clip.a1 ≠ NOT_CLIPPED then 1 else 0)
    + (if clip.a2 ≠ NOT_CLIPPED then 1 else 0)

/-- Sum of the classification codes of an array. -/
def sumOf (clip : Arr3 Int) : Int := clip.a0 + clip.a1 + clip.a2

open BlenderFileLoader

variable {α : Type} [LinearOrderedField α]

/-- The classification code of a single depth, as chosen by the `if` chain of
the loop of `countClippedFaces`. -/
def clipCode (L : BlenderFileLoader α) (z : α) : Int :=
  if z > L._z_near then CLIPPED_BY_NEAR else if z < L._z_far then CLIPPED_BY_FAR else NOT_CLIPPED

/-- Lines 67-80 of `Load`: the members `_z_near`, `_z_far` and `_z_offset` set
up from `_re->clipsta` and `_re->clipend`; the literal `-0.001f` is the exact
value `-1/1000`. -/
def Load_clip (L : BlenderFileLoader α) (clipsta clipend : α) : BlenderFileLoader α :=
  if clipsta < 0 then
    { L with
      _z_near := -(1 / 1000)
      _z_offset := clipsta + -(1 / 1000)
      _z_far := -clipend + (clipsta + -(1 / 1000)) }
  else
    { L with
      _z_near := -clipsta
      _z_far := -clipend
      _z_offset := 0 }

/-- Lines 404-415: a vertex in the camera coordinate system, before
`v[2] += _z_offset`. -/
def cameraPoint (obi : ObjectInstanceRen α) (co : Vec3 α) : Vec3 α :=
  if obi.transformed then obi.mat co else co

/-- The divisor `d[2]` of `clipLine`: `q[2] - p[2]` for the ordered endpoints. -/
def clipLine_d2 (v1 v2 : Vec3 α) : α :=
  (clipLine_order v1 v2).2.z - (clipLine_order v1 v2).1.z

/-- The local `t` of `clipLine`: `(z - p[2]) / d[2]`. -/
def clipLine_t (v1 v2 : Vec3 α) (z : α) : α :=
  (z - (clipLine_order v1 v2).1.z) / clipLine_d2 v1 v2

/-- The arguments of the `addTriangle` call of iteration `i` of the fan loops
(lines 637-640 and 655-658). -/
def insertShapeNode_fanArgs (tri : List (Slot α)) (fm : Bool) (numTris : Nat) (i : Nat) :
    TriangleArgs α :=
  ⟨(slotAt tri 0).co, (slotAt tri (i + 1)).co, (slotAt tri (i + 2)).co,
    (slotAt tri 0).no, (slotAt tri (i + 1)).no, (slotAt tri (i + 2)).no, fm,
    if i = 0 then (slotAt tri 0).em else false, (slotAt tri (i + 1)).em,
    if i = numTris - 1 then (slotAt tri (i + 2)).em else false⟩

/-- Number of edge-mark bits set in a `FaceEdgeMark`. -/
def FaceEdgeMark.edgeMarks (m : FaceEdgeMark) : Nat :=
  (if m.v1v2 then 1 else 0) + (if m.v2v3 then 1 else 0) + (if m.v3v1 then 1 else 0)

/-- The members of the loader that `insertShapeNode` changes: the children of
the root node `_Scene` in the order of `AddChild` (each child is the node group
of one mesh, kept as the `IndexedFaceSet` of its shape), and the counter
`_numFacesRead`, incremented after every call of `addTriangle`. -/
structure LoaderRun (α : Type) where
  _Scene : List (IndexedFaceSet α)
  _numFacesRead : Nat

/-- `BlenderFileLoader::insertShapeNode`: the first loop, the return at
`numFaces == 0`, and otherwise the second loop, the cleaning and the repair,
and `_Scene->AddChild(currentMesh)`. -/
def BlenderFileLoader.insertShapeNode (sqrt : α → α) (L : BlenderFileLoader α) (B : Blenlib α)
    (obi : ObjectInstanceRen α) (s : LoaderRun α) : LoaderRun α :=
  if (insertShapeNode_firstPass L B obi).numFaces = 0 then s
  else
    { _Scene := s._Scene
        ++ [insertShapeNode_rep sqrt (insertShapeNode_secondPass L B obi s._numFacesRead)]
      _numFacesRead := (insertShapeNode_secondPass L B obi s._numFacesRead)._numFacesRead }

/-- The depths of the three or four vertices of a face as the loops of
`insertShapeNode` pass them to `countClippedFaces`. -/
def faceDepths (L : BlenderFileLoader α) (obi : ObjectInstanceRen α) (vlr : VlakRen α) :
    List α :=
  match vlr.v4 with
  | none =>
    [(cameraCo L obi vlr.v1.co).z, (cameraCo L obi vlr.v2.co).z, (cameraCo L obi vlr.v3.co).z]
  | some w4 =>
    [(cameraCo L obi vlr.v1.co).z, (cameraCo L obi vlr.v2.co).z, (cameraCo L obi vlr.v3.co).z,
      (cameraCo L obi w4.co).z]

/-- Every vertex of the face is clipped by the near plane, or every vertex is
clipped by the far plane. -/
def FullyClipped (L : BlenderFileLoader α) (obi : ObjectInstanceRen α) (vlr : VlakRen α) :
    Prop :=
  (∀ z ∈ faceDepths L obi vlr, clipCode L z = CLIPPED_BY_NEAR)
    ∨ (∀ z ∈ faceDepths L obi vlr, clipCode L z = CLIPPED_BY_FAR)

instance (L : BlenderFileLoader α) (obi : ObjectInstanceRen α) (vlr : VlakRen α) :
    Decidable (FullyClipped L obi vlr) :=
  inferInstanceAs (Decidable (_ ∨ _))

/-- The slot lies on the original edge `i`, which runs from `v[i]` to
`v[(i + 1) % 3]`: it holds one of the two end vertices, or a point computed by
`clipLine` on this edge. -/
def Origin.onEdge (o : Origin) (i : Nat) : Prop :=
  match o with
  | .vertex a => a = i ∨ a = (i + 1) % 3
  | .cut a _ => a = i

instance (o : Origin) (i : Nat) : Decidable (o.onEdge i) := by
  unfold Origin.onEdge
  cases o <;> exact inferInstance

/-- Both slots hold points computed by `clipLine` at the same clip plane. -/
def Origin.samePlane (a b : Origin) : Prop :=
  match a, b with
  | .cut _ c, .cut _ d => c = d
  | _, _ => False

instance (a b : Origin) : Decidable (a.samePlane b) := by
  unfold Origin.samePlane
  cases a <;> cases b <;> exact inferInstance

/-- The edges of the output polygon: edge `k` runs from slot `k` to slot `k + 1`,
the last one back to slot 0 (`edgeMarks[k]` is the mark of edge `k`). -/
def outputEdges (out : List (Slot α)) : List (Slot α × Slot α) :=
  out.zip (out.rotate 1)

/-- The number `k` of clipped vertices of a triangle, from the depths: the
vertices with Z greater than `_z_near` or less than `_z_far`. -/
def numClippedVertices (L : BlenderFileLoader α) (v1 v2 v3 : Vec3 α) : Nat :=
  ([v1, v2, v3].filter (fun v => decide (v.z > L._z_near ∨ v.z < L._z_far))).length

/-- The sum `s` of the classification codes of a triangle, from the depths:
`CLIPPED_BY_NEAR` for a Z greater than `_z_near`, otherwise `CLIPPED_BY_FAR` for
a Z less than `_z_far`, otherwise `NOT_CLIPPED`. -/
def codeSum (L : BlenderFileLoader α) (v1 v2 v3 : Vec3 α) : Int :=
  ([v1, v2, v3].map (fun v =>
    if v.z > L._z_near then CLIPPED_BY_NEAR
    else if v.z < L._z_far then CLIPPED_BY_FAR else NOT_CLIPPED)).sum

/-- The value that a 32-bit `unsigned` holds when the arithmetic of the source
yields the natural number `n`: `n` modulo `2^32 = 4294967296`. -/
def unsigned (n : Nat) : Nat := n % 4294967296

/-- Body of the loop of `addTriangle` with the cursor as the machine holds it:
`currentIndex` is a 32-bit `unsigned` (its values are written through
`unsigned *pvi` and `unsigned *pni`), so `ls->currentIndex += 3` wraps at
`2^32`. Everything else is `addTriangle_body`. -/
def addTriangle_body_unsigned (fv fn : Arr3 (Vec3 α)) (ls : LoaderState α) (i : Nat) :
    LoaderState α :=
  { addTriangle_body fv fn ls i with currentIndex := unsigned (ls.currentIndex + 3) }

/-- `BlenderFileLoader::addTriangle` with the 32-bit cursor. -/
def addTriangle_unsigned (ls : LoaderState α) (v1 v2 v3 n1 n2 n3 : Vec3 α)
    (fm em1 em2 em3 : Bool) : LoaderState α :=
  let ls0 : LoaderState α :=
    if ls.currentIndex = 0 then { ls with minBBox := v1, maxBBox := v1 } else ls
  let ls1 := [0, 1, 2].foldl (addTriangle_body_unsigned ⟨v1, v2, v3⟩ ⟨n1, n2, n3⟩) ls0
  { ls1 with faceEdgeMarks := ls1.faceEdgeMarks ++ [⟨fm, em1, em2, em3⟩] }

/-- A sequence of `addTriangle` calls with the 32-bit cursor, in call order. -/
def addTriangles_unsigned (ls : LoaderState α) (calls : List (TriangleArgs α)) : LoaderState α :=
  calls.foldl (fun ls c =>
    addTriangle_unsigned ls c.v1 c.v2 c.v3 c.n1 c.n2 c.n3 c.fm c.em1 c.em2 c.em3) ls

/-- The sizes of the buffers of `insertShapeNode`, all of type `unsigned`:
`vSize`, `nSize`, `viSize`, `niSize`, and `numFaces` itself, the size of
`faceEdgeMarks`, `faceStyle` and `numVertexPerFaces`. -/
structure BufferSizes where
  numFaces : Nat
  vSize : Nat
  nSize : Nat
  viSize : Nat
  niSize : Nat
deriving DecidableEq, Repr

/-- Lines 448-476: the sizes computed from the count of the first loop. The
count is held in `unsigned numFaces`, whose additions wrap at `2^32`, and the
products `3 * 3 * numFaces` and `3 * numFaces` are `unsigned` too. -/
def insertShapeNode_alloc (count : Nat) : BufferSizes :=
  { numFaces := unsigned count
    vSize := unsigned (3 * 3 * unsigned count)
    nSize := unsigned (3 * 3 * unsigned count)
    viSize := unsigned (3 * unsigned count)
    niSize := unsigned (3 * unsigned count) }

/-- The triangles of the index stream other than number `i`, in stream order:
the triangles that the loop of lines 734-767 does not skip. -/
def otherTriangles (cleanVIndices : List (Arr3 Nat)) (i : Nat) : List (Arr3 Nat) :=
  (cleanVIndices.enum.filter (fun jt => decide (i ≠ jt.1))).map (fun jt => jt.2)

/-- The third vertex of a triangle `t` that has the apex of `d` at one position
and a base vertex of `d` at another: the index at the remaining position. When
`t` holds both base vertices, the base vertex met first in the order of the
tests of lines 743-766 is the shared one. -/
def thirdVertex (d : detri_t α) (t : Arr3 Nat) : Nat :=
  if d.viP = t.a0 ∧ (d.viA = t.a1 ∨ d.viB = t.a1) then t.a2
  else if d.viP = t.a0 ∧ (d.viA = t.a2 ∨ d.viB = t.a2) then t.a1
  else if d.viP = t.a1 ∧ (d.viA = t.a0 ∨ d.viB = t.a0) then t.a2
  else if d.viP = t.a1 ∧ (d.viA = t.a2 ∨ d.viB = t.a2) then t.a0
  else if d.viP = t.a2 ∧ (d.viA = t.a0 ∨ d.viB = t.a0) then t.a1
  else t.a0

/-- The sum of a list of vectors, added in list order starting from zero. -/
def Vec3.sum (l : List (Vec3 α)) : Vec3 α :=
  l.foldl Vec3.add ⟨0, 0, 0⟩

theorem clipCode_cases (L : BlenderFileLoader α) (z : α) :
    (L._z_near < z ∧ clipCode L z = -1) ∨ (¬ L._z_near < z ∧ z < L._z_far ∧ clipCode L z = 1)
      ∨ (¬ L._z_near < z ∧ ¬ z < L._z_far ∧ clipCode L z = 0) := by
  unfold clipCode CLIPPED_BY_NEAR CLIPPED_BY_FAR NOT_CLIPPED
  by_cases h1 : L._z_near < z
  · left; simp [h1]
  · by_cases h2 : z < L._z_far
    · right; left; simp [h1, h2]
    · right; right; simp [h1, h2]

theorem countClippedFaces_clip (L : BlenderFileLoader α) (v1 v2 v3 : Vec3 α) :
    (countClippedFaces L v1 v2 v3).2 = ⟨clipCode L v1.z, clipCode L v2.z, clipCode L v3.z⟩ := by
  simp only [countClippedFaces, List.foldl, countClippedFaces_body, clipCode, Arr3.get, Arr3.set]
  split_ifs <;> rfl

theorem countClippedFaces_numTris (L : BlenderFileLoader α) (v1 v2 v3 : Vec3 α) :
    (countClippedFaces L v1 v2 v3).1
      = countClippedFaces_switch (numClippedOf ⟨clipCode L v1.z, clipCode L v2.z, clipCode L v3.z⟩)
          (sumOf ⟨clipCode L v1.z, clipCode L v2.z, clipCode L v3.z⟩) := by
  simp only [countClippedFaces, List.foldl, countClippedFaces_body, clipCode, Arr3.get, Arr3.set]
  split_ifs <;> rfl

/-- C2: entry `i` of the array filled by `countClippedFaces` is
`CLIPPED_BY_NEAR` exactly when the Z of vertex `i` is greater than `_z_near`,
`CLIPPED_BY_FAR` exactly when it is not greater than `_z_near` and less than
`_z_far`, `NOT_CLIPPED` exactly when neither holds; and it does not depend on
the other two vertices. -/
theorem countClippedFaces_classifies (L : BlenderFileLoader α) (v1 v2 v3 : Vec3 α) (i : Fin 3) :
    (((countClippedFaces L v1 v2 v3).2.get i.val = CLIPPED_BY_NEAR
        ↔ ((Arr3.mk v1 v2 v3).get i.val).z > L._z_near)
      ∧ ((countClippedFaces L v1 v2 v3).2.get i.val = CLIPPED_BY_FAR
        ↔ ¬ ((Arr3.mk v1 v2 v3).get i.val).z > L._z_near
            ∧ ((Arr3.mk v1 v2 v3).get i.val).z < L._z_far)
      ∧ ((countClippedFaces L v1 v2 v3).2.get i.val = NOT_CLIPPED
        ↔ ¬ ((Arr3.mk v1 v2 v3).get i.val).z > L._z_near
            ∧ ¬ (¬ ((Arr3.mk v1 v2 v3).get i.val).z > L._z_near
                  ∧ ((Arr3.mk v1 v2 v3).get i.val).z < L._z_far)))
      ∧ ∀ w1 w2 w3 : Vec3 α, (Arr3.mk w1 w2 w3).get i.val = (Arr3.mk v1 v2 v3).get i.val →
          (countClippedFaces L w1 w2 w3).2.get i.val = (countClippedFaces L v1 v2 v3).2.get i.val := by
  have key : ∀ u1 u2 u3 : Vec3 α, (countClippedFaces L u1 u2 u3).2.get i.val
      = clipCode L ((Arr3.mk u1 u2 u3).get i.val).z := by
    intro u1 u2 u3
    rw [countClippedFaces_clip]
    fin_cases i <;> rfl
  refine ⟨?_, ?_⟩
  · rw [key]
    generalize ((Arr3.mk v1 v2 v3).get i.val).z = z
    rcases clipCode_cases L z with ⟨a, h⟩ | ⟨a, b, h⟩ | ⟨a, b, h⟩
    · simp [h, a, CLIPPED_BY_NEAR, CLIPPED_BY_FAR, NOT_CLIPPED]
    · simp [h, a, b, CLIPPED_BY_NEAR, CLIPPED_BY_FAR, NOT_CLIPPED]
    · simp [h, a, b, CLIPPED_BY_NEAR, CLIPPED_BY_FAR, NOT_CLIPPED]
  · intro w1 w2 w3 hw
    rw [key, key, hw]

/-- C3: when the three vertices have Z in `[_z_far, _z_near]`,
`countClippedFaces` returns 1 and `clipTriangle` writes exactly the three
slots `(v1, n1, em1)`, `(v2, n2, em2)`, `(v3, n3, em3)`, in this order. -/
theorem clipTriangle_inside (L : BlenderFileLoader α) (v1 v2 v3 n1 n2 n3 : Vec3 α)
    (em1 em2 em3 : Bool)
    (h1 : L._z_far ≤ v1.z ∧ v1.z ≤ L._z_near) (h2 : L._z_far ≤ v2.z ∧ v2.z ≤ L._z_near)
    (h3 : L._z_far ≤ v3.z ∧ v3.z ≤ L._z_near) :
    (countClippedFaces L v1 v2 v3).1 = 1
      ∧ clipTriangle L v1 v2 v3 n1 n2 n3 em1 em2 em3 (countClippedFaces L v1 v2 v3).2
          = [⟨v1, n1, em1, .vertex 0⟩, ⟨v2, n2, em2, .vertex 1⟩, ⟨v3, n3, em3, .vertex 2⟩] := by
  have c1 : clipCode L v1.z = 0 := by
    simp [clipCode, not_lt.mpr h1.1, not_lt.mpr h1.2, NOT_CLIPPED]
  have c2 : clipCode L v2.z = 0 := by
    simp [clipCode, not_lt.mpr h2.1, not_lt.mpr h2.2, NOT_CLIPPED]
  have c3 : clipCode L v3.z = 0 := by
    simp [clipCode, not_lt.mpr h3.1, not_lt.mpr h3.2, NOT_CLIPPED]
  rw [countClippedFaces_clip, countClippedFaces_numTris, c1, c2, c3]
  exact ⟨by decide, by simp [clipTriangle, clipTriangle_body, Arr3.get, NOT_CLIPPED]⟩

theorem clipTriangle_inside_witness :
    (countClippedFaces (⟨-1, -10, 0, false⟩ : BlenderFileLoader ℚ) ⟨0, 0, -2⟩ ⟨1, 0, -3⟩ ⟨0, 1, -10⟩).1
        = 1
      ∧ clipTriangle (⟨-1, -10, 0, false⟩ : BlenderFileLoader ℚ) ⟨0, 0, -2⟩ ⟨1, 0, -3⟩ ⟨0, 1, -10⟩
          ⟨0, 0, 1⟩ ⟨0, 0, 1⟩ ⟨0, 0, 1⟩ true false true
          (countClippedFaces (⟨-1, -10, 0, false⟩ : BlenderFileLoader ℚ)
            ⟨0, 0, -2⟩ ⟨1, 0, -3⟩ ⟨0, 1, -10⟩).2
          = [⟨⟨0, 0, -2⟩, ⟨0, 0, 1⟩, true, .vertex 0⟩, ⟨⟨1, 0, -3⟩, ⟨0, 0, 1⟩, false, .vertex 1⟩,
              ⟨⟨0, 1, -10⟩, ⟨0, 0, 1⟩, true, .vertex 2⟩] :=
  clipTriangle_inside (⟨-1, -10, 0, false⟩ : BlenderFileLoader ℚ) ⟨0, 0, -2⟩ ⟨1, 0, -3⟩ ⟨0, 1, -10⟩
    ⟨0, 0, 1⟩ ⟨0, 0, 1⟩ ⟨0, 0, 1⟩ true false true (by decide) (by decide) (by decide)

/-- C4: for a depth strictly between the Z values of the endpoints, `clipLine`
orders the endpoints the same way whichever is passed first, so both calls
compute on the same operands `(p, q)` and return the same point. -/
theorem clipLine_symmetric (v1 v2 : Vec3 α) (z : α)
    (h : (v1.z < z ∧ z < v2.z) ∨ (v2.z < z ∧ z < v1.z)) :
    clipLine_order v1 v2 = clipLine_order v2 v1 ∧ clipLine v1 v2 z = clipLine v2 v1 z := by
  have ho : clipLine_order v1 v2 = clipLine_order v2 v1 := by
    unfold clipLine_order
    rcases h with ⟨a, b⟩ | ⟨a, b⟩
    · have h12 : v1.z < v2.z := lt_trans a b
      simp [h12, not_lt.mpr (le_of_lt h12)]
    · have h21 : v2.z < v1.z := lt_trans a b
      simp [h21, not_lt.mpr (le_of_lt h21)]
  exact ⟨ho, by unfold clipLine; rw [ho]⟩

theorem clipLine_symmetric_witness :
    clipLine_order (⟨1, 2, -1⟩ : Vec3 ℚ) ⟨4, 6, -5⟩ = clipLine_order ⟨4, 6, -5⟩ ⟨1, 2, -1⟩
      ∧ clipLine (⟨1, 2, -1⟩ : Vec3 ℚ) ⟨4, 6, -5⟩ (-2) = clipLine ⟨4, 6, -5⟩ ⟨1, 2, -1⟩ (-2) :=
  clipLine_symmetric (⟨1, 2, -1⟩ : Vec3 ℚ) ⟨4, 6, -5⟩ (-2) (Or.inr (by decide))

/-- C5: when `countClippedFaces` returns `numTris > 0`, `clipTriangle` run
with the array it filled writes exactly `numTris + 2` slots, which is at
least 3 and at most 5 (the size of the scratch arrays). -/
theorem clipTriangle_count (L : BlenderFileLoader α) (v1 v2 v3 n1 n2 n3 : Vec3 α)
    (em1 em2 em3 : Bool) (h : 0 < (countClippedFaces L v1 v2 v3).1) :
    (clipTriangle L v1 v2 v3 n1 n2 n3 em1 em2 em3 (countClippedFaces L v1 v2 v3).2).length
        = (countClippedFaces L v1 v2 v3).1 + 2
      ∧ 3 ≤ (clipTriangle L v1 v2 v3 n1 n2 n3 em1 em2 em3 (countClippedFaces L v1 v2 v3).2).length
      ∧ (clipTriangle L v1 v2 v3 n1 n2 n3 em1 em2 em3 (countClippedFaces L v1 v2 v3).2).length
          ≤ 5 := by
  rw [countClippedFaces_clip]
  rw [countClippedFaces_numTris] at h ⊢
  rcases clipCode_cases L v1.z with ⟨_, h1⟩ | ⟨_, _, h1⟩ | ⟨_, _, h1⟩ <;>
  rcases clipCode_cases L v2.z with ⟨_, h2⟩ | ⟨_, _, h2⟩ | ⟨_, _, h2⟩ <;>
  rcases clipCode_cases L v3.z with ⟨_, h3⟩ | ⟨_, _, h3⟩ | ⟨_, _, h3⟩ <;>
  rw [h1, h2, h3] at h ⊢ <;>
  first
    | exact absurd h (by decide)
    | simp [clipTriangle, clipTriangle_body, Arr3.get, NOT_CLIPPED, countClippedFaces_switch,
        numClippedOf, sumOf]

theorem clipTriangle_count_witness :
    (clipTriangle (⟨-1, -10, 0, false⟩ : BlenderFileLoader ℚ) ⟨0, 0, 0⟩ ⟨1, 0, -3⟩ ⟨0, 1, -12⟩
        ⟨0, 0, 1⟩ ⟨0, 0, 1⟩ ⟨0, 0, 1⟩ true false true
        (countClippedFaces (⟨-1, -10, 0, false⟩ : BlenderFileLoader ℚ)
          ⟨0, 0, 0⟩ ⟨1, 0, -3⟩ ⟨0, 1, -12⟩).2).length
        = (countClippedFaces (⟨-1, -10, 0, false⟩ : BlenderFileLoader ℚ)
            ⟨0, 0, 0⟩ ⟨1, 0, -3⟩ ⟨0, 1, -12⟩).1 + 2
      ∧ 3 ≤ (clipTriangle (⟨-1, -10, 0, false⟩ : BlenderFileLoader ℚ) ⟨0, 0, 0⟩ ⟨1, 0, -3⟩
          ⟨0, 1, -12⟩ ⟨0, 0, 1⟩ ⟨0, 0, 1⟩ ⟨0, 0, 1⟩ true false true
          (countClippedFaces (⟨-1, -10, 0, false⟩ : BlenderFileLoader ℚ)
            ⟨0, 0, 0⟩ ⟨1, 0, -3⟩ ⟨0, 1, -12⟩).2).length
      ∧ (clipTriangle (⟨-1, -10, 0, false⟩ : BlenderFileLoader ℚ) ⟨0, 0, 0⟩ ⟨1, 0, -3⟩
          ⟨0, 1, -12⟩ ⟨0, 0, 1⟩ ⟨0, 0, 1⟩ ⟨0, 0, 1⟩ true false true
          (countClippedFaces (⟨-1, -10, 0, false⟩ : BlenderFileLoader ℚ)
            ⟨0, 0, 0⟩ ⟨1, 0, -3⟩ ⟨0, 1, -12⟩).2).length ≤ 5 :=
  clipTriangle_count (⟨-1, -10, 0, false⟩ : BlenderFileLoader ℚ) ⟨0, 0, 0⟩ ⟨1, 0, -3⟩ ⟨0, 1, -12⟩
    ⟨0, 0, 1⟩ ⟨0, 0, 1⟩ ⟨0, 0, 1⟩ true false true (by decide)

/-- A property of slots that every iteration of the loop of `clipTriangle`
preserves holds for every slot written. -/
theorem clipTriangle_forall (L : BlenderFileLoader α) (v1 v2 v3 n1 n2 n3 : Vec3 α)
    (em1 em2 em3 : Bool) (clip : Arr3 Int) (P : Slot α → Prop)
    (hbody : ∀ (out : List (Slot α)) (i : Nat), i < 3 → (∀ s ∈ out, P s) →
      ∀ s ∈ clipTriangle_body L ⟨v1, v2, v3⟩ ⟨n1, n2, n3⟩ ⟨em1, em2, em3⟩ clip out i, P s) :
    ∀ s ∈ clipTriangle L v1 v2 v3 n1 n2 n3 em1 em2 em3 clip, P s := by
  unfold clipTriangle
  simp only [List.foldl]
  exact hbody _ 2 (by decide) (hbody _ 1 (by decide) (hbody _ 0 (by decide) (by simp)))

theorem clipCode_get (L : BlenderFileLoader α) (v1 v2 v3 : Vec3 α) (i : Nat) :
    (Arr3.mk (clipCode L v1.z) (clipCode L v2.z) (clipCode L v3.z)).get i
      = clipCode L ((Arr3.mk v1 v2 v3).get i).z := by
  unfold Arr3.get
  split <;> rfl

omit [LinearOrderedField α] in
theorem planeDepth_mem (L : BlenderFileLoader α) (c : Int) :
    planeDepth L c = L._z_near ∨ planeDepth L c = L._z_far := by
  unfold planeDepth
  split_ifs
  · exact Or.inl rfl
  · exact Or.inr rfl

/-- C7: with `_z_far ≤ _z_near` and the classification of `countClippedFaces`,
every slot written by `clipTriangle` has Z in `[_z_far, _z_near]`, and every
slot computed by `clipLine` has Z equal to `_z_near` or to `_z_far`. -/
theorem clipTriangle_within_planes (L : BlenderFileLoader α) (v1 v2 v3 n1 n2 n3 : Vec3 α)
    (em1 em2 em3 : Bool) (h : L._z_far ≤ L._z_near) :
    ∀ s ∈ clipTriangle L v1 v2 v3 n1 n2 n3 em1 em2 em3 (countClippedFaces L v1 v2 v3).2,
      (L._z_far ≤ s.co.z ∧ s.co.z ≤ L._z_near)
        ∧ (s.byClipLine = true → s.co.z = L._z_near ∨ s.co.z = L._z_far) := by
  rw [countClippedFaces_clip]
  have hcut : ∀ (a b nn : Vec3 α) (c : Int) (m : Bool) (o : Origin),
      (L._z_far ≤ (Slot.mk (clipLine a b (planeDepth L c)) nn m o).co.z
          ∧ (Slot.mk (clipLine a b (planeDepth L c)) nn m o).co.z ≤ L._z_near)
        ∧ ((Slot.mk (clipLine a b (planeDepth L c)) nn m o).byClipLine = true →
            (Slot.mk (clipLine a b (planeDepth L c)) nn m o).co.z = L._z_near
              ∨ (Slot.mk (clipLine a b (planeDepth L c)) nn m o).co.z = L._z_far) := by
    intro a b nn c m o
    have hz : (clipLine a b (planeDepth L c)).z = planeDepth L c := rfl
    simp only [hz]
    rcases planeDepth_mem L c with e | e <;> rw [e]
    · exact ⟨⟨h, le_refl _⟩, fun _ => Or.inl rfl⟩
    · exact ⟨⟨le_refl _, h⟩, fun _ => Or.inr rfl⟩
  apply clipTriangle_forall
  intro out i _ hout s hs
  unfold clipTriangle_body at hs
  simp only [clipCode_get] at hs
  split_ifs at hs with c1 c2 c3 c4
  · simp only [List.mem_append, List.mem_singleton] at hs
    rcases hs with (hs | hs) | hs
    · exact hout s hs
    · subst hs
      rcases clipCode_cases L ((Arr3.mk v1 v2 v3).get i).z with ⟨_, e⟩ | ⟨_, _, e⟩ | ⟨a, b, _⟩
      · rw [e] at c1; exact absurd c1 (by decide)
      · rw [e] at c1; exact absurd c1 (by decide)
      · exact ⟨⟨not_lt.mp b, not_lt.mp a⟩, fun hb => by simp [Slot.byClipLine] at hb⟩
    · subst hs; exact hcut _ _ _ _ _ _
  · simp only [List.mem_append, List.mem_singleton] at hs
    rcases hs with hs | hs
    · exact hout s hs
    · subst hs
      rcases clipCode_cases L ((Arr3.mk v1 v2 v3).get i).z with ⟨_, e⟩ | ⟨_, _, e⟩ | ⟨a, b, _⟩
      · rw [e] at c1; exact absurd c1 (by decide)
      · rw [e] at c1; exact absurd c1 (by decide)
      · exact ⟨⟨not_lt.mp b, not_lt.mp a⟩, fun hb => by simp [Slot.byClipLine] at hb⟩
  · simp only [List.mem_append, List.mem_singleton] at hs
    rcases hs with hs | hs
    · exact hout s hs
    · subst hs; exact hcut _ _ _ _ _ _
  · simp only [List.mem_append, List.mem_cons, List.mem_singleton, List.not_mem_nil,
      or_false] at hs
    rcases hs with hs | hs | hs
    · exact hout s hs
    · subst hs; exact hcut _ _ _ _ _ _
    · subst hs; exact hcut _ _ _ _ _ _
  · exact hout s hs

theorem clipTriangle_within_planes_witness :
    ((-10 : ℚ) ≤ -1
      ∧ (⟨⟨1 / 3, 0, -1⟩, ⟨0, 0, 1⟩, true, .cut 0 (-1)⟩ : Slot ℚ)
          ∈ clipTriangle (⟨-1, -10, 0, false⟩ : BlenderFileLoader ℚ) ⟨0, 0, 0⟩ ⟨1, 0, -3⟩
              ⟨0, 1, -12⟩ ⟨0, 0, 1⟩ ⟨0, 0, 1⟩ ⟨0, 0, 1⟩ true false true
              (countClippedFaces (⟨-1, -10, 0, false⟩ : BlenderFileLoader ℚ)
                ⟨0, 0, 0⟩ ⟨1, 0, -3⟩ ⟨0, 1, -12⟩).2)
      ∧ (((-10 : ℚ) ≤ (⟨⟨1 / 3, 0, -1⟩, ⟨0, 0, 1⟩, true, .cut 0 (-1)⟩ : Slot ℚ).co.z
          ∧ (⟨⟨1 / 3, 0, -1⟩, ⟨0, 0, 1⟩, true, .cut 0 (-1)⟩ : Slot ℚ).co.z ≤ -1)
        ∧ ((⟨⟨1 / 3, 0, -1⟩, ⟨0, 0, 1⟩, true, .cut 0 (-1)⟩ : Slot ℚ).byClipLine = true →
            (⟨⟨1 / 3, 0, -1⟩, ⟨0, 0, 1⟩, true, .cut 0 (-1)⟩ : Slot ℚ).co.z = -1
              ∨ (⟨⟨1 / 3, 0, -1⟩, ⟨0, 0, 1⟩, true, .cut 0 (-1)⟩ : Slot ℚ).co.z = -10)) :=
  ⟨⟨by decide, by
      norm_num [clipTriangle, clipTriangle_body, countClippedFaces, countClippedFaces_body,
        Arr3.get, Arr3.set, clipLine, clipLine_order, clipLine_interp, planeDepth,
        CLIPPED_BY_NEAR, CLIPPED_BY_FAR, NOT_CLIPPED]⟩,
    clipTriangle_within_planes (⟨-1, -10, 0, false⟩ : BlenderFileLoader ℚ)
      ⟨0, 0, 0⟩ ⟨1, 0, -3⟩ ⟨0, 1, -12⟩ ⟨0, 0, 1⟩ ⟨0, 0, 1⟩ ⟨0, 0, 1⟩ true false true (by decide)
      ⟨⟨1 / 3, 0, -1⟩, ⟨0, 0, 1⟩, true, .cut 0 (-1)⟩ (by
        norm_num [clipTriangle, clipTriangle_body, countClippedFaces, countClippedFaces_body,
          Arr3.get, Arr3.set, clipLine, clipLine_order, clipLine_interp, planeDepth,
          CLIPPED_BY_NEAR, CLIPPED_BY_FAR, NOT_CLIPPED])⟩

/-- C8 as stated fails: for the triangle with `v1` beyond the near plane and
`v2`, `v3` inside, slot 0 holds `clipLine(v1, v2, _z_near)` and carries the
edge mark `em1 = true`. -/
theorem clipTriangle_interpolated_marked :
    ¬ ∀ s ∈ clipTriangle (⟨-1, -10, 0, false⟩ : BlenderFileLoader ℚ) ⟨0, 0, 0⟩ ⟨0, 0, -2⟩
        ⟨1, 0, -2⟩ ⟨0, 0, 1⟩ ⟨0, 0, 1⟩ ⟨0, 0, 1⟩ true false false
        (countClippedFaces (⟨-1, -10, 0, false⟩ : BlenderFileLoader ℚ)
          ⟨0, 0, 0⟩ ⟨0, 0, -2⟩ ⟨1, 0, -2⟩).2,
      s.byClipLine = true → s.em = false := by
  decide

/-- C8, amended: a slot of `clipTriangle` computed by `clipLine` on edge `i`
(from `v[i]` to `v[(i + 1) % 3]`) carries `em[i]` when it is the cut at the
plane that clips the edge's start vertex `v[i]`, and `false` when it is the cut
at the plane that clips the edge's end vertex `v[(i + 1) % 3]`; for every
triangle, every classification array and all input edge marks. -/
theorem clipTriangle_interpolated_marks (L : BlenderFileLoader α)
    (v1 v2 v3 n1 n2 n3 : Vec3 α) (em1 em2 em3 : Bool) (clip : Arr3 Int) :
    ∀ s ∈ clipTriangle L v1 v2 v3 n1 n2 n3 em1 em2 em3 clip, ∀ (i : Nat) (c : Int),
      s.origin = .cut i c →
        c ≠ NOT_CLIPPED ∧ ((c = clip.get i ∧ s.em = (Arr3.mk em1 em2 em3).get i)
          ∨ (c ≠ clip.get i ∧ c = clip.get ((i + 1) % 3) ∧ s.em = false)) := by
  apply clipTriangle_forall
  intro out i _ hout s hs
  simp only [clipTriangle_body, ne_eq, ite_not] at hs
  split_ifs at hs with c1 c2 c3 c4
  · simp only [List.mem_append, List.mem_singleton] at hs
    rcases hs with hs | hs
    · exact hout s hs
    · subst hs; intro i' c' ho; simp at ho
  · simp only [List.mem_append, List.mem_singleton] at hs
    rcases hs with (hs | hs) | hs
    · exact hout s hs
    · subst hs; intro i' c' ho; simp at ho
    · subst hs; intro i' c' ho
      simp only [Origin.cut.injEq] at ho
      obtain ⟨rfl, rfl⟩ := ho
      exact ⟨c2, Or.inr ⟨by rw [c1]; exact c2, rfl, rfl⟩⟩
  · exact hout s hs
  · simp only [List.mem_append, List.mem_singleton] at hs
    rcases hs with hs | hs
    · exact hout s hs
    · subst hs; intro i' c' ho
      simp only [Origin.cut.injEq] at ho
      obtain ⟨rfl, rfl⟩ := ho
      exact ⟨c1, Or.inl ⟨rfl, rfl⟩⟩
  · simp only [List.mem_append, List.mem_cons, List.mem_singleton, List.not_mem_nil,
      or_false] at hs
    rcases hs with hs | hs | hs
    · exact hout s hs
    · subst hs; intro i' c' ho
      simp only [Origin.cut.injEq] at ho
      obtain ⟨rfl, rfl⟩ := ho
      exact ⟨c1, Or.inl ⟨rfl, rfl⟩⟩
    · subst hs; intro i' c' ho
      simp only [Origin.cut.injEq] at ho
      obtain ⟨rfl, rfl⟩ := ho
      exact ⟨c4, Or.inr ⟨fun e => c3 e.symm, rfl, rfl⟩⟩

theorem clipTriangle_interpolated_marks_witness :
    ((⟨⟨0, 0, -1⟩, ⟨0, 0, 1⟩, true, .cut 0 (-1)⟩ : Slot ℚ)
        ∈ clipTriangle (⟨-1, -10, 0, false⟩ : BlenderFileLoader ℚ) ⟨0, 0, 0⟩ ⟨0, 0, -2⟩
            ⟨1, 0, -2⟩ ⟨0, 0, 1⟩ ⟨0, 0, 1⟩ ⟨0, 0, 1⟩ true false false ⟨-1, 0, 0⟩)
      ∧ ((-1 : Int) ≠ NOT_CLIPPED
        ∧ (((-1 : Int) = (Arr3.mk (-1 : Int) 0 0).get 0
            ∧ (⟨⟨0, 0, -1⟩, ⟨0, 0, 1⟩, true, .cut 0 (-1)⟩ : Slot ℚ).em
                = (Arr3.mk true false false).get 0)
          ∨ ((-1 : Int) ≠ (Arr3.mk (-1 : Int) 0 0).get 0
            ∧ (-1 : Int) = (Arr3.mk (-1 : Int) 0 0).get ((0 + 1) % 3)
            ∧ (⟨⟨0, 0, -1⟩, ⟨0, 0, 1⟩, true, .cut 0 (-1)⟩ : Slot ℚ).em = false))) :=
  ⟨by
      norm_num [clipTriangle, clipTriangle_body, Arr3.get, clipLine, clipLine_order,
        clipLine_interp, planeDepth, CLIPPED_BY_NEAR, NOT_CLIPPED],
    clipTriangle_interpolated_marks (⟨-1, -10, 0, false⟩ : BlenderFileLoader ℚ)
      ⟨0, 0, 0⟩ ⟨0, 0, -2⟩ ⟨1, 0, -2⟩ ⟨0, 0, 1⟩ ⟨0, 0, 1⟩ ⟨0, 0, 1⟩ true false false ⟨-1, 0, 0⟩
      ⟨⟨0, 0, -1⟩, ⟨0, 0, 1⟩, true, .cut 0 (-1)⟩ (by
        norm_num [clipTriangle, clipTriangle_body, Arr3.get, clipLine, clipLine_order,
          clipLine_interp, planeDepth, CLIPPED_BY_NEAR, NOT_CLIPPED]) 0 (-1) rfl⟩

theorem addTriangle_sizes (ls : LoaderState α) (v1 v2 v3 n1 n2 n3 : Vec3 α)
    (fm em1 em2 em3 : Bool) :
    (addTriangle ls v1 v2 v3 n1 n2 n3 fm em1 em2 em3).faceEdgeMarks.length
        = ls.faceEdgeMarks.length + 1
      ∧ (addTriangle ls v1 v2 v3 n1 n2 n3 fm em1 em2 em3).currentIndex = ls.currentIndex + 9
      ∧ (addTriangle ls v1 v2 v3 n1 n2 n3 fm em1 em2 em3).vertices.length
          = ls.vertices.length + 3
      ∧ (addTriangle ls v1 v2 v3 n1 n2 n3 fm em1 em2 em3).normals.length
          = ls.normals.length + 3
      ∧ (addTriangle ls v1 v2 v3 n1 n2 n3 fm em1 em2 em3).VIndices.length
          = ls.VIndices.length + 3
      ∧ (addTriangle ls v1 v2 v3 n1 n2 n3 fm em1 em2 em3).NIndices.length
          = ls.NIndices.length + 3
      ∧ (addTriangle ls v1 v2 v3 n1 n2 n3 fm em1 em2 em3).MIndices.length
          = ls.MIndices.length + 3 := by
  simp only [addTriangle, List.foldl, addTriangle_body]
  split_ifs <;> simp

theorem emitted_step (st : SecondPass α) (r n : Nat) (h : Emitted st r n)
    (v1 v2 v3 n1 n2 n3 : Vec3 α) (fm em1 em2 em3 : Bool) :
    Emitted { st with ls := addTriangle st.ls v1 v2 v3 n1 n2 n3 fm em1 em2 em3,
                      _numFacesRead := st._numFacesRead + 1 } r (n + 1) := by
  obtain ⟨a1, a2, a3, a4, a5, a6, a7, a8⟩ := h
  obtain ⟨b2, b3, b4, b5, b6, b7, b8⟩ :=
    addTriangle_sizes st.ls v1 v2 v3 n1 n2 n3 fm em1 em2 em3
  refine ⟨?_, ?_, ?_, ?_, ?_, ?_, ?_, ?_⟩ <;> simp only [] <;> omega

omit [LinearOrderedField α] in
theorem emitted_foldl (r : Nat) (f : SecondPass α → Nat → SecondPass α)
    (hf : ∀ st i n, Emitted st r n → Emitted (f st i) r (n + 1)) (l : List Nat) :
    ∀ (st : SecondPass α) (n : Nat), Emitted st r n → Emitted (l.foldl f st) r (n + l.length) := by
  induction l with
  | nil => intro st n h; simpa using h
  | cons a l ih =>
    intro st n h
    have := ih (f st a) (n + 1) (hf st a n h)
    simpa [List.foldl, Nat.add_assoc, Nat.add_comm 1] using this

theorem emitted_fan (tri : List (Slot α)) (fm : Bool) (k : Nat) (st : SecondPass α)
    (r n : Nat) (h : Emitted st r n) : Emitted (insertShapeNode_fan tri fm k st) r (n + k) := by
  unfold insertShapeNode_fan
  have := emitted_foldl r _ (fun st i n h => emitted_step st r n h
      (slotAt tri 0).co (slotAt tri (i + 1)).co (slotAt tri (i + 2)).co
      (slotAt tri 0).no (slotAt tri (i + 1)).no (slotAt tri (i + 2)).no fm
      (if i = 0 then (slotAt tri 0).em else false) (slotAt tri (i + 1)).em
      (if i = k - 1 then (slotAt tri (i + 2)).em else false)) (List.range k) st n h
  simpa using this

omit [LinearOrderedField α] in
theorem emitted_material (st : SecondPass α) (mat : Material) (r n : Nat)
    (h : Emitted st r n) : Emitted (insertShapeNode_material st mat) r n := by
  unfold insertShapeNode_material
  split_ifs
  · exact h
  · split <;> exact h

/-- The number of triangles the first loop counts for one face. -/
theorem insertShapeNode_count_numFaces (L : BlenderFileLoader α) (B : Blenlib α)
    (obi : ObjectInstanceRen α) (st : FirstPass) (vlr : VlakRen α) :
    (insertShapeNode_count L B obi st vlr).numFaces
      = st.numFaces + (insertShapeNode_count L B obi ⟨0, false⟩ vlr).numFaces := by
  unfold insertShapeNode_count
  split_ifs
  · simp
  · simp
  · split
    · simp
    · simp only []
      split_ifs <;> simp [Nat.add_assoc]

theorem emitted_halves (st : SecondPass α) (mat : Material) (fm : Bool) (k1 k2 : Nat)
    (t1 t2 : List (Slot α)) (r n : Nat) (h : Emitted st r n) :
    Emitted (insertShapeNode_halves st mat fm k1 t1 k2 t2) r (n + k1 + k2) := by
  unfold insertShapeNode_halves
  rcases Nat.eq_zero_or_pos k1 with e1 | p1 <;> rcases Nat.eq_zero_or_pos k2 with e2 | p2
  · subst e1 e2
    simpa using h
  · subst e1
    have hne : ¬ k2 = 0 := by omega
    simpa [hne, p2] using emitted_fan t2 fm k2 _ r n (emitted_material st mat r n h)
  · subst e2
    have hne : ¬ k1 = 0 := by omega
    simpa [hne, p1] using emitted_fan t1 fm k1 _ r n (emitted_material st mat r n h)
  · have hne : ¬ (k1 = 0 ∧ k2 = 0) := by omega
    simp only [hne, p1, p2, gt_iff_lt, if_true, if_false]
    exact emitted_fan _ _ _ _ r _ (emitted_fan _ _ _ _ r n (emitted_material st mat r n h))

/-- One face advances the second loop by as many `addTriangle` calls as the
first loop counts for it. -/
theorem emitted_emit (L : BlenderFileLoader α) (B : Blenlib α) (obi : ObjectInstanceRen α)
    (st : SecondPass α) (vlr : VlakRen α) (r n : Nat) (h : Emitted st r n) :
    Emitted (insertShapeNode_emit L B obi st vlr) r
      (n + (insertShapeNode_count L B obi ⟨0, false⟩ vlr).numFaces) := by
  unfold insertShapeNode_emit insertShapeNode_count
  by_cases ho : vlr.mat.onlycast = true
  · simpa [ho] using h
  by_cases hw : vlr.mat.wire = true
  · simpa [ho, hw] using h
  simp only [ho, hw, Bool.or_self, Bool.false_eq_true, if_false]
  split
  · simpa using emitted_halves st vlr.mat vlr.freestyle_face_mark _ 0 _ [] r n h
  · split_ifs with hr
    · simpa [Nat.add_assoc] using emitted_halves st vlr.mat vlr.freestyle_face_mark _ _ _ _ r n h
    · simpa [Nat.add_assoc] using emitted_halves st vlr.mat vlr.freestyle_face_mark _ _ _ _ r n h

/-- In exact arithmetic `clipLine` returns the point of the line at depth `z`,
whichever endpoint comes first. -/
theorem clipLine_eq_planePoint (a b : Vec3 α) (z : α) (h : a.z ≠ b.z) :
    clipLine a b z = planePoint a b z ∧ clipLine b a z = planePoint a b z := by
  have hab : a.z - b.z ≠ 0 := sub_ne_zero.mpr h
  have hba : b.z - a.z ≠ 0 := sub_ne_zero.mpr (Ne.symm h)
  rcases lt_or_gt_of_ne h with hlt | hgt
  · have hn : ¬ b.z < a.z := not_lt.mpr (le_of_lt hlt)
    simp only [clipLine, clipLine_order, clipLine_interp, planePoint, Vec3.lerp, hlt, hn,
      if_true, if_false, Vec3.mk.injEq]
    refine ⟨⟨trivial, trivial, ?_⟩, ⟨trivial, trivial, ?_⟩⟩ <;> field_simp
  · have hn : ¬ a.z < b.z := not_lt.mpr (le_of_lt hgt)
    have hgt' : b.z < a.z := hgt
    simp only [clipLine, clipLine_order, clipLine_interp, planePoint, Vec3.lerp, hgt', hn,
      if_true, if_false, Vec3.mk.injEq]
    refine ⟨⟨?_, ?_, ?_⟩, ⟨?_, ?_, ?_⟩⟩ <;> field_simp <;> ring

/-- A triangle whose cross product has `k²` times the squared length of that
of `a b c`, with `k ≥ 0`, has `k` times its area. -/
theorem triArea_scaled (p q r a b c : Vec3 ℝ) (k : ℝ) (hk : 0 ≤ k)
    (h : Vec3.normSq (Vec3.cross (Vec3.sub q p) (Vec3.sub r p))
      = k ^ 2 * Vec3.normSq (Vec3.cross (Vec3.sub b a) (Vec3.sub c a))) :
    triArea Real.sqrt p q r = k * triArea Real.sqrt a b c := by
  unfold triArea
  rw [h, Real.sqrt_mul (sq_nonneg k), Real.sqrt_sq hk]
  ring

/-- The fan of the quadrilateral `P B C Q`, started at any of the corners the
loop of `clipTriangle` can start at, covers the triangle `A B C` without the
corner `A P Q`; here `P = A + s (B - A)`, `Q = A + t (C - A)`. -/
theorem fan_area_lerp (a b c : Vec3 ℝ) (s t : ℝ) (hs0 : 0 ≤ s) (hs1 : s ≤ 1) (ht0 : 0 ≤ t)
    (ht1 : t ≤ 1) :
    (triArea Real.sqrt (Vec3.lerp a b s) b c + triArea Real.sqrt (Vec3.lerp a b s) c (Vec3.lerp a c t)
        = triArea Real.sqrt a b c - triArea Real.sqrt a (Vec3.lerp a b s) (Vec3.lerp a c t))
      ∧ (triArea Real.sqrt c (Vec3.lerp a c t) (Vec3.lerp a b s)
          + triArea Real.sqrt c (Vec3.lerp a b s) b
        = triArea Real.sqrt a b c - triArea Real.sqrt a (Vec3.lerp a b s) (Vec3.lerp a c t))
      ∧ (triArea Real.sqrt b c (Vec3.lerp a c t)
          + triArea Real.sqrt b (Vec3.lerp a c t) (Vec3.lerp a b s)
        = triArea Real.sqrt a b c - triArea Real.sqrt a (Vec3.lerp a b s) (Vec3.lerp a c t)) := by
  have e1 : triArea Real.sqrt (Vec3.lerp a b s) b c = (1 - s) * triArea Real.sqrt a b c :=
    triArea_scaled _ _ _ a b c (1 - s) (by linarith)
      (by simp only [Vec3.normSq, Vec3.cross, Vec3.sub, Vec3.lerp]; ring)
  have e2 : triArea Real.sqrt (Vec3.lerp a b s) c (Vec3.lerp a c t)
      = (s * (1 - t)) * triArea Real.sqrt a b c :=
    triArea_scaled _ _ _ a b c (s * (1 - t)) (mul_nonneg hs0 (by linarith))
      (by simp only [Vec3.normSq, Vec3.cross, Vec3.sub, Vec3.lerp]; ring)
  have e3 : triArea Real.sqrt c (Vec3.lerp a c t) (Vec3.lerp a b s)
      = (s * (1 - t)) * triArea Real.sqrt a b c :=
    triArea_scaled _ _ _ a b c (s * (1 - t)) (mul_nonneg hs0 (by linarith))
      (by simp only [Vec3.normSq, Vec3.cross, Vec3.sub, Vec3.lerp]; ring)
  have e4 : triArea Real.sqrt c (Vec3.lerp a b s) b = (1 - s) * triArea Real.sqrt a b c :=
    triArea_scaled _ _ _ a b c (1 - s) (by linarith)
      (by simp only [Vec3.normSq, Vec3.cross, Vec3.sub, Vec3.lerp]; ring)
  have e5 : triArea Real.sqrt b c (Vec3.lerp a c t) = (1 - t) * triArea Real.sqrt a b c :=
    triArea_scaled _ _ _ a b c (1 - t) (by linarith)
      (by simp only [Vec3.normSq, Vec3.cross, Vec3.sub, Vec3.lerp]; ring)
  have e6 : triArea Real.sqrt b (Vec3.lerp a c t) (Vec3.lerp a b s)
      = (t * (1 - s)) * triArea Real.sqrt a b c :=
    triArea_scaled _ _ _ a b c (t * (1 - s)) (mul_nonneg ht0 (by linarith))
      (by simp only [Vec3.normSq, Vec3.cross, Vec3.sub, Vec3.lerp]; ring)
  have e7 : triArea Real.sqrt a (Vec3.lerp a b s) (Vec3.lerp a c t)
      = (s * t) * triArea Real.sqrt a b c :=
    triArea_scaled _ _ _ a b c (s * t) (mul_nonneg hs0 ht0)
      (by simp only [Vec3.normSq, Vec3.cross, Vec3.sub, Vec3.lerp]; ring)
  rw [e1, e2, e3, e4, e5, e6, e7]
  refine ⟨by ring, by ring, by ring⟩

/-- The parameter at which an edge from an outside vertex (depth `za`) to an
inside vertex (depth `zb`) meets the plane the outside vertex lies beyond is
in `[0, 1]`. -/
theorem crossedPlane_param (L : BlenderFileLoader α) (za zb : α)
    (ha : za > L._z_near ∨ za < L._z_far)
    (hb : L._z_far ≤ zb ∧ zb ≤ L._z_near) :
    za ≠ zb ∧ 0 ≤ (crossedPlane L za - za) / (zb - za)
      ∧ (crossedPlane L za - za) / (zb - za) ≤ 1 := by
  unfold crossedPlane
  by_cases h1 : za > L._z_near
  · have hlt : zb - za < 0 := by linarith [hb.2]
    simp only [h1, if_true]
    refine ⟨fun e => by rw [e] at h1; exact absurd hb.2 (not_le.mpr h1), ?_, ?_⟩
    · exact div_nonneg_of_nonpos (by linarith) (le_of_lt hlt)
    · rw [div_le_one_of_neg hlt]; linarith [hb.2]
  · have h2 : za < L._z_far := by
      rcases ha with h | h
      · exact absurd h h1
      · exact h
    have hgt : 0 < zb - za := by linarith [hb.1]
    simp only [h1, if_false]
    refine ⟨fun e => by rw [e] at h2; exact absurd hb.1 (not_le.mpr h2), ?_, ?_⟩
    · exact div_nonneg (by linarith) (le_of_lt hgt)
    · rw [div_le_one hgt]; linarith [hb.1]

theorem clipCode_inside (L : BlenderFileLoader α) (z : α)
    (h : L._z_far ≤ z ∧ z ≤ L._z_near) : clipCode L z = 0 := by
  simp [clipCode, not_lt.mpr h.1, not_lt.mpr h.2, NOT_CLIPPED]

theorem clipCode_outside (L : BlenderFileLoader α) (z : α)
    (h : z > L._z_near ∨ z < L._z_far) :
    (clipCode L z = -1 ∨ clipCode L z = 1) ∧ planeDepth L (clipCode L z) = crossedPlane L z := by
  unfold clipCode planeDepth crossedPlane CLIPPED_BY_NEAR CLIPPED_BY_FAR NOT_CLIPPED
  by_cases h1 : z > L._z_near
  · simp [h1]
  · have h2 : z < L._z_far := by
      rcases h with h | h
      · exact absurd h h1
      · exact h
    simp [h1, h2]

/-- The vertex buffer after the fan of a four-slot polygon is emitted into an
empty loader state. -/
theorem fan_quad_vertices (s0 s1 s2 s3 : Slot α) (fm : Bool) :
    (insertShapeNode_fan [s0, s1, s2, s3] fm 2 ⟨initialLoaderState, [], 0⟩).ls.vertices
      = [s0.co, s1.co, s2.co, s0.co, s2.co, s3.co] := by
  rfl

/-- C6: when exactly one vertex `A = v[i]` of a triangle lies outside the slab
and the other two, `B = v[(i+1)%3]` and `C = v[(i+2)%3]`, lie inside it (so
`_z_far ≤ _z_near`), `countClippedFaces` returns 2, the fan emits two
triangles (six vertices), and over the reals the sum of their areas is the
area of the part of the triangle inside the slab: the triangle without the
corner cut off at `A`. -/
theorem clipTriangle_one_outside_area (L : BlenderFileLoader ℝ) (v1 v2 v3 n1 n2 n3 : Vec3 ℝ)
    (em1 em2 em3 fm : Bool) (i : Fin 3)
    (hA : ((Arr3.mk v1 v2 v3).get i.val).z > L._z_near
      ∨ ((Arr3.mk v1 v2 v3).get i.val).z < L._z_far)
    (hB : L._z_far ≤ ((Arr3.mk v1 v2 v3).get ((i.val + 1) % 3)).z
      ∧ ((Arr3.mk v1 v2 v3).get ((i.val + 1) % 3)).z ≤ L._z_near)
    (hC : L._z_far ≤ ((Arr3.mk v1 v2 v3).get ((i.val + 2) % 3)).z
      ∧ ((Arr3.mk v1 v2 v3).get ((i.val + 2) % 3)).z ≤ L._z_near) :
    (countClippedFaces L v1 v2 v3).1 = 2
      ∧ (insertShapeNode_fan
            (clipTriangle L v1 v2 v3 n1 n2 n3 em1 em2 em3 (countClippedFaces L v1 v2 v3).2) fm
            (countClippedFaces L v1 v2 v3).1 ⟨initialLoaderState, [], 0⟩).ls.vertices.length = 6
      ∧ trianglesArea Real.sqrt
          (insertShapeNode_fan
            (clipTriangle L v1 v2 v3 n1 n2 n3 em1 em2 em3 (countClippedFaces L v1 v2 v3).2) fm
            (countClippedFaces L v1 v2 v3).1 ⟨initialLoaderState, [], 0⟩).ls.vertices
        = slabQuadArea Real.sqrt L ((Arr3.mk v1 v2 v3).get i.val)
            ((Arr3.mk v1 v2 v3).get ((i.val + 1) % 3)) ((Arr3.mk v1 v2 v3).get ((i.val + 2) % 3)) := by
  obtain ⟨hc, hp⟩ := clipCode_outside L _ hA
  have hb := clipCode_inside L _ hB
  have hc' := clipCode_inside L _ hC
  obtain ⟨nB, sB0, sB1⟩ := crossedPlane_param L _ _ hA hB
  obtain ⟨nC, sC0, sC1⟩ := crossedPlane_param L _ _ hA hC
  obtain ⟨f1, f2, f3⟩ := fan_area_lerp ((Arr3.mk v1 v2 v3).get i.val)
    ((Arr3.mk v1 v2 v3).get ((i.val + 1) % 3)) ((Arr3.mk v1 v2 v3).get ((i.val + 2) % 3))
    _ _ sB0 sB1 sC0 sC1
  obtain ⟨pB1, pB2⟩ := clipLine_eq_planePoint _ _
    (crossedPlane L ((Arr3.mk v1 v2 v3).get i.val).z) nB
  obtain ⟨pC1, pC2⟩ := clipLine_eq_planePoint _ _
    (crossedPlane L ((Arr3.mk v1 v2 v3).get i.val).z) nC
  rw [countClippedFaces_clip, countClippedFaces_numTris]
  unfold slabQuadArea planePoint at *
  fin_cases i
  · simp only [Arr3.get] at hc hp hb hc' f1 pB1 pC2 ⊢
    rw [hb, hc']
    have h2 : countClippedFaces_switch (numClippedOf ⟨clipCode L v1.z, 0, 0⟩)
        (sumOf ⟨clipCode L v1.z, 0, 0⟩) = 2 := by
      rcases hc with e | e <;> rw [e] <;> decide
    have ht : clipTriangle L v1 v2 v3 n1 n2 n3 em1 em2 em3 ⟨clipCode L v1.z, 0, 0⟩
        = [⟨clipLine v1 v2 (planeDepth L (clipCode L v1.z)), n1, em1, .cut 0 (clipCode L v1.z)⟩,
            ⟨v2, n2, em2, .vertex 1⟩, ⟨v3, n3, em3, .vertex 2⟩,
            ⟨clipLine v3 v1 (planeDepth L (clipCode L v1.z)), n1, false,
              .cut 2 (clipCode L v1.z)⟩] := by
      rcases hc with e | e <;> rw [e] <;>
        simp [clipTriangle, clipTriangle_body, Arr3.get, NOT_CLIPPED]
    rw [h2, ht, fan_quad_vertices, hp, pB1, pC2]
    exact ⟨rfl, rfl, by simpa [trianglesArea] using f1⟩
  · simp only [Arr3.get] at hc hp hb hc' f2 pB1 pC2 ⊢
    rw [hb, hc']
    have h2 : countClippedFaces_switch (numClippedOf ⟨0, clipCode L v2.z, 0⟩)
        (sumOf ⟨0, clipCode L v2.z, 0⟩) = 2 := by
      rcases hc with e | e <;> rw [e] <;> decide
    have ht : clipTriangle L v1 v2 v3 n1 n2 n3 em1 em2 em3 ⟨0, clipCode L v2.z, 0⟩
        = [⟨v1, n1, em1, .vertex 0⟩,
            ⟨clipLine v1 v2 (planeDepth L (clipCode L v2.z)), n2, false,
              .cut 0 (clipCode L v2.z)⟩,
            ⟨clipLine v2 v3 (planeDepth L (clipCode L v2.z)), n2, em2, .cut 1 (clipCode L v2.z)⟩,
            ⟨v3, n3, em3, .vertex 2⟩] := by
      rcases hc with e | e <;> rw [e] <;>
        simp [clipTriangle, clipTriangle_body, Arr3.get, NOT_CLIPPED]
    rw [h2, ht, fan_quad_vertices, hp, pB1, pC2]
    exact ⟨rfl, rfl, by simpa [trianglesArea] using f2⟩
  · simp only [Arr3.get] at hc hp hb hc' f3 pB1 pC2 ⊢
    rw [hb, hc']
    have h2 : countClippedFaces_switch (numClippedOf ⟨0, 0, clipCode L v3.z⟩)
        (sumOf ⟨0, 0, clipCode L v3.z⟩) = 2 := by
      rcases hc with e | e <;> rw [e] <;> decide
    have ht : clipTriangle L v1 v2 v3 n1 n2 n3 em1 em2 em3 ⟨0, 0, clipCode L v3.z⟩
        = [⟨v1, n1, em1, .vertex 0⟩, ⟨v2, n2, em2, .vertex 1⟩,
            ⟨clipLine v2 v3 (planeDepth L (clipCode L v3.z)), n3, false,
              .cut 1 (clipCode L v3.z)⟩,
            ⟨clipLine v3 v1 (planeDepth L (clipCode L v3.z)), n3, em3,
              .cut 2 (clipCode L v3.z)⟩] := by
      rcases hc with e | e <;> rw [e] <;>
        simp [clipTriangle, clipTriangle_body, Arr3.get, NOT_CLIPPED]
    rw [h2, ht, fan_quad_vertices, hp, pB1, pC2]
    exact ⟨rfl, rfl, by simpa [trianglesArea] using f3⟩

theorem clipTriangle_one_outside_area_witness :
    (countClippedFaces (⟨-1, -10, 0, false⟩ : BlenderFileLoader ℝ)
        ⟨0, 0, 0⟩ ⟨1, 0, -3⟩ ⟨0, 1, -5⟩).1 = 2
      ∧ (insertShapeNode_fan
            (clipTriangle (⟨-1, -10, 0, false⟩ : BlenderFileLoader ℝ) ⟨0, 0, 0⟩ ⟨1, 0, -3⟩
              ⟨0, 1, -5⟩ ⟨0, 0, 1⟩ ⟨0, 0, 1⟩ ⟨0, 0, 1⟩ true false true
              (countClippedFaces (⟨-1, -10, 0, false⟩ : BlenderFileLoader ℝ)
                ⟨0, 0, 0⟩ ⟨1, 0, -3⟩ ⟨0, 1, -5⟩).2) false
            (countClippedFaces (⟨-1, -10, 0, false⟩ : BlenderFileLoader ℝ)
              ⟨0, 0, 0⟩ ⟨1, 0, -3⟩ ⟨0, 1, -5⟩).1 ⟨initialLoaderState, [], 0⟩).ls.vertices.length = 6
      ∧ trianglesArea Real.sqrt
          (insertShapeNode_fan
            (clipTriangle (⟨-1, -10, 0, false⟩ : BlenderFileLoader ℝ) ⟨0, 0, 0⟩ ⟨1, 0, -3⟩
              ⟨0, 1, -5⟩ ⟨0, 0, 1⟩ ⟨0, 0, 1⟩ ⟨0, 0, 1⟩ true false true
              (countClippedFaces (⟨-1, -10, 0, false⟩ : BlenderFileLoader ℝ)
                ⟨0, 0, 0⟩ ⟨1, 0, -3⟩ ⟨0, 1, -5⟩).2) false
            (countClippedFaces (⟨-1, -10, 0, false⟩ : BlenderFileLoader ℝ)
              ⟨0, 0, 0⟩ ⟨1, 0, -3⟩ ⟨0, 1, -5⟩).1 ⟨initialLoaderState, [], 0⟩).ls.vertices
        = slabQuadArea Real.sqrt (⟨-1, -10, 0, false⟩ : BlenderFileLoader ℝ)
            ⟨0, 0, 0⟩ ⟨1, 0, -3⟩ ⟨0, 1, -5⟩ :=
  clipTriangle_one_outside_area (⟨-1, -10, 0, false⟩ : BlenderFileLoader ℝ)
    ⟨0, 0, 0⟩ ⟨1, 0, -3⟩ ⟨0, 1, -5⟩ ⟨0, 0, 1⟩ ⟨0, 0, 1⟩ ⟨0, 0, 1⟩ true false true false 0
    (by norm_num [Arr3.get]) (by norm_num [Arr3.get]) (by norm_num [Arr3.get])

/-- What one `addTriangle` call appends to the buffers and does to the cursor. -/
theorem addTriangle_appends (ls : LoaderState α) (v1 v2 v3 n1 n2 n3 : Vec3 α)
    (fm em1 em2 em3 : Bool) :
    (addTriangle ls v1 v2 v3 n1 n2 n3 fm em1 em2 em3).vertices = ls.vertices ++ [v1, v2, v3]
      ∧ (addTriangle ls v1 v2 v3 n1 n2 n3 fm em1 em2 em3).normals = ls.normals ++ [n1, n2, n3]
      ∧ (addTriangle ls v1 v2 v3 n1 n2 n3 fm em1 em2 em3).VIndices
          = ls.VIndices ++ [ls.currentIndex, ls.currentIndex + 3, ls.currentIndex + 6]
      ∧ (addTriangle ls v1 v2 v3 n1 n2 n3 fm em1 em2 em3).NIndices
          = ls.NIndices ++ [ls.currentIndex, ls.currentIndex + 3, ls.currentIndex + 6]
      ∧ (addTriangle ls v1 v2 v3 n1 n2 n3 fm em1 em2 em3).MIndices
          = ls.MIndices ++ [ls.currentMIndex, ls.currentMIndex, ls.currentMIndex]
      ∧ (addTriangle ls v1 v2 v3 n1 n2 n3 fm em1 em2 em3).faceEdgeMarks
          = ls.faceEdgeMarks ++ [⟨fm, em1, em2, em3⟩]
      ∧ (addTriangle ls v1 v2 v3 n1 n2 n3 fm em1 em2 em3).currentIndex = ls.currentIndex + 9
      ∧ (addTriangle ls v1 v2 v3 n1 n2 n3 fm em1 em2 em3).currentMIndex = ls.currentMIndex := by
  simp only [addTriangle, List.foldl, addTriangle_body, Arr3.get]
  split_ifs <;> simp [Nat.add_assoc]

omit [LinearOrderedField α] in
theorem range_map_step (c k : Nat) :
    [c, c + 3, c + 6] ++ (List.range (3 * k)).map (fun m => c + 9 + 3 * m)
      = (List.range (3 * (k + 1))).map (fun m => c + 3 * m) := by
  have hr : List.range (3 * (k + 1)) = [0, 1, 2] ++ (List.range (3 * k)).map (fun m => 3 + m) := by
    rw [show 3 * (k + 1) = 3 + 3 * k by ring, List.range_add]
    rfl
  rw [hr]
  simp only [List.map_append, List.map_map, List.map_cons, List.map_nil, List.cons_append,
    List.nil_append, Nat.mul_zero, Nat.add_zero, Nat.mul_one, List.cons.injEq, true_and]
  apply List.map_congr_left
  intro m _
  simp only [Function.comp]
  ring

/-- What a sequence of `addTriangle` calls appends, from any state. -/
theorem addTriangles_general (calls : List (TriangleArgs α)) :
    ∀ ls : LoaderState α,
      (addTriangles ls calls).currentIndex = ls.currentIndex + 9 * calls.length
      ∧ (addTriangles ls calls).vertices
          = ls.vertices ++ (calls.map (fun c => [c.v1, c.v2, c.v3])).flatten
      ∧ (addTriangles ls calls).normals
          = ls.normals ++ (calls.map (fun c => [c.n1, c.n2, c.n3])).flatten
      ∧ (addTriangles ls calls).VIndices
          = ls.VIndices ++ (List.range (3 * calls.length)).map (fun m => ls.currentIndex + 3 * m)
      ∧ (addTriangles ls calls).NIndices
          = ls.NIndices ++ (List.range (3 * calls.length)).map (fun m => ls.currentIndex + 3 * m)
      ∧ (addTriangles ls calls).faceEdgeMarks
          = ls.faceEdgeMarks ++ calls.map (fun c => ⟨c.fm, c.em1, c.em2, c.em3⟩) := by
  induction calls with
  | nil => intro ls; simp [addTriangles]
  | cons c calls ih =>
    intro ls
    obtain ⟨a1, a2, a3, a4, a5, a6, a7, _⟩ :=
      addTriangle_appends ls c.v1 c.v2 c.v3 c.n1 c.n2 c.n3 c.fm c.em1 c.em2 c.em3
    obtain ⟨b1, b2, b3, b4, b5, b6⟩ :=
      ih (addTriangle ls c.v1 c.v2 c.v3 c.n1 c.n2 c.n3 c.fm c.em1 c.em2 c.em3)
    have hfold : addTriangles ls (c :: calls)
        = addTriangles (addTriangle ls c.v1 c.v2 c.v3 c.n1 c.n2 c.n3 c.fm c.em1 c.em2 c.em3)
            calls := rfl
    rw [hfold, b1, b2, b3, b4, b5, b6, a1, a2, a3, a4, a6, a7]
    simp only [List.length_cons]
    refine ⟨by ring, by simp, by simp, ?_, ?_, by simp⟩
    · rw [← range_map_step, List.append_assoc]
    · rw [← range_map_step, List.append_assoc]

/-- The material table, cursor and material-index buffer after a fan. -/
theorem fan_materials (tri : List (Slot α)) (fm : Bool) (k : Nat) (st : SecondPass α) :
    (insertShapeNode_fan tri fm k st).meshMaterials = st.meshMaterials
      ∧ (insertShapeNode_fan tri fm k st).ls.currentMIndex = st.ls.currentMIndex
      ∧ (insertShapeNode_fan tri fm k st).ls.MIndices
          = st.ls.MIndices ++ List.replicate (3 * k) st.ls.currentMIndex := by
  unfold insertShapeNode_fan
  have key : ∀ (l : List Nat) (st : SecondPass α),
      (l.foldl (fun st i =>
        ({ st with
          ls := addTriangle st.ls (slotAt tri 0).co (slotAt tri (i + 1)).co (slotAt tri (i + 2)).co
            (slotAt tri 0).no (slotAt tri (i + 1)).no (slotAt tri (i + 2)).no fm
            (if i = 0 then (slotAt tri 0).em else false) (slotAt tri (i + 1)).em
            (if i = k - 1 then (slotAt tri (i + 2)).em else false)
          _numFacesRead := st._numFacesRead + 1 } : SecondPass α)) st).meshMaterials
          = st.meshMaterials
      ∧ (l.foldl (fun st i =>
        ({ st with
          ls := addTriangle st.ls (slotAt tri 0).co (slotAt tri (i + 1)).co (slotAt tri (i + 2)).co
            (slotAt tri 0).no (slotAt tri (i + 1)).no (slotAt tri (i + 2)).no fm
            (if i = 0 then (slotAt tri 0).em else false) (slotAt tri (i + 1)).em
            (if i = k - 1 then (slotAt tri (i + 2)).em else false)
          _numFacesRead := st._numFacesRead + 1 } : SecondPass α)) st).ls.currentMIndex
          = st.ls.currentMIndex
      ∧ (l.foldl (fun st i =>
        ({ st with
          ls := addTriangle st.ls (slotAt tri 0).co (slotAt tri (i + 1)).co (slotAt tri (i + 2)).co
            (slotAt tri 0).no (slotAt tri (i + 1)).no (slotAt tri (i + 2)).no fm
            (if i = 0 then (slotAt tri 0).em else false) (slotAt tri (i + 1)).em
            (if i = k - 1 then (slotAt tri (i + 2)).em else false)
          _numFacesRead := st._numFacesRead + 1 } : SecondPass α)) st).ls.MIndices
          = st.ls.MIndices ++ List.replicate (3 * l.length) st.ls.currentMIndex := by
    intro l
    induction l with
    | nil => intro st; simp
    | cons a l ih =>
      intro st
      simp only [List.foldl]
      obtain ⟨h1, h2, h3⟩ := ih ({ st with
          ls := addTriangle st.ls (slotAt tri 0).co (slotAt tri (a + 1)).co (slotAt tri (a + 2)).co
            (slotAt tri 0).no (slotAt tri (a + 1)).no (slotAt tri (a + 2)).no fm
            (if a = 0 then (slotAt tri 0).em else false) (slotAt tri (a + 1)).em
            (if a = k - 1 then (slotAt tri (a + 2)).em else false)
          _numFacesRead := st._numFacesRead + 1 } : SecondPass α)
      obtain ⟨_, _, _, _, a5, _, _, a8⟩ := addTriangle_appends st.ls (slotAt tri 0).co
        (slotAt tri (a + 1)).co (slotAt tri (a + 2)).co
        (slotAt tri 0).no (slotAt tri (a + 1)).no (slotAt tri (a + 2)).no fm
        (if a = 0 then (slotAt tri 0).em else false) (slotAt tri (a + 1)).em
        (if a = k - 1 then (slotAt tri (a + 2)).em else false)
      refine ⟨h1, by rw [h2]; exact a8, ?_⟩
      rw [h3]
      simp only [a5, a8, List.length_cons, List.append_assoc]
      congr 1
  simpa using key (List.range k) st

omit [LinearOrderedField α] in
/-- After the material lookup the cursor `currentMIndex` points at a table
entry with the face's material address; the table only grows at the end, by
the first-seen rule. -/
theorem material_lookup (st : SecondPass α) (mat : Material)
    (h0 : st.meshMaterials = [] → st.ls.currentMIndex = 0) :
    (∃ m, (insertShapeNode_material st mat).meshMaterials[
          (insertShapeNode_material st mat).ls.currentMIndex]? = some m ∧ m.ptr = mat.ptr)
      ∧ (∃ ext, (insertShapeNode_material st mat).meshMaterials = st.meshMaterials ++ ext)
      ∧ (insertShapeNode_material st mat).meshMaterials ≠ []
      ∧ (insertShapeNode_material st mat).ls.MIndices = st.ls.MIndices
      ∧ (insertShapeNode_material st mat).meshMaterials.map (fun m => m.ptr)
          = firstSeen_step (st.meshMaterials.map (fun m => m.ptr)) mat.ptr := by
  unfold insertShapeNode_material firstSeen_step
  by_cases he : st.meshMaterials = []
  · simp [he, h0 he]
  · have hne : st.meshMaterials.isEmpty = false := by
      cases hm : st.meshMaterials with
      | nil => exact absurd hm he
      | cons a l => rfl
    simp only [hne, Bool.false_eq_true, if_false]
    cases hf : st.meshMaterials.findIdx? (fun it => decide (it.ptr = mat.ptr)) with
    | none =>
      have hall := List.findIdx?_eq_none_iff.mp hf
      have hnot : mat.ptr ∉ st.meshMaterials.map (fun m => m.ptr) := by
        intro hmem
        obtain ⟨m, hm, hp⟩ := List.mem_map.mp hmem
        have := hall m hm
        simp [hp] at this
      simp only [hnot, if_false, List.map_append, List.map_cons, List.map_nil]
      refine ⟨⟨mat, ?_, rfl⟩, ⟨[mat], rfl⟩, by simp, trivial, trivial⟩
      simp
    | some i =>
      obtain ⟨hi, hp, _⟩ := List.findIdx?_eq_some_iff_getElem.mp hf
      have hmem : mat.ptr ∈ st.meshMaterials.map (fun m => m.ptr) := by
        apply List.mem_map.mpr
        exact ⟨st.meshMaterials[i], List.getElem_mem _, by simpa using hp⟩
      simp only [hmem, if_true]
      refine ⟨⟨st.meshMaterials[i], by simp [hi], by simpa using hp⟩, ⟨[], by simp⟩, he, trivial, trivial⟩

omit [LinearOrderedField α] in
theorem isMaterialOf_mono (table ext : List Material) (mi : Nat) (f : VlakRen α)
    (h : IsMaterialOf table mi f) : IsMaterialOf (table ++ ext) mi f := by
  obtain ⟨hlt, m, hm, hp⟩ := h
  refine ⟨by simp; omega, m, ?_, hp⟩
  rw [List.getElem?_append_left hlt]
  exact hm

/-- The state invariant of the second loop for the material claims: the
cursor is 0 while the table is empty, every material index written so far
points at the material of the face it was written for, and the table lists
the material addresses in first-seen order. -/
theorem halves_materials (st : SecondPass α) (f : VlakRen α) (fm : Bool) (k1 k2 : Nat)
    (t1 t2 : List (Slot α)) (srcs : List (VlakRen α)) (seen : List Nat)
    (h0 : st.meshMaterials = [] → st.ls.currentMIndex = 0)
    (h1 : List.Forall₂ (IsMaterialOf st.meshMaterials) st.ls.MIndices srcs)
    (h2 : st.meshMaterials.map (fun m => m.ptr) = seen) :
    ((insertShapeNode_halves st f.mat fm k1 t1 k2 t2).meshMaterials = [] →
        (insertShapeNode_halves st f.mat fm k1 t1 k2 t2).ls.currentMIndex = 0)
      ∧ List.Forall₂ (IsMaterialOf (insertShapeNode_halves st f.mat fm k1 t1 k2 t2).meshMaterials)
          (insertShapeNode_halves st f.mat fm k1 t1 k2 t2).ls.MIndices
          (srcs ++ List.replicate (3 * (k1 + k2)) f)
      ∧ (insertShapeNode_halves st f.mat fm k1 t1 k2 t2).meshMaterials.map (fun m => m.ptr)
          = if 0 < k1 + k2 then firstSeen_step seen f.mat.ptr else seen := by
  unfold insertShapeNode_halves
  by_cases hz : k1 = 0 ∧ k2 = 0
  · obtain ⟨e1, e2⟩ := hz
    subst e1 e2
    simpa using ⟨h0, h1, h2⟩
  · have hpos : 0 < k1 + k2 := by omega
    simp only [hz, if_false, hpos, if_true]
    obtain ⟨⟨m, hm, hp⟩, ⟨ext, hext⟩, hne, hmi, hseen⟩ := material_lookup st f.mat h0
    have hlt : (insertShapeNode_material st f.mat).ls.currentMIndex
        < (insertShapeNode_material st f.mat).meshMaterials.length := by
      by_contra hge
      rw [List.getElem?_eq_none (not_lt.mp hge)] at hm
      exact absurd hm (by simp)
    -- the state after both fans, whichever of them run
    have key : ∀ (s1 : SecondPass α),
        s1.meshMaterials = (insertShapeNode_material st f.mat).meshMaterials →
        s1.ls.currentMIndex = (insertShapeNode_material st f.mat).ls.currentMIndex →
        ∀ (t : List (Slot α)) (k : Nat),
          (if k > 0 then insertShapeNode_fan t fm k s1 else s1).meshMaterials
              = (insertShapeNode_material st f.mat).meshMaterials
            ∧ (if k > 0 then insertShapeNode_fan t fm k s1 else s1).ls.currentMIndex
              = (insertShapeNode_material st f.mat).ls.currentMIndex
            ∧ (if k > 0 then insertShapeNode_fan t fm k s1 else s1).ls.MIndices
              = s1.ls.MIndices ++ List.replicate (3 * k)
                  (insertShapeNode_material st f.mat).ls.currentMIndex := by
      intro s1 e1 e2 t k
      obtain ⟨f1, f2, f3⟩ := fan_materials t fm k s1
      by_cases hk : k > 0
      · simp only [hk, if_true]
        exact ⟨by rw [f1, e1], by rw [f2, e2], by rw [f3, e2]⟩
      · have : k = 0 := by omega
        subst this
        simp [e1, e2]
    obtain ⟨a1, a2, a3⟩ := key (insertShapeNode_material st f.mat) rfl rfl t1 k1
    obtain ⟨b1, b2, b3⟩ := key _ a1 a2 t2 k2
    refine ⟨fun he => absurd (b1 ▸ he) hne, ?_, by rw [b1, hseen, h2]⟩
    rw [b1, b3, a3, hmi, hext, List.append_assoc, ← List.replicate_add,
      show 3 * k1 + 3 * k2 = 3 * (k1 + k2) by ring]
    apply List.rel_append
    · exact List.Forall₂.imp (fun mi g hg => isMaterialOf_mono _ ext mi g hg) h1
    · rw [← hext]
      generalize 3 * (k1 + k2) = n
      induction n with
      | zero => simp
      | succ n ih =>
        rw [List.replicate_succ, List.replicate_succ]
        exact List.Forall₂.cons ⟨hlt, m, hm, hp⟩ ih

/-- The second loop treats a face as two halves with `k1` and `k2` triangles,
`k1 + k2` being what the first loop counts for the face (a skipped face has
`k1 = k2 = 0`). -/
theorem emit_eq_halves (L : BlenderFileLoader α) (B : Blenlib α) (obi : ObjectInstanceRen α)
    (f : VlakRen α) :
    ∃ (k1 k2 : Nat) (t1 t2 : List (Slot α)),
      (∀ st : SecondPass α, insertShapeNode_emit L B obi st f
          = insertShapeNode_halves st f.mat f.freestyle_face_mark k1 t1 k2 t2)
        ∧ faceTriangles L B obi f = k1 + k2 := by
  unfold insertShapeNode_emit faceTriangles insertShapeNode_count
  by_cases ho : f.mat.onlycast = true
  · exact ⟨0, 0, [], [], fun st => by simp [ho, insertShapeNode_halves], by simp [ho]⟩
  by_cases hw : f.mat.wire = true
  · exact ⟨0, 0, [], [], fun st => by simp [ho, hw, insertShapeNode_halves], by simp [ho, hw]⟩
  simp only [ho, hw, Bool.or_self, Bool.false_eq_true, if_false]
  split
  · exact ⟨_, 0, _, [], fun st => rfl, by simp⟩
  · split_ifs with hr
    · exact ⟨_, _, _, _, fun st => rfl, by simp [Nat.add_assoc]⟩
    · exact ⟨_, _, _, _, fun st => rfl, by simp [Nat.add_assoc]⟩

theorem emit_materials (L : BlenderFileLoader α) (B : Blenlib α) (obi : ObjectInstanceRen α)
    (st : SecondPass α) (f : VlakRen α) (srcs : List (VlakRen α)) (seen : List Nat)
    (h0 : st.meshMaterials = [] → st.ls.currentMIndex = 0)
    (h1 : List.Forall₂ (IsMaterialOf st.meshMaterials) st.ls.MIndices srcs)
    (h2 : st.meshMaterials.map (fun m => m.ptr) = seen) :
    ((insertShapeNode_emit L B obi st f).meshMaterials = [] →
        (insertShapeNode_emit L B obi st f).ls.currentMIndex = 0)
      ∧ List.Forall₂ (IsMaterialOf (insertShapeNode_emit L B obi st f).meshMaterials)
          (insertShapeNode_emit L B obi st f).ls.MIndices
          (srcs ++ List.replicate (3 * faceTriangles L B obi f) f)
      ∧ (insertShapeNode_emit L B obi st f).meshMaterials.map (fun m => m.ptr)
          = if 0 < faceTriangles L B obi f then firstSeen_step seen f.mat.ptr else seen := by
  obtain ⟨k1, k2, t1, t2, he, hk⟩ := emit_eq_halves L B obi f
  rw [he st, hk]
  exact halves_materials st f f.freestyle_face_mark k1 k2 t1 t2 srcs seen h0 h1 h2

theorem secondPass_materials (L : BlenderFileLoader α) (B : Blenlib α)
    (obi : ObjectInstanceRen α) (faces : List (VlakRen α)) :
    ∀ (st : SecondPass α) (srcs : List (VlakRen α)),
      (st.meshMaterials = [] → st.ls.currentMIndex = 0) →
      List.Forall₂ (IsMaterialOf st.meshMaterials) st.ls.MIndices srcs →
      List.Forall₂ (IsMaterialOf (faces.foldl (insertShapeNode_emit L B obi) st).meshMaterials)
          (faces.foldl (insertShapeNode_emit L B obi) st).ls.MIndices
          (srcs ++ (faces.map (fun f => List.replicate (3 * faceTriangles L B obi f) f)).flatten)
        ∧ (faces.foldl (insertShapeNode_emit L B obi) st).meshMaterials.map (fun m => m.ptr)
          = ((faces.filter (fun f => decide (0 < faceTriangles L B obi f))).map
              (fun f => f.mat.ptr)).foldl firstSeen_step
                (st.meshMaterials.map (fun m => m.ptr)) := by
  induction faces with
  | nil => intro st srcs _ h1; simpa using h1
  | cons f faces ih =>
    intro st srcs h0 h1
    obtain ⟨e0, e1, e2⟩ := emit_materials L B obi st f srcs _ h0 h1 rfl
    obtain ⟨r1, r2⟩ := ih (insertShapeNode_emit L B obi st f) _ e0 e1
    simp only [List.foldl, List.map_cons, List.flatten_cons]
    refine ⟨by simpa [List.append_assoc] using r1, ?_⟩
    rw [r2, e2]
    by_cases hp : 0 < faceTriangles L B obi f
    · simp [hp, List.filter_cons]
    · simp [hp, List.filter_cons]

/-- C13: every material index written into `MIndices` by the second loop of
`insertShapeNode` is smaller than the final size of the material table, and the
table entry at that index has the address of the material of the face the
entry was written for. -/
theorem insertShapeNode_material_indices (L : BlenderFileLoader α) (B : Blenlib α)
    (obi : ObjectInstanceRen α) (r : Nat) :
    List.Forall₂ (IsMaterialOf (insertShapeNode_secondPass L B obi r).meshMaterials)
      (insertShapeNode_secondPass L B obi r).ls.MIndices (entryFaces L B obi) := by
  have := (secondPass_materials L B obi obi.vlak ⟨initialLoaderState, [], r⟩ []
    (fun _ => rfl) (by simp [initialLoaderState])).1
  simpa [insertShapeNode_secondPass, entryFaces] using this

omit [LinearOrderedField α] in
theorem firstSeen_step_nodup (acc : List Nat) (x : Nat) (h : acc.Nodup) :
    (firstSeen_step acc x).Nodup := by
  unfold firstSeen_step
  split_ifs with hx
  · exact h
  · exact List.Nodup.append h (List.nodup_singleton x) (by simpa using hx)

omit [LinearOrderedField α] in
theorem firstSeen_foldl_nodup (l : List Nat) :
    ∀ acc : List Nat, acc.Nodup → (l.foldl firstSeen_step acc).Nodup := by
  induction l with
  | nil => intro acc h; exact h
  | cons x l ih => intro acc h; exact ih _ (firstSeen_step_nodup acc x h)

/-- C14: the material table built by the second loop of `insertShapeNode`
lists the material addresses of the faces that emit at least one triangle in
the order in which they are first met, each address once. -/
theorem insertShapeNode_material_table (L : BlenderFileLoader α) (B : Blenlib α)
    (obi : ObjectInstanceRen α) (r : Nat) :
    (insertShapeNode_secondPass L B obi r).meshMaterials.map (fun m => m.ptr)
        = firstSeen ((obi.vlak.filter (fun f => decide (0 < faceTriangles L B obi f))).map
            (fun f => f.mat.ptr))
      ∧ ((insertShapeNode_secondPass L B obi r).meshMaterials.map (fun m => m.ptr)).Nodup := by
  have h := (secondPass_materials L B obi obi.vlak ⟨initialLoaderState, [], r⟩ []
    (fun _ => rfl) (by simp [initialLoaderState])).2
  have e : (insertShapeNode_secondPass L B obi r).meshMaterials.map (fun m => m.ptr)
      = firstSeen ((obi.vlak.filter (fun f => decide (0 < faceTriangles L B obi f))).map
          (fun f => f.mat.ptr)) := by
    simpa [insertShapeNode_secondPass, firstSeen] using h
  refine ⟨e, ?_⟩
  rw [e]
  exact firstSeen_foldl_nodup _ [] List.nodup_nil

theorem distPointSegment_real (P A B : Vec3 ℝ) :
    distPointSegment Real.sqrt P A B = Real.sqrt (distSqPointSegment P A B) := by
  unfold distPointSegment distSqPointSegment Vec3.norm
  simp only []
  split_ifs <;> rfl

theorem distPointSegment_lt (P A B : Vec3 ℝ) (e : ℝ) (he : 0 < e) :
    distPointSegment Real.sqrt P A B < e ↔ distSqPointSegment P A B < e ^ 2 := by
  rw [distPointSegment_real, Real.sqrt_lt' he]

theorem distPointSegment_lt_eps (P A B : Vec3 ℝ) :
    distPointSegment Real.sqrt P A B < 1 / 1000000
      ↔ distSqPointSegment P A B < 1 / 1000000000000 := by
  rw [distPointSegment_lt P A B _ (by norm_num)]
  norm_num

theorem normalizeSafe_of_normSq (v : Vec3 ℝ) (n : ℝ) (hn : 0 < n) (h : Vec3.normSq v = n * n) :
    Vec3.normalizeSafe Real.sqrt v = ⟨v.x / n, v.y / n, v.z / n⟩ := by
  have : Vec3.norm Real.sqrt v = n := by
    unfold Vec3.norm
    rw [h, Real.sqrt_mul_self (le_of_lt hn)]
  unfold Vec3.normalizeSafe
  rw [this]
  simp [ne_of_gt hn]

theorem norm_pos_iff (v : Vec3 ℝ) : Vec3.norm Real.sqrt v > 0 ↔ 0 < Vec3.normSq v := by
  unfold Vec3.norm
  exact Real.sqrt_pos

omit [LinearOrderedField α] in
theorem writeVertex_same (cv : Nat → Vec3 α) (vi : Nat) (p : Vec3 α) :
    writeVertex cv vi p vi = p := by
  simp [writeVertex]

omit [LinearOrderedField α] in
theorem writeVertex_other (cv : Nat → Vec3 α) (vi k : Nat) (p : Vec3 α) (h : k ≠ vi) :
    writeVertex cv vi p k = cv k := by
  simp [writeVertex, h]

/-- The triangle scanned never changes the indices of the record. -/
theorem detri_neighbour_indices (cv : Nat → Vec3 α) (d : detri_t α) (t : Arr3 Nat) :
    (detri_neighbour cv d t).viP = d.viP ∧ (detri_neighbour cv d t).viA = d.viA
      ∧ (detri_neighbour cv d t).viB = d.viB := by
  unfold detri_neighbour
  simp only []
  split_ifs <;> exact ⟨rfl, rfl, rfl⟩

/-- A triangle made of the apex, one base vertex `X` and a third vertex `C`
that is neither the apex nor a base vertex adds the vector from the apex to
`C`, whatever the order of its indices. -/
theorem detri_neighbour_third (cv : Nat → Vec3 α) (d : detri_t α) (t : Arr3 Nat) (X C : Nat)
    (hX : X = d.viA ∨ X = d.viB) (hXP : X ≠ d.viP) (hCP : C ≠ d.viP) (hCA : C ≠ d.viA)
    (hCB : C ≠ d.viB) (hP : d.viP ∈ [t.a0, t.a1, t.a2]) (hXt : X ∈ [t.a0, t.a1, t.a2])
    (hC : C ∈ [t.a0, t.a1, t.a2]) :
    (detri_neighbour cv d t).v = Vec3.add d.v (Vec3.sub (cv C) (cv d.viP))
      ∧ (detri_neighbour cv d t).n = d.n + 1 := by
  obtain ⟨a0, a1, a2⟩ := t
  simp only [List.mem_cons, List.mem_singleton, List.not_mem_nil, or_false] at hP hXt hC
  unfold detri_neighbour
  simp only []
  rcases hX with rfl | rfl <;>
    rcases hP with hP | hP | hP <;> rcases hXt with hXt | hXt | hXt <;>
    rcases hC with hC | hC | hC <;>
    first
      | exact absurd (hP.trans hXt.symm).symm hXP
      | exact absurd (hP.trans hC.symm).symm hCP
      | exact absurd (hXt.trans hC.symm).symm hCA
      | exact absurd (hXt.trans hC.symm).symm hCB
      | (subst hP hXt hC
         simp [hXP, hCP, hCA, hCB, Ne.symm hXP, Ne.symm hCP, Ne.symm hCA, Ne.symm hCB])

/-- The scanned triangle counts at most once, and exactly when it has the apex
at one position and a base vertex at another. -/
theorem detri_neighbour_rule_core (cv : Nat → Vec3 α) (d : detri_t α) (t : Arr3 Nat) :
    ((detri_neighbour cv d t).n = d.n + 1 ↔ sharesApexAndBase d t)
      ∧ (¬ sharesApexAndBase d t → detri_neighbour cv d t = d)
      ∧ (detri_neighbour cv d t).n ≤ d.n + 1 := by
  refine ⟨?_, ?_, ?_⟩
  · unfold detri_neighbour sharesApexAndBase
    simp only [List.mem_cons, List.mem_singleton, List.not_mem_nil, or_false]
    split_ifs with h1 h2 h3 h4 h5 h6
    · simp only [true_iff]; left; exact ⟨h1.1.symm, h1.2.imp Or.inl Or.inl⟩
    · simp only [true_iff]; left; exact ⟨h2.1.symm, h2.2.imp Or.inr Or.inr⟩
    · simp only [true_iff]; right; left; exact ⟨h3.1.symm, h3.2.imp Or.inl Or.inl⟩
    · simp only [true_iff]; right; left; exact ⟨h4.1.symm, h4.2.imp Or.inr Or.inr⟩
    · simp only [true_iff]; right; right; exact ⟨h5.1.symm, h5.2.imp Or.inl Or.inl⟩
    · simp only [true_iff]; right; right; exact ⟨h6.1.symm, h6.2.imp Or.inr Or.inr⟩
    · constructor
      · intro h; omega
      · rintro (⟨e, (h | h) | (h | h)⟩ | ⟨e, (h | h) | (h | h)⟩ | ⟨e, (h | h) | (h | h)⟩)
        · exact absurd ⟨e.symm, Or.inl h⟩ h1
        · exact absurd ⟨e.symm, Or.inl h⟩ h2
        · exact absurd ⟨e.symm, Or.inr h⟩ h1
        · exact absurd ⟨e.symm, Or.inr h⟩ h2
        · exact absurd ⟨e.symm, Or.inl h⟩ h3
        · exact absurd ⟨e.symm, Or.inl h⟩ h4
        · exact absurd ⟨e.symm, Or.inr h⟩ h3
        · exact absurd ⟨e.symm, Or.inr h⟩ h4
        · exact absurd ⟨e.symm, Or.inl h⟩ h5
        · exact absurd ⟨e.symm, Or.inl h⟩ h6
        · exact absurd ⟨e.symm, Or.inr h⟩ h5
        · exact absurd ⟨e.symm, Or.inr h⟩ h6
  · unfold detri_neighbour sharesApexAndBase
    simp only [List.mem_cons, List.mem_singleton, List.not_mem_nil, or_false]
    intro hn
    split_ifs with h1 h2 h3 h4 h5 h6
    · exact absurd (Or.inl ⟨h1.1.symm, h1.2.imp Or.inl Or.inl⟩) hn
    · exact absurd (Or.inl ⟨h2.1.symm, h2.2.imp Or.inr Or.inr⟩) hn
    · exact absurd (Or.inr (Or.inl ⟨h3.1.symm, h3.2.imp Or.inl Or.inl⟩)) hn
    · exact absurd (Or.inr (Or.inl ⟨h4.1.symm, h4.2.imp Or.inr Or.inr⟩)) hn
    · exact absurd (Or.inr (Or.inr ⟨h5.1.symm, h5.2.imp Or.inl Or.inl⟩)) hn
    · exact absurd (Or.inr (Or.inr ⟨h6.1.symm, h6.2.imp Or.inr Or.inr⟩)) hn
    · rfl
  · unfold detri_neighbour
    simp only []
    split_ifs <;> simp

omit [LinearOrderedField α] in
theorem sharesApexAndBase_congr (d e : detri_t α) (t : Arr3 Nat) (hP : e.viP = d.viP)
    (hA : e.viA = d.viA) (hB : e.viB = d.viB) :
    sharesApexAndBase e t ↔ sharesApexAndBase d t := by
  unfold sharesApexAndBase
  rw [hP, hA, hB]

/-- The loop over the other triangles keeps the indices of the record, never
lowers `n`, and leaves `n` as it was exactly when no triangle other than
number `i` has the apex and a base vertex. -/
theorem detri_scan_fold (cv : Nat → Vec3 α) (i : Nat) (l : List (Nat × Arr3 Nat)) :
    ∀ d : detri_t α,
      (l.foldl (fun d jt => if i = jt.1 then d else detri_neighbour cv d jt.2) d).viP = d.viP
      ∧ (l.foldl (fun d jt => if i = jt.1 then d else detri_neighbour cv d jt.2) d).viA = d.viA
      ∧ (l.foldl (fun d jt => if i = jt.1 then d else detri_neighbour cv d jt.2) d).viB = d.viB
      ∧ d.n ≤ (l.foldl (fun d jt => if i = jt.1 then d else detri_neighbour cv d jt.2) d).n
      ∧ ((l.foldl (fun d jt => if i = jt.1 then d else detri_neighbour cv d jt.2) d).n = d.n
          ↔ ∀ jt ∈ l, jt.1 ≠ i → ¬ sharesApexAndBase d jt.2) := by
  induction l with
  | nil => intro d; simp
  | cons a l ih =>
    intro d
    simp only [List.foldl]
    by_cases hi : i = a.1
    · simp only [hi, if_true]
      obtain ⟨h1, h2, h3, h4, h5⟩ := ih d
      simp only [hi] at h1 h2 h3 h4 h5
      refine ⟨h1, h2, h3, h4, ?_⟩
      rw [h5]
      simp only [List.mem_cons, forall_eq_or_imp]
      constructor
      · intro h; exact ⟨fun hne => absurd rfl hne, h⟩
      · intro h; exact h.2
    · simp only [hi, if_false]
      obtain ⟨h1, h2, h3, h4, h5⟩ := ih (detri_neighbour cv d a.2)
      obtain ⟨n1, n2, n3⟩ := detri_neighbour_indices cv d a.2
      obtain ⟨r1, r2, _⟩ := detri_neighbour_rule_core cv d a.2
      refine ⟨h1.trans n1, h2.trans n2, h3.trans n3, ?_, ?_⟩
      · by_cases hs : sharesApexAndBase d a.2
        · have := r1.mpr hs; omega
        · rw [r2 hs] at h4 ⊢; exact h4
      · simp only [List.mem_cons, forall_eq_or_imp]
        by_cases hs : sharesApexAndBase d a.2
        · have hn := r1.mpr hs
          constructor
          · intro h; omega
          · intro h; exact absurd hs (h.1 (fun e => hi e.symm))
        · rw [r2 hs] at h5 ⊢
          rw [h5]
          constructor
          · intro h; exact ⟨fun _ => hs, h⟩
          · intro h; exact h.2

/-- Every record of `detriList` comes from a triangle `i` of the index stream
that the test of lines 704-730 selects, scanned against the other triangles. -/
theorem detriList_mem (sqrt : α → α) (cv : Nat → Vec3 α) (tris : List (Arr3 Nat))
    (d : detri_t α) :
    d ∈ detriList sqrt cv tris ↔
      ∃ (i : Nat) (t : Arr3 Nat) (d0 : detri_t α), tris[i]? = some t
        ∧ detri_find sqrt cv t = some d0
        ∧ d = detri_normalize sqrt (detri_scan cv tris i d0) := by
  unfold detriList
  simp only [List.mem_filterMap, Option.map_eq_some', Prod.exists, List.mk_mem_enum_iff_getElem?]
  constructor
  · rintro ⟨i, t, ht, d0, hf, hd⟩
    exact ⟨i, t, d0, ht, hf, hd.symm⟩
  · rintro ⟨i, t, d0, ht, hf, hd⟩
    exact ⟨i, t, ht, d0, hf, hd.symm⟩

theorem detri_normalize_indices (sqrt : α → α) (d : detri_t α) :
    (detri_normalize sqrt d).viP = d.viP ∧ (detri_normalize sqrt d).viA = d.viA
      ∧ (detri_normalize sqrt d).viB = d.viB ∧ (detri_normalize sqrt d).n = d.n := by
  unfold detri_normalize
  split_ifs <;> exact ⟨rfl, rfl, rfl, rfl⟩

/-- The scan keeps the indices of the record, and ends with `n = 0` exactly
when no triangle of the index stream other than number `i` has the apex and a
base vertex of the record. -/
theorem detri_scan_spec (cv : Nat → Vec3 α) (tris : List (Arr3 Nat)) (i : Nat)
    (d0 : detri_t α) :
    (detri_scan cv tris i d0).viP = d0.viP ∧ (detri_scan cv tris i d0).viA = d0.viA
      ∧ (detri_scan cv tris i d0).viB = d0.viB
      ∧ ((detri_scan cv tris i d0).n = 0
          ↔ ∀ (j : Nat) (t : Arr3 Nat), tris[j]? = some t → j ≠ i → ¬ sharesApexAndBase d0 t) := by
  unfold detri_scan
  obtain ⟨h1, h2, h3, _, h5⟩ := detri_scan_fold cv i tris.enum { d0 with v := ⟨0, 0, 0⟩, n := 0 }
  refine ⟨h1, h2, h3, ?_⟩
  rw [show (0 : Nat) = ({ d0 with v := (⟨0, 0, 0⟩ : Vec3 α), n := 0 } : detri_t α).n from rfl, h5]
  constructor
  · intro h j t hj hne hs
    exact h (j, t) (List.mk_mem_enum_iff_getElem?.mpr hj) hne
      ((sharesApexAndBase_congr d0 _ t rfl rfl rfl).mpr hs)
  · intro h jt hjt hne hs
    exact h jt.1 jt.2 (List.mem_enum_iff_getElem?.mp hjt) hne
      ((sharesApexAndBase_congr d0 _ jt.2 rfl rfl rfl).mp hs)

/-- C16: for a record of `detriList` with `n = 0`, that is one whose apex and
base no other triangle of the mesh shares, the repair writes the current
coordinates of the base vertex `viA` to the apex `viP`; afterwards the two
vertices have the same position. -/
theorem detri_apply_snap (sqrt : α → α) (cleanVertices : Nat → Vec3 α)
    (cleanVIndices : List (Arr3 Nat)) (detri : detri_t α)
    (hd : detri ∈ detriList sqrt cleanVertices cleanVIndices) (h : detri.n = 0)
    (current : Nat → Vec3 α) :
    (∃ i : Nat, i < cleanVIndices.length ∧ ∀ (j : Nat) (t : Arr3 Nat),
        cleanVIndices[j]? = some t → j ≠ i → ¬ sharesApexAndBase detri t)
      ∧ detri_apply sqrt current detri detri.viP = current detri.viA
      ∧ detri_apply sqrt current detri detri.viP = detri_apply sqrt current detri detri.viA := by
  refine ⟨?_, ?_⟩
  · obtain ⟨i, t, d0, ht, _, rfl⟩ := (detriList_mem sqrt cleanVertices cleanVIndices detri).mp hd
    obtain ⟨n1, n2, n3, n4⟩ := detri_normalize_indices sqrt (detri_scan cleanVertices cleanVIndices i d0)
    obtain ⟨s1, s2, s3, s4⟩ := detri_scan_spec cleanVertices cleanVIndices i d0
    have hi : i < cleanVIndices.length := by
      by_contra hge
      rw [List.getElem?_eq_none (not_lt.mp hge)] at ht
      exact absurd ht (by simp)
    refine ⟨i, hi, fun j t' hj hne hs => ?_⟩
    rw [n4] at h
    exact s4.mp h j t' hj hne
      ((sharesApexAndBase_congr d0 _ t' (n1.trans s1) (n2.trans s2) (n3.trans s3)).mp hs)
  · unfold detri_apply
    simp only [h, if_true]
    refine ⟨writeVertex_same _ _ _, ?_⟩
    by_cases e : detri.viA = detri.viP
    · rw [e]
    · rw [writeVertex_same, writeVertex_other _ _ _ _ e]

theorem detri_apply_snap_witness :
    ((⟨3, 6, 0, ⟨0, 0, 0⟩, 0⟩ : detri_t ℝ)
        ∈ detriList Real.sqrt
            (fun vi => if vi = 0 then ⟨1, 0, 0⟩ else if vi = 3 then ⟨0, 0, 0⟩ else ⟨2, 0, 0⟩)
            [⟨0, 3, 6⟩]
      ∧ (⟨3, 6, 0, ⟨0, 0, 0⟩, 0⟩ : detri_t ℝ).n = 0)
      ∧ ((∃ i : Nat, i < [(⟨0, 3, 6⟩ : Arr3 Nat)].length ∧ ∀ (j : Nat) (t : Arr3 Nat),
          [(⟨0, 3, 6⟩ : Arr3 Nat)][j]? = some t → j ≠ i →
            ¬ sharesApexAndBase (⟨3, 6, 0, ⟨0, 0, 0⟩, 0⟩ : detri_t ℝ) t)
        ∧ detri_apply Real.sqrt
            (fun vi => if vi = 0 then ⟨1, 0, 0⟩ else if vi = 3 then ⟨0, 0, 0⟩ else ⟨2, 0, 0⟩)
            ⟨3, 6, 0, ⟨0, 0, 0⟩, 0⟩ (⟨3, 6, 0, ⟨0, 0, 0⟩, 0⟩ : detri_t ℝ).viP
          = (fun vi => if vi = 0 then (⟨1, 0, 0⟩ : Vec3 ℝ) else if vi = 3 then ⟨0, 0, 0⟩
              else ⟨2, 0, 0⟩) (⟨3, 6, 0, ⟨0, 0, 0⟩, 0⟩ : detri_t ℝ).viA
        ∧ detri_apply Real.sqrt
            (fun vi => if vi = 0 then ⟨1, 0, 0⟩ else if vi = 3 then ⟨0, 0, 0⟩ else ⟨2, 0, 0⟩)
            ⟨3, 6, 0, ⟨0, 0, 0⟩, 0⟩ (⟨3, 6, 0, ⟨0, 0, 0⟩, 0⟩ : detri_t ℝ).viP
          = detri_apply Real.sqrt
            (fun vi => if vi = 0 then ⟨1, 0, 0⟩ else if vi = 3 then ⟨0, 0, 0⟩ else ⟨2, 0, 0⟩)
            ⟨3, 6, 0, ⟨0, 0, 0⟩, 0⟩ (⟨3, 6, 0, ⟨0, 0, 0⟩, 0⟩ : detri_t ℝ).viA) :=
  have hmem : (⟨3, 6, 0, ⟨0, 0, 0⟩, 0⟩ : detri_t ℝ)
      ∈ detriList Real.sqrt
          (fun vi => if vi = 0 then ⟨1, 0, 0⟩ else if vi = 3 then ⟨0, 0, 0⟩ else ⟨2, 0, 0⟩)
          [⟨0, 3, 6⟩] := by
    simp only [detriList, List.enum, List.enumFrom, List.filterMap, detri_find,
      distPointSegment_lt_eps]
    norm_num [distSqPointSegment, Vec3.sub, Vec3.dot, Vec3.add, Vec3.smul, Vec3.normSq,
      detri_scan, detri_neighbour, detri_normalize, List.enum, List.enumFrom]
  ⟨⟨hmem, rfl⟩,
    detri_apply_snap Real.sqrt
      (fun vi => if vi = 0 then ⟨1, 0, 0⟩ else if vi = 3 then ⟨0, 0, 0⟩ else ⟨2, 0, 0⟩)
      [⟨0, 3, 6⟩] ⟨3, 6, 0, ⟨0, 0, 0⟩, 0⟩ hmem rfl
      (fun vi => if vi = 0 then ⟨1, 0, 0⟩ else if vi = 3 then ⟨0, 0, 0⟩ else ⟨2, 0, 0⟩)⟩

theorem normSq_nonneg (v : Vec3 α) : 0 ≤ Vec3.normSq v := by
  unfold Vec3.normSq
  nlinarith [mul_self_nonneg v.x, mul_self_nonneg v.y, mul_self_nonneg v.z]

theorem normSq_eq_zero (v : Vec3 α) : Vec3.normSq v = 0 ↔ v = ⟨0, 0, 0⟩ := by
  constructor
  · intro h
    unfold Vec3.normSq at h
    have hx : v.x = 0 := by
      nlinarith [mul_self_nonneg v.x, mul_self_nonneg v.y, mul_self_nonneg v.z]
    have hy : v.y = 0 := by
      nlinarith [mul_self_nonneg v.x, mul_self_nonneg v.y, mul_self_nonneg v.z]
    have hz : v.z = 0 := by
      nlinarith [mul_self_nonneg v.x, mul_self_nonneg v.y, mul_self_nonneg v.z]
    cases v
    simp_all
  · rintro rfl
    simp [Vec3.normSq]

/-- Over the reals `normalizeSafe` returns the zero vector for the zero vector
and otherwise the vector divided by its length, which has length 1. -/
theorem normalizeSafe_real (a : Vec3 ℝ) :
    (a = ⟨0, 0, 0⟩ → Vec3.normalizeSafe Real.sqrt a = ⟨0, 0, 0⟩
        ∧ ¬ Vec3.norm Real.sqrt (Vec3.normalizeSafe Real.sqrt a) > 0)
      ∧ (a ≠ ⟨0, 0, 0⟩ →
          Vec3.normalizeSafe Real.sqrt a = Vec3.smul (1 / Vec3.norm Real.sqrt a) a
            ∧ Vec3.norm Real.sqrt (Vec3.normalizeSafe Real.sqrt a) = 1) := by
  constructor
  · rintro rfl
    have h0 : Vec3.norm Real.sqrt (⟨0, 0, 0⟩ : Vec3 ℝ) = 0 := by
      simp [Vec3.norm, Vec3.normSq]
    have hn : Vec3.normalizeSafe Real.sqrt (⟨0, 0, 0⟩ : Vec3 ℝ) = ⟨0, 0, 0⟩ := by
      simp [Vec3.normalizeSafe, h0]
    rw [hn, h0]
    exact ⟨rfl, lt_irrefl 0⟩
  · intro ha
    have hpos : 0 < Vec3.normSq a :=
      lt_of_le_of_ne (normSq_nonneg a) (fun e => ha ((normSq_eq_zero a).mp e.symm))
    have hn : 0 < Vec3.norm Real.sqrt a := Real.sqrt_pos.mpr hpos
    have hsq : Vec3.norm Real.sqrt a * Vec3.norm Real.sqrt a = Vec3.normSq a :=
      Real.mul_self_sqrt (le_of_lt hpos)
    have e : Vec3.normalizeSafe Real.sqrt a = Vec3.smul (1 / Vec3.norm Real.sqrt a) a := by
      unfold Vec3.normalizeSafe Vec3.smul
      simp only [ne_of_gt hn, ne_eq, not_false_eq_true, if_true, Vec3.mk.injEq]
      refine ⟨?_, ?_, ?_⟩ <;> ring
    refine ⟨e, ?_⟩
    rw [e]
    have : Vec3.normSq (Vec3.smul (1 / Vec3.norm Real.sqrt a) a) = 1 := by
      have h2 : Vec3.normSq (Vec3.smul (1 / Vec3.norm Real.sqrt a) a)
          = Vec3.normSq a / (Vec3.norm Real.sqrt a * Vec3.norm Real.sqrt a) := by
        unfold Vec3.normSq Vec3.smul
        field_simp
      rw [h2, hsq]
      exact div_self (ne_of_gt hpos)
    unfold Vec3.norm at this ⊢
    rw [this, Real.sqrt_one]

/-- The direction stored in a record of `detriList` that has `n > 0` is the
accumulated direction of the scan, normalised. -/
theorem detriList_direction (sqrt : α → α) (cv : Nat → Vec3 α) (tris : List (Arr3 Nat))
    (d : detri_t α) (hd : d ∈ detriList sqrt cv tris) (hn : 0 < d.n) :
    ∃ (i : Nat) (t : Arr3 Nat) (d0 : detri_t α), tris[i]? = some t
      ∧ detri_find sqrt cv t = some d0
      ∧ d.viP = d0.viP ∧ d.viA = d0.viA ∧ d.viB = d0.viB
      ∧ d.n = (detri_scan cv tris i d0).n
      ∧ d.v = Vec3.normalizeSafe sqrt (detri_scan cv tris i d0).v := by
  obtain ⟨i, t, d0, ht, hf, rfl⟩ := (detriList_mem sqrt cv tris d).mp hd
  obtain ⟨n1, n2, n3, n4⟩ := detri_normalize_indices sqrt (detri_scan cv tris i d0)
  obtain ⟨s1, s2, s3, _⟩ := detri_scan_spec cv tris i d0
  refine ⟨i, t, d0, ht, hf, n1.trans s1, n2.trans s2, n3.trans s3, n4, ?_⟩
  rw [n4] at hn
  unfold detri_normalize
  simp [hn]

/-- C15 as stated fails: in this mesh the sliver `(0, 3, 6)` has two
contributing neighbours (`n = 2`) whose directions `(0, 1, 0)` and `(0, -1, 0)`
cancel, and the repair leaves its apex where it was. -/
theorem repair_direction_cancels :
    detriList Real.sqrt
        (fun vi => if vi = 0 then ⟨1, 0, 0⟩ else if vi = 3 then ⟨0, 0, 0⟩
          else if vi = 6 then ⟨2, 0, 0⟩ else if vi = 9 then ⟨1, 1, 0⟩ else ⟨1, -1, 0⟩)
        [⟨0, 3, 6⟩, ⟨0, 3, 9⟩, ⟨0, 6, 12⟩]
        = [⟨3, 6, 0, ⟨0, 0, 0⟩, 2⟩]
      ∧ insertShapeNode_repair Real.sqrt
          (fun vi => if vi = 0 then ⟨1, 0, 0⟩ else if vi = 3 then ⟨0, 0, 0⟩
            else if vi = 6 then ⟨2, 0, 0⟩ else if vi = 9 then ⟨1, 1, 0⟩ else ⟨1, -1, 0⟩)
          [⟨0, 3, 6⟩, ⟨0, 3, 9⟩, ⟨0, 6, 12⟩] 0
        = ⟨1, 0, 0⟩ := by
  have hz := (normalizeSafe_real ⟨0, 0, 0⟩).1 rfl
  have hl : detriList Real.sqrt
      (fun vi => if vi = 0 then ⟨1, 0, 0⟩ else if vi = 3 then ⟨0, 0, 0⟩
        else if vi = 6 then ⟨2, 0, 0⟩ else if vi = 9 then ⟨1, 1, 0⟩ else ⟨1, -1, 0⟩)
      [⟨0, 3, 6⟩, ⟨0, 3, 9⟩, ⟨0, 6, 12⟩]
      = [⟨3, 6, 0, ⟨0, 0, 0⟩, 2⟩] := by
    simp only [detriList, List.enum, List.enumFrom, List.filterMap, detri_find,
      distPointSegment_lt_eps]
    norm_num [distSqPointSegment, Vec3.sub, Vec3.dot, Vec3.add, Vec3.smul, Vec3.normSq,
      detri_scan, detri_neighbour, detri_normalize, List.enum, List.enumFrom, hz.1]
  refine ⟨hl, ?_⟩
  unfold insertShapeNode_repair
  rw [hl]
  have h0 : Vec3.norm Real.sqrt (⟨0, 0, 0⟩ : Vec3 ℝ) = 0 := by simp [Vec3.norm, Vec3.normSq]
  simp [detri_apply, h0]

theorem sub_eq_zero_iff (a b : Vec3 α) : Vec3.sub a b = ⟨0, 0, 0⟩ ↔ a = b := by
  cases a; cases b
  simp [Vec3.sub, sub_eq_zero]

theorem add_zero_left (a : Vec3 α) : Vec3.add ⟨0, 0, 0⟩ a = a := by
  cases a
  simp [Vec3.add]

/-- The repair of a record whose direction has length 1: the apex moves by
`1e-5` times the direction. -/
theorem detri_apply_unit (cur : Nat → Vec3 ℝ) (d : detri_t ℝ) (hn : 0 < d.n)
    (hv : Vec3.norm Real.sqrt d.v = 1) :
    detri_apply Real.sqrt cur d
      = writeVertex cur d.viP (Vec3.add (cur d.viP) (Vec3.smul (1 / 100000) d.v)) := by
  unfold detri_apply
  simp [Nat.ne_of_gt hn, hv]

/-- The two-triangle mesh: the only record is the one of the sliver `t1`, with
the direction from the apex to the third vertex `C` of the neighbour `t2`,
normalised. -/
theorem detriList_two (cv : Nat → Vec3 ℝ) (t1 t2 : Arr3 Nat) (d1 : detri_t ℝ) (X C : Nat)
    (h1 : detri_find Real.sqrt cv t1 = some d1) (h2 : detri_find Real.sqrt cv t2 = none)
    (hX : X = d1.viA ∨ X = d1.viB) (hXP : X ≠ d1.viP) (hCP : C ≠ d1.viP) (hCA : C ≠ d1.viA)
    (hCB : C ≠ d1.viB) (hP : d1.viP ∈ [t2.a0, t2.a1, t2.a2]) (hXt : X ∈ [t2.a0, t2.a1, t2.a2])
    (hC : C ∈ [t2.a0, t2.a1, t2.a2]) (tris : List (Arr3 Nat))
    (ht : tris = [t1, t2] ∨ tris = [t2, t1]) :
    ∃ d : detri_t ℝ, detriList Real.sqrt cv tris = [d] ∧ d.viP = d1.viP ∧ d.n = 1
      ∧ d.v = Vec3.normalizeSafe Real.sqrt (Vec3.sub (cv C) (cv d1.viP)) := by
  obtain ⟨e1, e2⟩ := detri_neighbour_third cv { d1 with v := ⟨0, 0, 0⟩, n := 0 } t2 X C
    hX hXP hCP hCA hCB hP hXt hC
  obtain ⟨i1, _, _⟩ := detri_neighbour_indices cv { d1 with v := ⟨0, 0, 0⟩, n := 0 } t2
  simp only [add_zero_left, Nat.zero_add] at e1 e2
  refine ⟨detri_normalize Real.sqrt (detri_neighbour cv { d1 with v := ⟨0, 0, 0⟩, n := 0 } t2),
    ?_, ?_, ?_, ?_⟩
  · rcases ht with rfl | rfl
    · simp [detriList, List.enum, List.enumFrom, List.filterMap, h1, h2, detri_scan]
    · simp [detriList, List.enum, List.enumFrom, List.filterMap, h1, h2, detri_scan]
  · exact (detri_normalize_indices Real.sqrt _).1.trans i1
  · exact (detri_normalize_indices Real.sqrt _).2.2.2.trans e2
  · unfold detri_normalize
    simp [e1, e2]

/-- C15, amended: for a record of `detriList` with `n > 0`, when the direction
accumulated by the scan is not the zero vector the stored direction is that
vector divided by its length, it has length 1, and the repair of the record
moves the apex by exactly `1e-5` times it; when the accumulated direction is
the zero vector the repair of the record changes nothing. In a mesh of two
triangles, a sliver and a neighbour that is not degenerate and consists of the
apex `P`, one base vertex and a third vertex `C` at another position, the
repair moves the apex to `P + 1e-5 (C - P) / |C - P|`. -/
theorem detri_apply_nudge :
    (∀ (cv : Nat → Vec3 ℝ) (tris : List (Arr3 Nat)) (d : detri_t ℝ),
      d ∈ detriList Real.sqrt cv tris → 0 < d.n →
      ∃ (i : Nat) (t : Arr3 Nat) (d0 : detri_t ℝ), tris[i]? = some t
        ∧ detri_find Real.sqrt cv t = some d0
        ∧ ((detri_scan cv tris i d0).v ≠ ⟨0, 0, 0⟩ →
            d.v = Vec3.smul (1 / Vec3.norm Real.sqrt (detri_scan cv tris i d0).v)
                    (detri_scan cv tris i d0).v
              ∧ Vec3.norm Real.sqrt d.v = 1
              ∧ ∀ cur : Nat → Vec3 ℝ, detri_apply Real.sqrt cur d d.viP
                  = Vec3.add (cur d.viP) (Vec3.smul (1 / 100000) d.v))
        ∧ ((detri_scan cv tris i d0).v = ⟨0, 0, 0⟩ →
            ∀ cur : Nat → Vec3 ℝ, detri_apply Real.sqrt cur d = cur))
      ∧ ∀ (cv : Nat → Vec3 ℝ) (t1 t2 : Arr3 Nat) (d1 : detri_t ℝ) (X C : Nat),
          detri_find Real.sqrt cv t1 = some d1 → detri_find Real.sqrt cv t2 = none →
          (X = d1.viA ∨ X = d1.viB) → X ≠ d1.viP → C ≠ d1.viP → C ≠ d1.viA → C ≠ d1.viB →
          d1.viP ∈ [t2.a0, t2.a1, t2.a2] → X ∈ [t2.a0, t2.a1, t2.a2] →
          C ∈ [t2.a0, t2.a1, t2.a2] → cv C ≠ cv d1.viP →
          ∀ tris : List (Arr3 Nat), tris = [t1, t2] ∨ tris = [t2, t1] →
            insertShapeNode_repair Real.sqrt cv tris d1.viP
              = Vec3.add (cv d1.viP) (Vec3.smul (1 / 100000)
                  (Vec3.smul (1 / Vec3.norm Real.sqrt (Vec3.sub (cv C) (cv d1.viP)))
                    (Vec3.sub (cv C) (cv d1.viP)))) := by
  constructor
  · intro cv tris d hd hn
    obtain ⟨i, t, d0, ht, hf, _, _, _, hdn, hdv⟩ := detriList_direction Real.sqrt cv tris d hd hn
    obtain ⟨hz, hnz⟩ := normalizeSafe_real (detri_scan cv tris i d0).v
    refine ⟨i, t, d0, ht, hf, ?_, ?_⟩
    · intro hne
      obtain ⟨e1, e2⟩ := hnz hne
      rw [← hdv] at e1 e2
      refine ⟨e1, e2, fun cur => ?_⟩
      rw [detri_apply_unit cur d hn e2, writeVertex_same]
    · intro he cur
      obtain ⟨_, e2⟩ := hz he
      rw [← hdv] at e2
      unfold detri_apply
      simp [Nat.ne_of_gt hn, e2]
  · intro cv t1 t2 d1 X C h1 h2 hX hXP hCP hCA hCB hP hXt hC hne tris ht
    obtain ⟨d, hl, hdP, hdn, hdv⟩ :=
      detriList_two cv t1 t2 d1 X C h1 h2 hX hXP hCP hCA hCB hP hXt hC tris ht
    have hu : Vec3.sub (cv C) (cv d1.viP) ≠ ⟨0, 0, 0⟩ :=
      fun e => hne ((sub_eq_zero_iff _ _).mp e)
    obtain ⟨e1, e2⟩ := (normalizeSafe_real _).2 hu
    rw [← hdv] at e1 e2
    unfold insertShapeNode_repair
    rw [hl]
    simp only [List.foldl]
    rw [detri_apply_unit cv d (by omega) e2, hdP, writeVertex_same, e1]

theorem detri_apply_nudge_witness :
    (detri_find Real.sqrt (fun vi => if vi = 0 then (⟨1, 0, 0⟩ : Vec3 ℝ) else if vi = 3 then ⟨0, 0, 0⟩
          else if vi = 6 then ⟨2, 0, 0⟩ else ⟨1, 3, 0⟩) ⟨0, 3, 6⟩ = some ⟨3, 6, 0, ⟨0, 0, 0⟩, 0⟩
      ∧ detri_find Real.sqrt (fun vi => if vi = 0 then (⟨1, 0, 0⟩ : Vec3 ℝ) else if vi = 3 then ⟨0, 0, 0⟩
          else if vi = 6 then ⟨2, 0, 0⟩ else ⟨1, 3, 0⟩) ⟨0, 3, 9⟩ = none)
      ∧ insertShapeNode_repair Real.sqrt (fun vi => if vi = 0 then (⟨1, 0, 0⟩ : Vec3 ℝ) else if vi = 3 then ⟨0, 0, 0⟩
          else if vi = 6 then ⟨2, 0, 0⟩ else ⟨1, 3, 0⟩) [⟨0, 3, 6⟩, ⟨0, 3, 9⟩]
          (⟨3, 6, 0, ⟨0, 0, 0⟩, 0⟩ : detri_t ℝ).viP
        = Vec3.add ((fun vi => if vi = 0 then (⟨1, 0, 0⟩ : Vec3 ℝ) else if vi = 3 then ⟨0, 0, 0⟩
          else if vi = 6 then ⟨2, 0, 0⟩ else ⟨1, 3, 0⟩) (⟨3, 6, 0, ⟨0, 0, 0⟩, 0⟩ : detri_t ℝ).viP) (Vec3.smul (1 / 100000)
            (Vec3.smul (1 / Vec3.norm Real.sqrt
                (Vec3.sub ((fun vi => if vi = 0 then (⟨1, 0, 0⟩ : Vec3 ℝ) else if vi = 3 then ⟨0, 0, 0⟩
          else if vi = 6 then ⟨2, 0, 0⟩ else ⟨1, 3, 0⟩) 9) ((fun vi => if vi = 0 then (⟨1, 0, 0⟩ : Vec3 ℝ) else if vi = 3 then ⟨0, 0, 0⟩
          else if vi = 6 then ⟨2, 0, 0⟩ else ⟨1, 3, 0⟩) (⟨3, 6, 0, ⟨0, 0, 0⟩, 0⟩ : detri_t ℝ).viP)))
              (Vec3.sub ((fun vi => if vi = 0 then (⟨1, 0, 0⟩ : Vec3 ℝ) else if vi = 3 then ⟨0, 0, 0⟩
          else if vi = 6 then ⟨2, 0, 0⟩ else ⟨1, 3, 0⟩) 9) ((fun vi => if vi = 0 then (⟨1, 0, 0⟩ : Vec3 ℝ) else if vi = 3 then ⟨0, 0, 0⟩
          else if vi = 6 then ⟨2, 0, 0⟩ else ⟨1, 3, 0⟩) (⟨3, 6, 0, ⟨0, 0, 0⟩, 0⟩ : detri_t ℝ).viP)))) :=
  have h1 : detri_find Real.sqrt (fun vi => if vi = 0 then (⟨1, 0, 0⟩ : Vec3 ℝ) else if vi = 3 then ⟨0, 0, 0⟩
          else if vi = 6 then ⟨2, 0, 0⟩ else ⟨1, 3, 0⟩) ⟨0, 3, 6⟩ = some ⟨3, 6, 0, ⟨0, 0, 0⟩, 0⟩ := by
    simp only [detri_find, distPointSegment_lt_eps]
    norm_num [distSqPointSegment, Vec3.sub, Vec3.dot, Vec3.add, Vec3.smul, Vec3.normSq]
  have h2 : detri_find Real.sqrt (fun vi => if vi = 0 then (⟨1, 0, 0⟩ : Vec3 ℝ) else if vi = 3 then ⟨0, 0, 0⟩
          else if vi = 6 then ⟨2, 0, 0⟩ else ⟨1, 3, 0⟩) ⟨0, 3, 9⟩ = none := by
    simp only [detri_find, distPointSegment_lt_eps]
    norm_num [distSqPointSegment, Vec3.sub, Vec3.dot, Vec3.add, Vec3.smul, Vec3.normSq]
  ⟨⟨h1, h2⟩,
    detri_apply_nudge.2 (fun vi => if vi = 0 then (⟨1, 0, 0⟩ : Vec3 ℝ) else if vi = 3 then ⟨0, 0, 0⟩
          else if vi = 6 then ⟨2, 0, 0⟩ else ⟨1, 3, 0⟩) ⟨0, 3, 6⟩ ⟨0, 3, 9⟩ ⟨3, 6, 0, ⟨0, 0, 0⟩, 0⟩ 3 9 h1 h2
      (Or.inl rfl) (by decide) (by decide) (by decide) (by decide) (by decide) (by decide)
      (by decide) (by norm_num) [⟨0, 3, 6⟩, ⟨0, 3, 9⟩] (Or.inl rfl)⟩

theorem norm_nonneg (a : Vec3 ℝ) : 0 ≤ Vec3.norm Real.sqrt a := Real.sqrt_nonneg _

theorem dot_le_norm_mul (a b : Vec3 ℝ) :
    Vec3.dot a b ≤ Vec3.norm Real.sqrt a * Vec3.norm Real.sqrt b := by
  have hcs : Vec3.dot a b * Vec3.dot a b ≤ Vec3.normSq a * Vec3.normSq b := by
    unfold Vec3.dot Vec3.normSq
    nlinarith [sq_nonneg (a.y * b.z - a.z * b.y), sq_nonneg (a.z * b.x - a.x * b.z),
      sq_nonneg (a.x * b.y - a.y * b.x)]
  unfold Vec3.norm
  rw [← Real.sqrt_mul (normSq_nonneg a)]
  exact Real.le_sqrt_of_sq_le (by simpa [sq] using hcs)

/-- Triangle inequality for the length of real vectors. -/
theorem norm_add_le (a b : Vec3 ℝ) :
    Vec3.norm Real.sqrt (Vec3.add a b) ≤ Vec3.norm Real.sqrt a + Vec3.norm Real.sqrt b := by
  have ha := norm_nonneg a
  have hb := norm_nonneg b
  have h1 : Vec3.norm Real.sqrt a * Vec3.norm Real.sqrt a = Vec3.normSq a :=
    Real.mul_self_sqrt (normSq_nonneg a)
  have h2 : Vec3.norm Real.sqrt b * Vec3.norm Real.sqrt b = Vec3.normSq b :=
    Real.mul_self_sqrt (normSq_nonneg b)
  have h3 := dot_le_norm_mul a b
  have hexp : Vec3.normSq (Vec3.add a b) = Vec3.normSq a + 2 * Vec3.dot a b + Vec3.normSq b := by
    unfold Vec3.normSq Vec3.add Vec3.dot
    ring
  show Real.sqrt (Vec3.normSq (Vec3.add a b)) ≤ _
  apply Real.sqrt_le_iff.mpr
  refine ⟨by linarith, ?_⟩
  rw [hexp]
  nlinarith

theorem norm_smul (k : ℝ) (hk : 0 ≤ k) (a : Vec3 ℝ) :
    Vec3.norm Real.sqrt (Vec3.smul k a) = k * Vec3.norm Real.sqrt a := by
  unfold Vec3.norm
  have : Vec3.normSq (Vec3.smul k a) = k ^ 2 * Vec3.normSq a := by
    unfold Vec3.normSq Vec3.smul
    ring
  rw [this, Real.sqrt_mul (sq_nonneg k), Real.sqrt_sq hk]

theorem norm_zero : Vec3.norm Real.sqrt (⟨0, 0, 0⟩ : Vec3 ℝ) = 0 := by
  simp [Vec3.norm, Vec3.normSq]

theorem norm_normalizeSafe_le_one (a : Vec3 ℝ) :
    Vec3.norm Real.sqrt (Vec3.normalizeSafe Real.sqrt a) ≤ 1 := by
  by_cases h : a = ⟨0, 0, 0⟩
  · have := ((normalizeSafe_real a).1 h).2
    linarith [not_lt.mp this]
  · exact le_of_eq ((normalizeSafe_real a).2 h).2

omit [LinearOrderedField α] in
theorem sub_self_zero {β : Type} [LinearOrderedField β] (a : Vec3 β) :
    Vec3.sub a a = ⟨0, 0, 0⟩ := by
  simp [Vec3.sub]

/-- The repair of a record writes to no vertex other than the apex. -/
theorem detri_apply_other (sqrt : α → α) (cur : Nat → Vec3 α) (d : detri_t α) (k : Nat)
    (h : k ≠ d.viP) : detri_apply sqrt cur d k = cur k := by
  unfold detri_apply
  split_ifs
  · exact writeVertex_other _ _ _ _ h
  · exact writeVertex_other _ _ _ _ h
  · rfl

/-- The repair of a record with `n > 0` and a direction of length at most 1
moves the apex by at most `1e-5`. -/
theorem detri_apply_step (cur : Nat → Vec3 ℝ) (d : detri_t ℝ) (hn : 0 < d.n)
    (hv : Vec3.norm Real.sqrt d.v ≤ 1) :
    Vec3.norm Real.sqrt (Vec3.sub (detri_apply Real.sqrt cur d d.viP) (cur d.viP))
      ≤ 1 / 100000 := by
  unfold detri_apply
  simp only [Nat.ne_of_gt hn, if_false]
  split_ifs
  · rw [writeVertex_same]
    have : Vec3.sub (Vec3.add (cur d.viP) (Vec3.smul (1 / 100000) d.v)) (cur d.viP)
        = Vec3.smul (1 / 100000) d.v := by
      simp [Vec3.sub, Vec3.add, Vec3.smul]
    rw [this, norm_smul _ (by norm_num)]
    nlinarith [norm_nonneg d.v]
  · rw [sub_self_zero, norm_zero]
    norm_num

theorem sub_triangle (a b c : Vec3 ℝ) :
    Vec3.sub a c = Vec3.add (Vec3.sub a b) (Vec3.sub b c) := by
  simp [Vec3.sub, Vec3.add]

/-- Running the repairs of a list of records moves vertex `k` by at most
`1e-5` for every record of the list whose apex is `k`, when these records have
`n > 0` and directions of length at most 1. -/
theorem repair_fold_bound (cv : Nat → Vec3 ℝ) (k : Nat) (l : List (detri_t ℝ)) :
    ∀ cur : Nat → Vec3 ℝ,
      (∀ d ∈ l, d.viP = k → 0 < d.n ∧ Vec3.norm Real.sqrt d.v ≤ 1) →
      Vec3.norm Real.sqrt (Vec3.sub (l.foldl (detri_apply Real.sqrt) cur k) (cv k))
        ≤ Vec3.norm Real.sqrt (Vec3.sub (cur k) (cv k))
          + 1 / 100000 * (l.countP (fun d => decide (d.viP = k)) : ℝ) := by
  induction l with
  | nil => intro cur _; simp
  | cons d l ih =>
    intro cur h
    have hl := ih (detri_apply Real.sqrt cur d) (fun e he => h e (List.mem_cons_of_mem d he))
    simp only [List.foldl]
    by_cases hk : d.viP = k
    · obtain ⟨hn, hv⟩ := h d (List.mem_cons_self d l) hk
      have hstep := detri_apply_step cur d hn hv
      rw [hk] at hstep
      have htri := norm_add_le (Vec3.sub (detri_apply Real.sqrt cur d k) (cur k))
        (Vec3.sub (cur k) (cv k))
      rw [← sub_triangle] at htri
      have hc : l.countP (fun d => decide (d.viP = k)) + 1
          = (d :: l).countP (fun d => decide (d.viP = k)) := by
        simp [List.countP_cons, hk]
      rw [← hc]
      push_cast
      linarith
    · rw [detri_apply_other Real.sqrt cur d k (fun e => hk e.symm)] at hl
      have hc : l.countP (fun d => decide (d.viP = k))
          = (d :: l).countP (fun d => decide (d.viP = k)) := by
        simp [List.countP_cons, hk]
      rw [← hc]
      exact hl

/-- C17 as stated fails: (a) in a mesh that is a single sliver the repair
snaps the apex onto the base vertex `A`, a distance 1 away; (b) a vertex that
is the apex of two slivers, each with a contributing neighbour, is nudged
twice and ends `2e-5` away. -/
theorem repair_moves_far :
    1 / 100000 < Vec3.norm Real.sqrt (Vec3.sub
        (insertShapeNode_repair Real.sqrt (fun vi => if vi = 0 then (⟨1, 0, 0⟩ : Vec3 ℝ) else if vi = 3 then ⟨0, 0, 0⟩ else ⟨2, 0, 0⟩) [⟨0, 3, 6⟩] 0) ((fun vi => if vi = 0 then (⟨1, 0, 0⟩ : Vec3 ℝ) else if vi = 3 then ⟨0, 0, 0⟩ else ⟨2, 0, 0⟩) 0))
      ∧ 1 / 100000 < Vec3.norm Real.sqrt (Vec3.sub
          (insertShapeNode_repair Real.sqrt (fun vi => if vi = 0 then (⟨1, 0, 0⟩ : Vec3 ℝ) else if vi = 3 then ⟨0, 0, 0⟩
          else if vi = 6 then ⟨2, 0, 0⟩ else if vi = 9 then ⟨-1, 0, 0⟩
          else if vi = 12 then ⟨3, 0, 0⟩ else ⟨1, 3, 0⟩) [⟨0, 3, 6⟩, ⟨0, 9, 12⟩, ⟨0, 3, 15⟩, ⟨0, 9, 15⟩] 0) ((fun vi => if vi = 0 then (⟨1, 0, 0⟩ : Vec3 ℝ) else if vi = 3 then ⟨0, 0, 0⟩
          else if vi = 6 then ⟨2, 0, 0⟩ else if vi = 9 then ⟨-1, 0, 0⟩
          else if vi = 12 then ⟨3, 0, 0⟩ else ⟨1, 3, 0⟩) 0)) := by
  have hu : Vec3.normalizeSafe Real.sqrt (⟨0, 3, 0⟩ : Vec3 ℝ) = ⟨0, 1, 0⟩ := by
    rw [normalizeSafe_of_normSq _ 3 (by norm_num) (by norm_num [Vec3.normSq])]
    norm_num
  have hn1 : Vec3.norm Real.sqrt (⟨0, 1, 0⟩ : Vec3 ℝ) = 1 := by
    simp [Vec3.norm, Vec3.normSq]
  have hl1 : detriList Real.sqrt (fun vi => if vi = 0 then (⟨1, 0, 0⟩ : Vec3 ℝ) else if vi = 3 then ⟨0, 0, 0⟩ else ⟨2, 0, 0⟩) [⟨0, 3, 6⟩] = [⟨3, 6, 0, ⟨0, 0, 0⟩, 0⟩] := by
    simp only [detriList, List.enum, List.enumFrom, List.filterMap, detri_find,
      distPointSegment_lt_eps]
    norm_num [distSqPointSegment, Vec3.sub, Vec3.dot, Vec3.add, Vec3.smul, Vec3.normSq,
      detri_scan, detri_neighbour, detri_normalize, List.enum, List.enumFrom]
  have hl2 : detriList Real.sqrt (fun vi => if vi = 0 then (⟨1, 0, 0⟩ : Vec3 ℝ) else if vi = 3 then ⟨0, 0, 0⟩
          else if vi = 6 then ⟨2, 0, 0⟩ else if vi = 9 then ⟨-1, 0, 0⟩
          else if vi = 12 then ⟨3, 0, 0⟩ else ⟨1, 3, 0⟩) [⟨0, 3, 6⟩, ⟨0, 9, 12⟩, ⟨0, 3, 15⟩, ⟨0, 9, 15⟩]
      = [⟨3, 6, 0, ⟨0, 1, 0⟩, 1⟩, ⟨9, 12, 0, ⟨0, 1, 0⟩, 1⟩] := by
    simp only [detriList, List.enum, List.enumFrom, List.filterMap, detri_find,
      distPointSegment_lt_eps]
    norm_num [distSqPointSegment, Vec3.sub, Vec3.dot, Vec3.add, Vec3.smul, Vec3.normSq,
      detri_scan, detri_neighbour, detri_normalize, List.enum, List.enumFrom, hu]
  constructor
  · unfold insertShapeNode_repair
    rw [hl1]
    apply Real.lt_sqrt_of_sq_lt
    norm_num [detri_apply, writeVertex, Vec3.sub, Vec3.normSq]
  · unfold insertShapeNode_repair
    rw [hl2]
    apply Real.lt_sqrt_of_sq_lt
    norm_num [detri_apply, writeVertex, Vec3.sub, Vec3.add, Vec3.smul, Vec3.normSq, hn1]

/-- C17, amended: the repair moves a vertex that is not the apex of a record
with `n = 0` by at most `1e-5` times the number of recorded triangles whose
apex it is: not at all when it is the apex of none, by at most `1e-5` when it
is the apex of one. -/
theorem repair_displacement (cleanVertices : Nat → Vec3 ℝ) (cleanVIndices : List (Arr3 Nat))
    (k : Nat)
    (h : ∀ d ∈ detriList Real.sqrt cleanVertices cleanVIndices, d.viP = k → 0 < d.n) :
    Vec3.norm Real.sqrt (Vec3.sub
        (insertShapeNode_repair Real.sqrt cleanVertices cleanVIndices k) (cleanVertices k))
      ≤ 1 / 100000
        * ((detriList Real.sqrt cleanVertices cleanVIndices).countP
            (fun d => decide (d.viP = k)) : ℝ) := by
  have hb := repair_fold_bound cleanVertices k (detriList Real.sqrt cleanVertices cleanVIndices)
    cleanVertices (fun d hd hk => by
      have hn := h d hd hk
      obtain ⟨i, t, d0, _, _, _, _, _, _, hv⟩ :=
        detriList_direction Real.sqrt cleanVertices cleanVIndices d hd hn
      exact ⟨hn, by rw [hv]; exact norm_normalizeSafe_le_one _⟩)
  rw [sub_self_zero, norm_zero, zero_add] at hb
  exact hb

theorem repair_displacement_witness :
    (∀ d ∈ detriList Real.sqrt (fun vi => if vi = 0 then (⟨1, 0, 0⟩ : Vec3 ℝ) else if vi = 3 then ⟨0, 0, 0⟩
          else if vi = 6 then ⟨2, 0, 0⟩ else ⟨1, 3, 0⟩) [⟨0, 3, 6⟩, ⟨0, 3, 9⟩], d.viP = 0 → 0 < d.n)
      ∧ Vec3.norm Real.sqrt (Vec3.sub (insertShapeNode_repair Real.sqrt (fun vi => if vi = 0 then (⟨1, 0, 0⟩ : Vec3 ℝ) else if vi = 3 then ⟨0, 0, 0⟩
          else if vi = 6 then ⟨2, 0, 0⟩ else ⟨1, 3, 0⟩) [⟨0, 3, 6⟩, ⟨0, 3, 9⟩] 0) ((fun vi => if vi = 0 then (⟨1, 0, 0⟩ : Vec3 ℝ) else if vi = 3 then ⟨0, 0, 0⟩
          else if vi = 6 then ⟨2, 0, 0⟩ else ⟨1, 3, 0⟩) 0))
        ≤ 1 / 100000 * ((detriList Real.sqrt (fun vi => if vi = 0 then (⟨1, 0, 0⟩ : Vec3 ℝ) else if vi = 3 then ⟨0, 0, 0⟩
          else if vi = 6 then ⟨2, 0, 0⟩ else ⟨1, 3, 0⟩) [⟨0, 3, 6⟩, ⟨0, 3, 9⟩]).countP (fun d => decide (d.viP = 0)) : ℝ) :=
  have hu : Vec3.normalizeSafe Real.sqrt (⟨0, 3, 0⟩ : Vec3 ℝ) = ⟨0, 1, 0⟩ := by
    rw [normalizeSafe_of_normSq _ 3 (by norm_num) (by norm_num [Vec3.normSq])]
    norm_num
  have hl : detriList Real.sqrt (fun vi => if vi = 0 then (⟨1, 0, 0⟩ : Vec3 ℝ) else if vi = 3 then ⟨0, 0, 0⟩
          else if vi = 6 then ⟨2, 0, 0⟩ else ⟨1, 3, 0⟩) [⟨0, 3, 6⟩, ⟨0, 3, 9⟩] = [⟨3, 6, 0, ⟨0, 1, 0⟩, 1⟩] := by
    simp only [detriList, List.enum, List.enumFrom, List.filterMap, detri_find,
      distPointSegment_lt_eps]
    norm_num [distSqPointSegment, Vec3.sub, Vec3.dot, Vec3.add, Vec3.smul, Vec3.normSq,
      detri_scan, detri_neighbour, detri_normalize, List.enum, List.enumFrom, hu]
  have h : ∀ d ∈ detriList Real.sqrt (fun vi => if vi = 0 then (⟨1, 0, 0⟩ : Vec3 ℝ) else if vi = 3 then ⟨0, 0, 0⟩
          else if vi = 6 then ⟨2, 0, 0⟩ else ⟨1, 3, 0⟩) [⟨0, 3, 6⟩, ⟨0, 3, 9⟩], d.viP = 0 → 0 < d.n := by
    rw [hl]
    intro d hd _
    rw [List.mem_singleton.mp hd]
    exact Nat.one_pos
  ⟨h, repair_displacement (fun vi => if vi = 0 then (⟨1, 0, 0⟩ : Vec3 ℝ) else if vi = 3 then ⟨0, 0, 0⟩
          else if vi = 6 then ⟨2, 0, 0⟩ else ⟨1, 3, 0⟩) [⟨0, 3, 6⟩, ⟨0, 3, 9⟩] 0 h⟩

/-- The second loop on a mesh of two small triangular faces that share the
edge from `(3e-6, 0, -2)` to `(0, 0, -2)`, both inside the clip range. -/
theorem secondPass_small_mesh (B : Blenlib ℝ) :
    (insertShapeNode_secondPass (⟨-1, -10, 0, false⟩ : BlenderFileLoader ℝ) B
      ⟨false, fun v => v, fun v => v,
        [⟨⟨⟨3 / 1000000, 0, -2⟩, ⟨0, 0, 1⟩⟩, ⟨⟨0, 0, -2⟩, ⟨0, 0, 1⟩⟩,
            ⟨⟨6 / 1000000, 0, -2⟩, ⟨0, 0, 1⟩⟩, none, ⟨1, false, false⟩,
            false, false, false, false, false, false, false, ⟨0, 0, 1⟩⟩,
          ⟨⟨⟨3 / 1000000, 0, -2⟩, ⟨0, 0, 1⟩⟩, ⟨⟨0, 0, -2⟩, ⟨0, 0, 1⟩⟩,
            ⟨⟨3 / 1000000, 4 / 1000000, -2⟩, ⟨0, 0, 1⟩⟩, none, ⟨1, false, false⟩,
            false, false, false, false, false, false, false, ⟨0, 0, 1⟩⟩]⟩ 0).ls.vertices
        = [⟨3 / 1000000, 0, -2⟩, ⟨0, 0, -2⟩, ⟨6 / 1000000, 0, -2⟩,
            ⟨3 / 1000000, 0, -2⟩, ⟨0, 0, -2⟩, ⟨3 / 1000000, 4 / 1000000, -2⟩]
      ∧ (insertShapeNode_secondPass (⟨-1, -10, 0, false⟩ : BlenderFileLoader ℝ) B
      ⟨false, fun v => v, fun v => v,
        [⟨⟨⟨3 / 1000000, 0, -2⟩, ⟨0, 0, 1⟩⟩, ⟨⟨0, 0, -2⟩, ⟨0, 0, 1⟩⟩,
            ⟨⟨6 / 1000000, 0, -2⟩, ⟨0, 0, 1⟩⟩, none, ⟨1, false, false⟩,
            false, false, false, false, false, false, false, ⟨0, 0, 1⟩⟩,
          ⟨⟨⟨3 / 1000000, 0, -2⟩, ⟨0, 0, 1⟩⟩, ⟨⟨0, 0, -2⟩, ⟨0, 0, 1⟩⟩,
            ⟨⟨3 / 1000000, 4 / 1000000, -2⟩, ⟨0, 0, 1⟩⟩, none, ⟨1, false, false⟩,
            false, false, false, false, false, false, false, ⟨0, 0, 1⟩⟩]⟩ 0).ls.VIndices = [0, 3, 6, 9, 12, 15]
      ∧ (insertShapeNode_secondPass (⟨-1, -10, 0, false⟩ : BlenderFileLoader ℝ) B
      ⟨false, fun v => v, fun v => v,
        [⟨⟨⟨3 / 1000000, 0, -2⟩, ⟨0, 0, 1⟩⟩, ⟨⟨0, 0, -2⟩, ⟨0, 0, 1⟩⟩,
            ⟨⟨6 / 1000000, 0, -2⟩, ⟨0, 0, 1⟩⟩, none, ⟨1, false, false⟩,
            false, false, false, false, false, false, false, ⟨0, 0, 1⟩⟩,
          ⟨⟨⟨3 / 1000000, 0, -2⟩, ⟨0, 0, 1⟩⟩, ⟨⟨0, 0, -2⟩, ⟨0, 0, 1⟩⟩,
            ⟨⟨3 / 1000000, 4 / 1000000, -2⟩, ⟨0, 0, 1⟩⟩, none, ⟨1, false, false⟩,
            false, false, false, false, false, false, false, ⟨0, 0, 1⟩⟩]⟩ 0).ls.minBBox = ⟨0, 0, -2⟩
      ∧ (insertShapeNode_secondPass (⟨-1, -10, 0, false⟩ : BlenderFileLoader ℝ) B
      ⟨false, fun v => v, fun v => v,
        [⟨⟨⟨3 / 1000000, 0, -2⟩, ⟨0, 0, 1⟩⟩, ⟨⟨0, 0, -2⟩, ⟨0, 0, 1⟩⟩,
            ⟨⟨6 / 1000000, 0, -2⟩, ⟨0, 0, 1⟩⟩, none, ⟨1, false, false⟩,
            false, false, false, false, false, false, false, ⟨0, 0, 1⟩⟩,
          ⟨⟨⟨3 / 1000000, 0, -2⟩, ⟨0, 0, 1⟩⟩, ⟨⟨0, 0, -2⟩, ⟨0, 0, 1⟩⟩,
            ⟨⟨3 / 1000000, 4 / 1000000, -2⟩, ⟨0, 0, 1⟩⟩, none, ⟨1, false, false⟩,
            false, false, false, false, false, false, false, ⟨0, 0, 1⟩⟩]⟩ 0).ls.maxBBox = ⟨6 / 1000000, 4 / 1000000, -2⟩ := by
  simp only [insertShapeNode_secondPass, List.foldl, insertShapeNode_emit, cameraCo, cameraNo,
    insertShapeNode_halves, countClippedFaces, countClippedFaces_body, Arr3.get, Arr3.set,
    CLIPPED_BY_NEAR, CLIPPED_BY_FAR, NOT_CLIPPED]
  norm_num [countClippedFaces_switch, insertShapeNode_material, insertShapeNode_fan,
    clipTriangle, clipTriangle_body, Arr3.get, NOT_CLIPPED, slotAt, addTriangle,
    addTriangle_body, initialLoaderState, List.range, List.range.loop]

theorem clean_small_mesh :
    CleanIndexedVertexArray
        [(⟨3 / 1000000, 0, -2⟩ : Vec3 ℝ), ⟨0, 0, -2⟩, ⟨6 / 1000000, 0, -2⟩,
          ⟨3 / 1000000, 0, -2⟩, ⟨0, 0, -2⟩, ⟨3 / 1000000, 4 / 1000000, -2⟩]
        [0, 3, 6, 9, 12, 15]
      = ([⟨3 / 1000000, 0, -2⟩, ⟨0, 0, -2⟩, ⟨6 / 1000000, 0, -2⟩,
            ⟨3 / 1000000, 4 / 1000000, -2⟩], [0, 3, 6, 0, 3, 9]) := by
  norm_num [CleanIndexedVertexArray, List.indexOf_cons, cond_eq_if, beq_iff_eq]

/-- C12 fails on this mesh: two triangular faces inside the clip range,
`(P, A, B)` with `P = (3e-6, 0, -2)` on the segment from `A = (0, 0, -2)` to
`B = (6e-6, 0, -2)`, and `(P, A, C)` with `C = (3e-6, 4e-6, -2)`. The box set on
the output reaches up to `y = 4e-6`, while the repair has moved `P`, which the
index stream references at offset 0, to `y = 1e-5`. -/
theorem insertShapeNode_bbox_escaped (B : Blenlib ℝ) :
    0 ∈ (insertShapeNode_rep Real.sqrt (insertShapeNode_secondPass (⟨-1, -10, 0, false⟩ : BlenderFileLoader ℝ) B
      ⟨false, fun v => v, fun v => v,
        [⟨⟨⟨3 / 1000000, 0, -2⟩, ⟨0, 0, 1⟩⟩, ⟨⟨0, 0, -2⟩, ⟨0, 0, 1⟩⟩,
            ⟨⟨6 / 1000000, 0, -2⟩, ⟨0, 0, 1⟩⟩, none, ⟨1, false, false⟩,
            false, false, false, false, false, false, false, ⟨0, 0, 1⟩⟩,
          ⟨⟨⟨3 / 1000000, 0, -2⟩, ⟨0, 0, 1⟩⟩, ⟨⟨0, 0, -2⟩, ⟨0, 0, 1⟩⟩,
            ⟨⟨3 / 1000000, 4 / 1000000, -2⟩, ⟨0, 0, 1⟩⟩, none, ⟨1, false, false⟩,
            false, false, false, false, false, false, false, ⟨0, 0, 1⟩⟩]⟩ 0)).VIndices
      ∧ (insertShapeNode_rep Real.sqrt (insertShapeNode_secondPass (⟨-1, -10, 0, false⟩ : BlenderFileLoader ℝ) B
      ⟨false, fun v => v, fun v => v,
        [⟨⟨⟨3 / 1000000, 0, -2⟩, ⟨0, 0, 1⟩⟩, ⟨⟨0, 0, -2⟩, ⟨0, 0, 1⟩⟩,
            ⟨⟨6 / 1000000, 0, -2⟩, ⟨0, 0, 1⟩⟩, none, ⟨1, false, false⟩,
            false, false, false, false, false, false, false, ⟨0, 0, 1⟩⟩,
          ⟨⟨⟨3 / 1000000, 0, -2⟩, ⟨0, 0, 1⟩⟩, ⟨⟨0, 0, -2⟩, ⟨0, 0, 1⟩⟩,
            ⟨⟨3 / 1000000, 4 / 1000000, -2⟩, ⟨0, 0, 1⟩⟩, none, ⟨1, false, false⟩,
            false, false, false, false, false, false, false, ⟨0, 0, 1⟩⟩]⟩ 0)).Vertices 0 = ⟨3 / 1000000, 1 / 100000, -2⟩
      ∧ (insertShapeNode_rep Real.sqrt (insertShapeNode_secondPass (⟨-1, -10, 0, false⟩ : BlenderFileLoader ℝ) B
      ⟨false, fun v => v, fun v => v,
        [⟨⟨⟨3 / 1000000, 0, -2⟩, ⟨0, 0, 1⟩⟩, ⟨⟨0, 0, -2⟩, ⟨0, 0, 1⟩⟩,
            ⟨⟨6 / 1000000, 0, -2⟩, ⟨0, 0, 1⟩⟩, none, ⟨1, false, false⟩,
            false, false, false, false, false, false, false, ⟨0, 0, 1⟩⟩,
          ⟨⟨⟨3 / 1000000, 0, -2⟩, ⟨0, 0, 1⟩⟩, ⟨⟨0, 0, -2⟩, ⟨0, 0, 1⟩⟩,
            ⟨⟨3 / 1000000, 4 / 1000000, -2⟩, ⟨0, 0, 1⟩⟩, none, ⟨1, false, false⟩,
            false, false, false, false, false, false, false, ⟨0, 0, 1⟩⟩]⟩ 0)).bboxMin = ⟨0, 0, -2⟩
      ∧ (insertShapeNode_rep Real.sqrt (insertShapeNode_secondPass (⟨-1, -10, 0, false⟩ : BlenderFileLoader ℝ) B
      ⟨false, fun v => v, fun v => v,
        [⟨⟨⟨3 / 1000000, 0, -2⟩, ⟨0, 0, 1⟩⟩, ⟨⟨0, 0, -2⟩, ⟨0, 0, 1⟩⟩,
            ⟨⟨6 / 1000000, 0, -2⟩, ⟨0, 0, 1⟩⟩, none, ⟨1, false, false⟩,
            false, false, false, false, false, false, false, ⟨0, 0, 1⟩⟩,
          ⟨⟨⟨3 / 1000000, 0, -2⟩, ⟨0, 0, 1⟩⟩, ⟨⟨0, 0, -2⟩, ⟨0, 0, 1⟩⟩,
            ⟨⟨3 / 1000000, 4 / 1000000, -2⟩, ⟨0, 0, 1⟩⟩, none, ⟨1, false, false⟩,
            false, false, false, false, false, false, false, ⟨0, 0, 1⟩⟩]⟩ 0)).bboxMax = ⟨6 / 1000000, 4 / 1000000, -2⟩
      ∧ ¬ Vec3.within (insertShapeNode_rep Real.sqrt (insertShapeNode_secondPass (⟨-1, -10, 0, false⟩ : BlenderFileLoader ℝ) B
      ⟨false, fun v => v, fun v => v,
        [⟨⟨⟨3 / 1000000, 0, -2⟩, ⟨0, 0, 1⟩⟩, ⟨⟨0, 0, -2⟩, ⟨0, 0, 1⟩⟩,
            ⟨⟨6 / 1000000, 0, -2⟩, ⟨0, 0, 1⟩⟩, none, ⟨1, false, false⟩,
            false, false, false, false, false, false, false, ⟨0, 0, 1⟩⟩,
          ⟨⟨⟨3 / 1000000, 0, -2⟩, ⟨0, 0, 1⟩⟩, ⟨⟨0, 0, -2⟩, ⟨0, 0, 1⟩⟩,
            ⟨⟨3 / 1000000, 4 / 1000000, -2⟩, ⟨0, 0, 1⟩⟩, none, ⟨1, false, false⟩,
            false, false, false, false, false, false, false, ⟨0, 0, 1⟩⟩]⟩ 0)).bboxMin
            (insertShapeNode_rep Real.sqrt (insertShapeNode_secondPass (⟨-1, -10, 0, false⟩ : BlenderFileLoader ℝ) B
      ⟨false, fun v => v, fun v => v,
        [⟨⟨⟨3 / 1000000, 0, -2⟩, ⟨0, 0, 1⟩⟩, ⟨⟨0, 0, -2⟩, ⟨0, 0, 1⟩⟩,
            ⟨⟨6 / 1000000, 0, -2⟩, ⟨0, 0, 1⟩⟩, none, ⟨1, false, false⟩,
            false, false, false, false, false, false, false, ⟨0, 0, 1⟩⟩,
          ⟨⟨⟨3 / 1000000, 0, -2⟩, ⟨0, 0, 1⟩⟩, ⟨⟨0, 0, -2⟩, ⟨0, 0, 1⟩⟩,
            ⟨⟨3 / 1000000, 4 / 1000000, -2⟩, ⟨0, 0, 1⟩⟩, none, ⟨1, false, false⟩,
            false, false, false, false, false, false, false, ⟨0, 0, 1⟩⟩]⟩ 0)).bboxMax
            ((insertShapeNode_rep Real.sqrt (insertShapeNode_secondPass (⟨-1, -10, 0, false⟩ : BlenderFileLoader ℝ) B
      ⟨false, fun v => v, fun v => v,
        [⟨⟨⟨3 / 1000000, 0, -2⟩, ⟨0, 0, 1⟩⟩, ⟨⟨0, 0, -2⟩, ⟨0, 0, 1⟩⟩,
            ⟨⟨6 / 1000000, 0, -2⟩, ⟨0, 0, 1⟩⟩, none, ⟨1, false, false⟩,
            false, false, false, false, false, false, false, ⟨0, 0, 1⟩⟩,
          ⟨⟨⟨3 / 1000000, 0, -2⟩, ⟨0, 0, 1⟩⟩, ⟨⟨0, 0, -2⟩, ⟨0, 0, 1⟩⟩,
            ⟨⟨3 / 1000000, 4 / 1000000, -2⟩, ⟨0, 0, 1⟩⟩, none, ⟨1, false, false⟩,
            false, false, false, false, false, false, false, ⟨0, 0, 1⟩⟩]⟩ 0)).Vertices 0) := by
  obtain ⟨h1, h2, h3, h4⟩ := secondPass_small_mesh B
  have hu : Vec3.normalizeSafe Real.sqrt (⟨0, 1 / 250000, 0⟩ : Vec3 ℝ) = ⟨0, 1, 0⟩ := by
    rw [normalizeSafe_of_normSq _ (1 / 250000) (by norm_num) (by norm_num [Vec3.normSq])]
    norm_num
  have hn1 : Vec3.norm Real.sqrt (⟨0, 1, 0⟩ : Vec3 ℝ) = 1 := by
    simp [Vec3.norm, Vec3.normSq]
  have hl : detriList Real.sqrt
      (vertexArray [(⟨3 / 1000000, 0, -2⟩ : Vec3 ℝ), ⟨0, 0, -2⟩, ⟨6 / 1000000, 0, -2⟩,
        ⟨3 / 1000000, 4 / 1000000, -2⟩]) (indexTriples [0, 3, 6, 0, 3, 9])
      = [⟨3, 6, 0, ⟨0, 1, 0⟩, 1⟩] := by
    simp only [detriList, indexTriples, List.enum, List.enumFrom, List.filterMap, detri_find,
      distPointSegment_lt_eps, vertexArray]
    norm_num [distSqPointSegment, Vec3.sub, Vec3.dot, Vec3.add, Vec3.smul, Vec3.normSq,
      detri_scan, detri_neighbour, detri_normalize, List.enum, List.enumFrom, vertexArray, hu]
  have hv : (insertShapeNode_rep Real.sqrt (insertShapeNode_secondPass (⟨-1, -10, 0, false⟩ : BlenderFileLoader ℝ) B
      ⟨false, fun v => v, fun v => v,
        [⟨⟨⟨3 / 1000000, 0, -2⟩, ⟨0, 0, 1⟩⟩, ⟨⟨0, 0, -2⟩, ⟨0, 0, 1⟩⟩,
            ⟨⟨6 / 1000000, 0, -2⟩, ⟨0, 0, 1⟩⟩, none, ⟨1, false, false⟩,
            false, false, false, false, false, false, false, ⟨0, 0, 1⟩⟩,
          ⟨⟨⟨3 / 1000000, 0, -2⟩, ⟨0, 0, 1⟩⟩, ⟨⟨0, 0, -2⟩, ⟨0, 0, 1⟩⟩,
            ⟨⟨3 / 1000000, 4 / 1000000, -2⟩, ⟨0, 0, 1⟩⟩, none, ⟨1, false, false⟩,
            false, false, false, false, false, false, false, ⟨0, 0, 1⟩⟩]⟩ 0)).Vertices 0 = ⟨3 / 1000000, 1 / 100000, -2⟩ := by
    simp only [insertShapeNode_rep, h1, h2, clean_small_mesh, insertShapeNode_repair, hl,
      List.foldl]
    norm_num [detri_apply, writeVertex, vertexArray, Vec3.add, Vec3.smul, hn1]
  refine ⟨?_, hv, h3, h4, ?_⟩
  · simp only [insertShapeNode_rep, h1, h2, clean_small_mesh]
    decide
  · rw [hv]
    simp only [insertShapeNode_rep, h3, h4]
    norm_num [Vec3.within]

/-- C18 fails on this mesh: the sliver `(P, A, B)` with `P = (1, 0, -2)` on the
segment from `A = (0, 0, -2)` to `B = (2, 0, -2)` has the neighbour `(P, B, C)`
with `C = (5.9, 0.099, -2)`. The apex is nudged (`n = 1`) along
`(C - P) / |C - P| = (4900, 99, 0) / 4901`, which is nearly parallel to the
base; afterwards its distance to the base is `99 / 490100000 < 1e-6`, and
the test of lines 704-730 selects the same triangle with the same apex again. -/
theorem repair_leaves_sliver :
    detriList Real.sqrt (fun vi => if vi = 0 then (⟨1, 0, -2⟩ : Vec3 ℝ) else if vi = 3 then ⟨0, 0, -2⟩
          else if vi = 6 then ⟨2, 0, -2⟩ else ⟨59 / 10, 99 / 1000, -2⟩) [⟨0, 3, 6⟩, ⟨0, 6, 9⟩] = [⟨3, 6, 0, ⟨4900 / 4901, 99 / 4901, 0⟩, 1⟩]
      ∧ (insertShapeNode_repair Real.sqrt (fun vi => if vi = 0 then (⟨1, 0, -2⟩ : Vec3 ℝ) else if vi = 3 then ⟨0, 0, -2⟩
          else if vi = 6 then ⟨2, 0, -2⟩ else ⟨59 / 10, 99 / 1000, -2⟩) [⟨0, 3, 6⟩, ⟨0, 6, 9⟩]) 0 = ⟨1 + 49 / 4901000, 99 / 490100000, -2⟩
      ∧ distPointSegment Real.sqrt ((insertShapeNode_repair Real.sqrt (fun vi => if vi = 0 then (⟨1, 0, -2⟩ : Vec3 ℝ) else if vi = 3 then ⟨0, 0, -2⟩
          else if vi = 6 then ⟨2, 0, -2⟩ else ⟨59 / 10, 99 / 1000, -2⟩) [⟨0, 3, 6⟩, ⟨0, 6, 9⟩]) 0) ((insertShapeNode_repair Real.sqrt (fun vi => if vi = 0 then (⟨1, 0, -2⟩ : Vec3 ℝ) else if vi = 3 then ⟨0, 0, -2⟩
          else if vi = 6 then ⟨2, 0, -2⟩ else ⟨59 / 10, 99 / 1000, -2⟩) [⟨0, 3, 6⟩, ⟨0, 6, 9⟩]) 3) ((insertShapeNode_repair Real.sqrt (fun vi => if vi = 0 then (⟨1, 0, -2⟩ : Vec3 ℝ) else if vi = 3 then ⟨0, 0, -2⟩
          else if vi = 6 then ⟨2, 0, -2⟩ else ⟨59 / 10, 99 / 1000, -2⟩) [⟨0, 3, 6⟩, ⟨0, 6, 9⟩]) 6) < 1 / 1000000
      ∧ detri_find Real.sqrt (insertShapeNode_repair Real.sqrt (fun vi => if vi = 0 then (⟨1, 0, -2⟩ : Vec3 ℝ) else if vi = 3 then ⟨0, 0, -2⟩
          else if vi = 6 then ⟨2, 0, -2⟩ else ⟨59 / 10, 99 / 1000, -2⟩) [⟨0, 3, 6⟩, ⟨0, 6, 9⟩]) ⟨0, 3, 6⟩ = some ⟨3, 6, 0, ⟨0, 0, 0⟩, 0⟩ := by
  have hu : Vec3.normalizeSafe Real.sqrt (⟨49 / 10, 99 / 1000, 0⟩ : Vec3 ℝ)
      = ⟨4900 / 4901, 99 / 4901, 0⟩ := by
    rw [normalizeSafe_of_normSq _ (4901 / 1000) (by norm_num) (by norm_num [Vec3.normSq])]
    norm_num
  have hn1 : Vec3.norm Real.sqrt (⟨4900 / 4901, 99 / 4901, 0⟩ : Vec3 ℝ) = 1 := by
    unfold Vec3.norm
    rw [show Vec3.normSq (⟨4900 / 4901, 99 / 4901, 0⟩ : Vec3 ℝ) = 1 by norm_num [Vec3.normSq]]
    exact Real.sqrt_one
  have hl : detriList Real.sqrt (fun vi => if vi = 0 then (⟨1, 0, -2⟩ : Vec3 ℝ) else if vi = 3 then ⟨0, 0, -2⟩
          else if vi = 6 then ⟨2, 0, -2⟩ else ⟨59 / 10, 99 / 1000, -2⟩) [⟨0, 3, 6⟩, ⟨0, 6, 9⟩] = [⟨3, 6, 0, ⟨4900 / 4901, 99 / 4901, 0⟩, 1⟩] := by
    simp only [detriList, List.enum, List.enumFrom, List.filterMap, detri_find,
      distPointSegment_lt_eps]
    norm_num [distSqPointSegment, Vec3.sub, Vec3.dot, Vec3.add, Vec3.smul, Vec3.normSq,
      detri_scan, detri_neighbour, detri_normalize, List.enum, List.enumFrom, hu]
  have hrep : (insertShapeNode_repair Real.sqrt (fun vi => if vi = 0 then (⟨1, 0, -2⟩ : Vec3 ℝ) else if vi = 3 then ⟨0, 0, -2⟩
          else if vi = 6 then ⟨2, 0, -2⟩ else ⟨59 / 10, 99 / 1000, -2⟩) [⟨0, 3, 6⟩, ⟨0, 6, 9⟩]) = writeVertex (fun vi => if vi = 0 then (⟨1, 0, -2⟩ : Vec3 ℝ) else if vi = 3 then ⟨0, 0, -2⟩
          else if vi = 6 then ⟨2, 0, -2⟩ else ⟨59 / 10, 99 / 1000, -2⟩) 0 ⟨1 + 49 / 4901000, 99 / 490100000, -2⟩ := by
    unfold insertShapeNode_repair
    rw [hl]
    simp only [List.foldl, detri_apply, hn1]
    norm_num [Vec3.add, Vec3.smul]
  have hd : distPointSegment Real.sqrt ((insertShapeNode_repair Real.sqrt (fun vi => if vi = 0 then (⟨1, 0, -2⟩ : Vec3 ℝ) else if vi = 3 then ⟨0, 0, -2⟩
          else if vi = 6 then ⟨2, 0, -2⟩ else ⟨59 / 10, 99 / 1000, -2⟩) [⟨0, 3, 6⟩, ⟨0, 6, 9⟩]) 0) ((insertShapeNode_repair Real.sqrt (fun vi => if vi = 0 then (⟨1, 0, -2⟩ : Vec3 ℝ) else if vi = 3 then ⟨0, 0, -2⟩
          else if vi = 6 then ⟨2, 0, -2⟩ else ⟨59 / 10, 99 / 1000, -2⟩) [⟨0, 3, 6⟩, ⟨0, 6, 9⟩]) 3) ((insertShapeNode_repair Real.sqrt (fun vi => if vi = 0 then (⟨1, 0, -2⟩ : Vec3 ℝ) else if vi = 3 then ⟨0, 0, -2⟩
          else if vi = 6 then ⟨2, 0, -2⟩ else ⟨59 / 10, 99 / 1000, -2⟩) [⟨0, 3, 6⟩, ⟨0, 6, 9⟩]) 6) < 1 / 1000000 := by
    rw [hrep, distPointSegment_lt_eps]
    norm_num [writeVertex, distSqPointSegment, Vec3.sub, Vec3.dot, Vec3.add, Vec3.smul,
      Vec3.normSq]
  refine ⟨hl, by rw [hrep]; simp [writeVertex], hd, ?_⟩
  simp only [detri_find, hd, if_true]
  rw [hrep]
  norm_num [writeVertex]

theorem cameraCo_z (L : BlenderFileLoader α) (obi : ObjectInstanceRen α) (co : Vec3 α) :
    (cameraCo L obi co).z = (cameraPoint obi co).z + L._z_offset := rfl

/-- The classification of a depth shifted by the offset of `Load`, in terms of
the unshifted depth and the renderer's clip distances. -/
theorem clipCode_Load_clip (L : BlenderFileLoader α) (clipsta clipend z : α) :
    (clipCode (Load_clip L clipsta clipend) (z + (Load_clip L clipsta clipend)._z_offset)
        = NOT_CLIPPED ↔ -clipend ≤ z ∧ z ≤ -clipsta)
      ∧ (clipCode (Load_clip L clipsta clipend) (z + (Load_clip L clipsta clipend)._z_offset)
        = CLIPPED_BY_NEAR ↔ z > -clipsta) := by
  have e1 : z + (Load_clip L clipsta clipend)._z_offset > (Load_clip L clipsta clipend)._z_near
      ↔ z > -clipsta := by
    unfold Load_clip
    split_ifs
    · simp only []
      constructor <;> intro h <;> linarith
    · simp
  have e2 : z + (Load_clip L clipsta clipend)._z_offset < (Load_clip L clipsta clipend)._z_far
      ↔ z < -clipend := by
    unfold Load_clip
    split_ifs
    · simp only []
      constructor <;> intro h <;> linarith
    · simp
  unfold clipCode CLIPPED_BY_NEAR CLIPPED_BY_FAR NOT_CLIPPED
  rw [if_congr e1 rfl (if_congr e2 rfl rfl)]
  by_cases h1 : z > -clipsta
  · simp only [h1, if_true, true_iff, iff_true]
    refine ⟨?_, trivial⟩
    simp only [gt_iff_lt] at h1
    constructor
    · intro h; exact absurd h (by decide)
    · intro h; exact absurd h.2 (not_le.mpr h1)
  · by_cases h2 : z < -clipend
    · simp only [h1, h2, if_false, if_true, iff_false]
      refine ⟨?_, by decide⟩
      constructor
      · intro h; exact absurd h (by decide)
      · intro h; exact absurd h.1 (not_le.mpr h2)
    · simp only [h1, h2, if_false, iff_false]
      refine ⟨?_, by decide⟩
      simp only [true_iff]
      exact ⟨not_lt.mp h2, not_lt.mp h1⟩

/-- C26: with `_z_near`, `_z_far` and `_z_offset` as `Load` sets them up from
`clipsta` and `clipend` (in either branch), a face vertex whose depth in the
camera coordinate system is `z`, once offset as in `insertShapeNode`, is
classified `NOT_CLIPPED` by `countClippedFaces` exactly when
`-clipend ≤ z ≤ -clipsta` and `CLIPPED_BY_NEAR` exactly when `z > -clipsta`;
and `_z_near - _z_far = clipend - clipsta`. -/
theorem Load_preserves_clip_range (L : BlenderFileLoader α) (clipsta clipend : α)
    (obi : ObjectInstanceRen α) (c1 c2 c3 : Vec3 α) (i : Fin 3) :
    ((countClippedFaces (Load_clip L clipsta clipend)
          (cameraCo (Load_clip L clipsta clipend) obi c1)
          (cameraCo (Load_clip L clipsta clipend) obi c2)
          (cameraCo (Load_clip L clipsta clipend) obi c3)).2.get i.val = NOT_CLIPPED
        ↔ -clipend ≤ (cameraPoint obi ((Arr3.mk c1 c2 c3).get i.val)).z
          ∧ (cameraPoint obi ((Arr3.mk c1 c2 c3).get i.val)).z ≤ -clipsta)
      ∧ ((countClippedFaces (Load_clip L clipsta clipend)
          (cameraCo (Load_clip L clipsta clipend) obi c1)
          (cameraCo (Load_clip L clipsta clipend) obi c2)
          (cameraCo (Load_clip L clipsta clipend) obi c3)).2.get i.val = CLIPPED_BY_NEAR
        ↔ (cameraPoint obi ((Arr3.mk c1 c2 c3).get i.val)).z > -clipsta)
      ∧ (Load_clip L clipsta clipend)._z_near - (Load_clip L clipsta clipend)._z_far
          = clipend - clipsta := by
  refine ⟨?_, ?_, ?_⟩
  · rw [countClippedFaces_clip]
    simp only [cameraCo_z]
    fin_cases i
    · exact (clipCode_Load_clip L clipsta clipend _).1
    · exact (clipCode_Load_clip L clipsta clipend _).1
    · exact (clipCode_Load_clip L clipsta clipend _).1
  · rw [countClippedFaces_clip]
    simp only [cameraCo_z]
    fin_cases i
    · exact (clipCode_Load_clip L clipsta clipend _).2
    · exact (clipCode_Load_clip L clipsta clipend _).2
    · exact (clipCode_Load_clip L clipsta clipend _).2
  · unfold Load_clip
    split_ifs
    · simp only []; ring
    · simp only []; ring

/-- The point returned by `clipLine`, written with its divisor `d[2]` and its
parameter `t`. -/
theorem clipLine_eq_t (v1 v2 : Vec3 α) (z : α) :
    clipLine v1 v2 z
      = ⟨(clipLine_order v1 v2).1.x
            + clipLine_t v1 v2 z * ((clipLine_order v1 v2).2.x - (clipLine_order v1 v2).1.x),
          (clipLine_order v1 v2).1.y
            + clipLine_t v1 v2 z * ((clipLine_order v1 v2).2.y - (clipLine_order v1 v2).1.y),
          z⟩
      ∧ clipLine_t v1 v2 z = (z - (clipLine_order v1 v2).1.z) / clipLine_d2 v1 v2 :=
  ⟨rfl, rfl⟩

/-- Two depths with different classification codes are different, and with
`_z_far ≤ _z_near` the plane of either code that is not `NOT_CLIPPED` lies
between them. -/
theorem clipCode_between (L : BlenderFileLoader α) (zi zj : α) (c : Int)
    (hne : clipCode L zi ≠ clipCode L zj) (hc : c = clipCode L zi ∨ c = clipCode L zj)
    (hc0 : c ≠ NOT_CLIPPED) :
    zi ≠ zj ∧ (L._z_far ≤ L._z_near →
      min zi zj ≤ planeDepth L c ∧ planeDepth L c ≤ max zi zj) := by
  refine ⟨fun e => hne (by rw [e]), fun hfn => ?_⟩
  simp only [min_le_iff, le_max_iff]
  unfold planeDepth CLIPPED_BY_NEAR
  unfold NOT_CLIPPED at hc0
  rcases clipCode_cases L zi with ⟨a1, e1⟩ | ⟨a1, b1, e1⟩ | ⟨a1, b1, e1⟩ <;>
  rcases clipCode_cases L zj with ⟨a2, e2⟩ | ⟨a2, b2, e2⟩ | ⟨a2, b2, e2⟩ <;>
  rw [e1, e2] at hne hc <;>
  first
    | exact absurd rfl hne
    | (rcases hc with rfl | rfl <;>
        first
          | exact absurd rfl hc0
          | (simp only [if_true, if_false, show ((1 : Int) = -1) = False from by decide]
             constructor <;> first
               | (left; linarith)
               | (right; linarith)))

/-- For endpoints with different Z the divisor of `clipLine` is positive, and
for a depth between the two Z values the parameter `t` is in `[0, 1]`. -/
theorem clipLine_t_range (a b : Vec3 α) (z : α) (h : a.z ≠ b.z) :
    0 < clipLine_d2 a b ∧ (min a.z b.z ≤ z ∧ z ≤ max a.z b.z →
      0 ≤ clipLine_t a b z ∧ clipLine_t a b z ≤ 1) := by
  unfold clipLine_t clipLine_d2 clipLine_order
  by_cases hlt : a.z < b.z
  · simp only [hlt, if_true]
    refine ⟨by linarith, fun hz => ?_⟩
    rw [min_eq_left (le_of_lt hlt), max_eq_right (le_of_lt hlt)] at hz
    have hd : 0 < b.z - a.z := by linarith
    exact ⟨div_nonneg (by linarith) (le_of_lt hd), (div_le_one hd).mpr (by linarith)⟩
  · simp only [hlt, if_false]
    have hlt2 : b.z < a.z := lt_of_le_of_ne (not_lt.mp hlt) (Ne.symm h)
    refine ⟨by linarith, fun hz => ?_⟩
    rw [min_eq_right (le_of_lt hlt2), max_eq_left (le_of_lt hlt2)] at hz
    have hd : 0 < a.z - b.z := by linarith
    exact ⟨div_nonneg (by linarith) (le_of_lt hd), (div_le_one hd).mpr (by linarith)⟩

/-- What is known of a slot computed by `clipLine` on edge `i` at the plane of
code `c`, when the codes of the two end points differ and `c` is one of them. -/
theorem clipLine_call_safe (L : BlenderFileLoader α) (a b : Vec3 α) (c : Int)
    (hne : clipCode L a.z ≠ clipCode L b.z) (hc : c = clipCode L a.z ∨ c = clipCode L b.z)
    (hc0 : c ≠ NOT_CLIPPED) :
    a.z ≠ b.z ∧ 0 < clipLine_d2 a b
      ∧ (L._z_far ≤ L._z_near →
          (min a.z b.z ≤ planeDepth L c ∧ planeDepth L c ≤ max a.z b.z)
            ∧ 0 ≤ clipLine_t a b (planeDepth L c) ∧ clipLine_t a b (planeDepth L c) ≤ 1) := by
  obtain ⟨h1, h2⟩ := clipCode_between L a.z b.z c hne hc hc0
  obtain ⟨h3, h4⟩ := clipLine_t_range a b (planeDepth L c) h1
  exact ⟨h1, h3, fun hfn => ⟨h2 hfn, h4 (h2 hfn)⟩⟩

/-- C25: with the classification of `countClippedFaces` on the same triangle,
every slot that `clipTriangle` fills by a call of `clipLine` (on edge `i`, at
the plane of code `c`) holds `clipLine(v[i], v[(i + 1) % 3], depth)`, where
`v[i]` and `v[(i + 1) % 3]` have different Z, so that the divisor `d[2]` is
positive; and when `_z_far ≤ _z_near` the depth passed lies between the two Z
values and the parameter `t` is in `[0, 1]`. -/
theorem clipTriangle_clipLine_safe (L : BlenderFileLoader α) (v1 v2 v3 n1 n2 n3 : Vec3 α)
    (em1 em2 em3 : Bool) :
    ∀ s ∈ clipTriangle L v1 v2 v3 n1 n2 n3 em1 em2 em3 (countClippedFaces L v1 v2 v3).2,
      ∀ (i : Nat) (c : Int), s.origin = .cut i c →
        i < 3
          ∧ s.co = clipLine ((Arr3.mk v1 v2 v3).get i) ((Arr3.mk v1 v2 v3).get ((i + 1) % 3))
              (planeDepth L c)
          ∧ ((Arr3.mk v1 v2 v3).get i).z ≠ ((Arr3.mk v1 v2 v3).get ((i + 1) % 3)).z
          ∧ 0 < clipLine_d2 ((Arr3.mk v1 v2 v3).get i) ((Arr3.mk v1 v2 v3).get ((i + 1) % 3))
          ∧ (L._z_far ≤ L._z_near →
              (min ((Arr3.mk v1 v2 v3).get i).z ((Arr3.mk v1 v2 v3).get ((i + 1) % 3)).z
                  ≤ planeDepth L c
                ∧ planeDepth L c
                  ≤ max ((Arr3.mk v1 v2 v3).get i).z ((Arr3.mk v1 v2 v3).get ((i + 1) % 3)).z)
              ∧ 0 ≤ clipLine_t ((Arr3.mk v1 v2 v3).get i)
                    ((Arr3.mk v1 v2 v3).get ((i + 1) % 3)) (planeDepth L c)
              ∧ clipLine_t ((Arr3.mk v1 v2 v3).get i)
                    ((Arr3.mk v1 v2 v3).get ((i + 1) % 3)) (planeDepth L c) ≤ 1) := by
  rw [countClippedFaces_clip]
  apply clipTriangle_forall
  intro out i hi hout s hs
  simp only [clipTriangle_body, ne_eq, ite_not, clipCode_get] at hs
  split_ifs at hs with c1 c2 c3 c4
  · simp only [List.mem_append, List.mem_singleton] at hs
    rcases hs with hs | hs
    · exact hout s hs
    · subst hs; intro i' c' ho; simp at ho
  · simp only [List.mem_append, List.mem_singleton] at hs
    rcases hs with (hs | hs) | hs
    · exact hout s hs
    · subst hs; intro i' c' ho; simp at ho
    · subst hs; intro i' c' ho
      simp only [Origin.cut.injEq] at ho
      obtain ⟨rfl, rfl⟩ := ho
      exact ⟨hi, rfl, clipLine_call_safe L _ _ _ (by rw [c1]; exact fun e => c2 e.symm)
        (Or.inr rfl) c2⟩
  · exact hout s hs
  · simp only [List.mem_append, List.mem_singleton] at hs
    rcases hs with hs | hs
    · exact hout s hs
    · subst hs; intro i' c' ho
      simp only [Origin.cut.injEq] at ho
      obtain ⟨rfl, rfl⟩ := ho
      exact ⟨hi, rfl, clipLine_call_safe L _ _ _ c3 (Or.inl rfl) c1⟩
  · simp only [List.mem_append, List.mem_cons, List.mem_singleton, List.not_mem_nil,
      or_false] at hs
    rcases hs with hs | hs | hs
    · exact hout s hs
    · subst hs; intro i' c' ho
      simp only [Origin.cut.injEq] at ho
      obtain ⟨rfl, rfl⟩ := ho
      exact ⟨hi, rfl, clipLine_call_safe L _ _ _ c3 (Or.inl rfl) c1⟩
    · subst hs; intro i' c' ho
      simp only [Origin.cut.injEq] at ho
      obtain ⟨rfl, rfl⟩ := ho
      exact ⟨hi, rfl, clipLine_call_safe L _ _ _ c3 (Or.inr rfl) c4⟩

theorem clipTriangle_clipLine_safe_witness :
    ((⟨⟨0, 1 / 5, -10⟩, ⟨0, 0, 1⟩, false, .cut 1 1⟩ : Slot ℚ)
        ∈ clipTriangle (⟨-1, -10, 0, false⟩ : BlenderFileLoader ℚ) ⟨0, 0, -2⟩ ⟨0, 0, -8⟩
            ⟨0, 1, -18⟩ ⟨0, 0, 1⟩ ⟨0, 0, 1⟩ ⟨0, 0, 1⟩ true true false
            (countClippedFaces (⟨-1, -10, 0, false⟩ : BlenderFileLoader ℚ)
              ⟨0, 0, -2⟩ ⟨0, 0, -8⟩ ⟨0, 1, -18⟩).2)
      ∧ (1 < 3
          ∧ (⟨⟨0, 1 / 5, -10⟩, ⟨0, 0, 1⟩, false, .cut 1 1⟩ : Slot ℚ).co
              = clipLine ((Arr3.mk (⟨0, 0, -2⟩ : Vec3 ℚ) ⟨0, 0, -8⟩ ⟨0, 1, -18⟩).get 1)
                  ((Arr3.mk (⟨0, 0, -2⟩ : Vec3 ℚ) ⟨0, 0, -8⟩ ⟨0, 1, -18⟩).get ((1 + 1) % 3))
                  (planeDepth (⟨-1, -10, 0, false⟩ : BlenderFileLoader ℚ) 1)
          ∧ ((Arr3.mk (⟨0, 0, -2⟩ : Vec3 ℚ) ⟨0, 0, -8⟩ ⟨0, 1, -18⟩).get 1).z
              ≠ ((Arr3.mk (⟨0, 0, -2⟩ : Vec3 ℚ) ⟨0, 0, -8⟩ ⟨0, 1, -18⟩).get ((1 + 1) % 3)).z
          ∧ 0 < clipLine_d2 ((Arr3.mk (⟨0, 0, -2⟩ : Vec3 ℚ) ⟨0, 0, -8⟩ ⟨0, 1, -18⟩).get 1)
              ((Arr3.mk (⟨0, 0, -2⟩ : Vec3 ℚ) ⟨0, 0, -8⟩ ⟨0, 1, -18⟩).get ((1 + 1) % 3))
          ∧ ((⟨-1, -10, 0, false⟩ : BlenderFileLoader ℚ)._z_far
                ≤ (⟨-1, -10, 0, false⟩ : BlenderFileLoader ℚ)._z_near →
              (min ((Arr3.mk (⟨0, 0, -2⟩ : Vec3 ℚ) ⟨0, 0, -8⟩ ⟨0, 1, -18⟩).get 1).z
                    ((Arr3.mk (⟨0, 0, -2⟩ : Vec3 ℚ) ⟨0, 0, -8⟩ ⟨0, 1, -18⟩).get ((1 + 1) % 3)).z
                  ≤ planeDepth (⟨-1, -10, 0, false⟩ : BlenderFileLoader ℚ) 1
                ∧ planeDepth (⟨-1, -10, 0, false⟩ : BlenderFileLoader ℚ) 1
                  ≤ max ((Arr3.mk (⟨0, 0, -2⟩ : Vec3 ℚ) ⟨0, 0, -8⟩ ⟨0, 1, -18⟩).get 1).z
                    ((Arr3.mk (⟨0, 0, -2⟩ : Vec3 ℚ) ⟨0, 0, -8⟩ ⟨0, 1, -18⟩).get ((1 + 1) % 3)).z)
              ∧ 0 ≤ clipLine_t ((Arr3.mk (⟨0, 0, -2⟩ : Vec3 ℚ) ⟨0, 0, -8⟩ ⟨0, 1, -18⟩).get 1)
                    ((Arr3.mk (⟨0, 0, -2⟩ : Vec3 ℚ) ⟨0, 0, -8⟩ ⟨0, 1, -18⟩).get ((1 + 1) % 3))
                    (planeDepth (⟨-1, -10, 0, false⟩ : BlenderFileLoader ℚ) 1)
              ∧ clipLine_t ((Arr3.mk (⟨0, 0, -2⟩ : Vec3 ℚ) ⟨0, 0, -8⟩ ⟨0, 1, -18⟩).get 1)
                    ((Arr3.mk (⟨0, 0, -2⟩ : Vec3 ℚ) ⟨0, 0, -8⟩ ⟨0, 1, -18⟩).get ((1 + 1) % 3))
                    (planeDepth (⟨-1, -10, 0, false⟩ : BlenderFileLoader ℚ) 1) ≤ 1)) :=
  ⟨by
      norm_num [clipTriangle, clipTriangle_body, countClippedFaces, countClippedFaces_body,
        Arr3.get, Arr3.set, clipLine, clipLine_order, clipLine_interp, planeDepth,
        CLIPPED_BY_NEAR, CLIPPED_BY_FAR, NOT_CLIPPED],
    clipTriangle_clipLine_safe (⟨-1, -10, 0, false⟩ : BlenderFileLoader ℚ)
      ⟨0, 0, -2⟩ ⟨0, 0, -8⟩ ⟨0, 1, -18⟩ ⟨0, 0, 1⟩ ⟨0, 0, 1⟩ ⟨0, 0, 1⟩ true true false
      ⟨⟨0, 1 / 5, -10⟩, ⟨0, 0, 1⟩, false, .cut 1 1⟩ (by
        norm_num [clipTriangle, clipTriangle_body, countClippedFaces, countClippedFaces_body,
          Arr3.get, Arr3.set, clipLine, clipLine_order, clipLine_interp, planeDepth,
          CLIPPED_BY_NEAR, CLIPPED_BY_FAR, NOT_CLIPPED]) 1 1 rfl⟩

/-- The fan loop is the sequence of `addTriangle` calls with the arguments of
its iterations `0 .. numTris - 1`. -/
theorem fan_eq_addTriangles (tri : List (Slot α)) (fm : Bool) (k : Nat) (st : SecondPass α) :
    (insertShapeNode_fan tri fm k st).ls
      = addTriangles st.ls ((List.range k).map (insertShapeNode_fanArgs tri fm k)) := by
  unfold insertShapeNode_fan addTriangles
  rw [List.foldl_map]
  generalize List.range k = l
  induction l generalizing st with
  | nil => rfl
  | cons a l ih =>
    simp only [List.foldl]
    rw [ih]
    rfl

theorem list_range_sum (f : Nat → Nat) (n : Nat) :
    ((List.range n).map f).sum = Finset.sum (Finset.range n) f := by
  induction n with
  | zero => simp
  | succ n ih => rw [List.range_succ, List.map_append, List.sum_append, ih, Finset.sum_range_succ]; simp

theorem count_true_sum (l : List Bool) :
    l.count true = Finset.sum (Finset.range l.length) (fun k => if l.getD k false then 1 else 0) := by
  induction l with
  | nil => simp
  | cons a l ih =>
    rw [List.length_cons, Finset.sum_range_succ', List.count_cons, ih]
    simp

/-- The marks of a fan of `n > 0` triangles over a polygon with marks
`e 0 .. e (n + 1)`: every mark is counted once. -/
theorem fan_mark_sum (e : Nat → Bool) (n : Nat) (h : 0 < n) :
    Finset.sum (Finset.range n) (fun i =>
        (if (if i = 0 then e 0 else false) then 1 else 0) + (if e (i + 1) then 1 else 0)
          + (if (if i = n - 1 then e (i + 2) else false) then 1 else 0))
      = Finset.sum (Finset.range (n + 2)) (fun k => if e k then 1 else 0) := by
  obtain ⟨m, rfl⟩ : ∃ m, n = m + 1 := ⟨n - 1, by omega⟩
  rw [Finset.sum_add_distrib, Finset.sum_add_distrib]
  have h1 : Finset.sum (Finset.range (m + 1))
      (fun i => if (if i = 0 then e 0 else false) then 1 else 0) = if e 0 then 1 else 0 := by
    rw [Finset.sum_eq_single 0]
    · simp
    · intro b _ hb; simp [hb]
    · intro h0; exact absurd (Finset.mem_range.mpr (Nat.succ_pos m)) h0
  have h3 : Finset.sum (Finset.range (m + 1))
      (fun i => if (if i = m + 1 - 1 then e (i + 2) else false) then 1 else 0)
        = if e (m + 2) then 1 else 0 := by
    rw [Finset.sum_eq_single m]
    · simp
    · intro b _ hb; simp [hb]
    · intro h0; exact absurd (Finset.mem_range.mpr (Nat.lt_succ_self m)) h0
  have hR : Finset.sum (Finset.range (m + 1 + 2)) (fun k => if e k then 1 else 0)
      = Finset.sum (Finset.range (m + 1)) (fun i => if e (i + 1) then 1 else 0)
        + (if e (m + 2) then 1 else 0) + (if e 0 then 1 else 0) := by
    rw [show m + 1 + 2 = (m + 2) + 1 from rfl, Finset.sum_range_succ' _ (m + 2),
      Finset.sum_range_succ _ (m + 1)]
  rw [h1, h3, hR]
  ring

/-- C23: the fan loop over a polygon of `numTris + 2` slots, `numTris > 0`,
emits for `i = 0 .. numTris - 1` the triangle of slots `0`, `i + 1`, `i + 2` with
the edge marks `(e[0] if i = 0 else false, e[i + 1], e[i + 2] if i = numTris - 1
else false)`; the first mark of every triangle but the first and the third mark
of every triangle but the last (the fan diagonals) are false, and the number
of edge marks set over the emitted triangles is the number of true entries of
`e`. -/
theorem insertShapeNode_fan_marks (tri : List (Slot α)) (fm : Bool) (numTris : Nat)
    (st : SecondPass α) (h0 : 0 < numTris) (hlen : tri.length = numTris + 2) :
    (insertShapeNode_fan tri fm numTris st).ls.vertices
        = st.ls.vertices ++ ((List.range numTris).map (fun i =>
            [(slotAt tri 0).co, (slotAt tri (i + 1)).co, (slotAt tri (i + 2)).co])).flatten
      ∧ (insertShapeNode_fan tri fm numTris st).ls.faceEdgeMarks
        = st.ls.faceEdgeMarks ++ (List.range numTris).map (fun i =>
            ⟨fm, if i = 0 then (slotAt tri 0).em else false, (slotAt tri (i + 1)).em,
              if i = numTris - 1 then (slotAt tri (i + 2)).em else false⟩)
      ∧ (∀ (i : Nat) (m : FaceEdgeMark),
          ((insertShapeNode_fan tri fm numTris st).ls.faceEdgeMarks.drop
              st.ls.faceEdgeMarks.length)[i]? = some m →
            (0 < i → m.v1v2 = false) ∧ (i + 1 < numTris → m.v3v1 = false))
      ∧ (((insertShapeNode_fan tri fm numTris st).ls.faceEdgeMarks.drop
            st.ls.faceEdgeMarks.length).map FaceEdgeMark.edgeMarks).sum
          = (tri.map (fun s => s.em)).count true := by
  obtain ⟨_, hv, _, _, _, hm⟩ :=
    addTriangles_general ((List.range numTris).map (insertShapeNode_fanArgs tri fm numTris)) st.ls
  rw [← fan_eq_addTriangles] at hv hm
  simp only [List.map_map] at hv hm
  have hm2 : (insertShapeNode_fan tri fm numTris st).ls.faceEdgeMarks
      = st.ls.faceEdgeMarks ++ (List.range numTris).map (fun i =>
          (⟨fm, if i = 0 then (slotAt tri 0).em else false, (slotAt tri (i + 1)).em,
            if i = numTris - 1 then (slotAt tri (i + 2)).em else false⟩ : FaceEdgeMark)) := hm
  refine ⟨hv, hm2, ?_, ?_⟩
  · intro i m hi
    rw [hm2, List.drop_left] at hi
    rw [List.getElem?_map] at hi
    cases hr : (List.range numTris)[i]? with
    | none => rw [hr] at hi; simp at hi
    | some j =>
      rw [hr] at hi
      obtain ⟨hlt, hje⟩ : i < numTris ∧ j = i := by
        rw [List.getElem?_eq_some_iff] at hr
        obtain ⟨hlt, he⟩ := hr
        simp at hlt he
        exact ⟨hlt, he.symm⟩
      subst hje
      simp only [Option.map_some', Option.some.injEq] at hi
      subst hi
      refine ⟨fun hpos => ?_, fun hlast => ?_⟩
      · simp [Nat.ne_of_gt hpos]
      · have : j ≠ numTris - 1 := by omega
        simp [this]
  · rw [hm2, List.drop_left, List.map_map, list_range_sum, count_true_sum, List.length_map, hlen]
    have key := fan_mark_sum (fun k => (slotAt tri k).em) numTris h0
    have hget : ∀ k, (tri.map (fun s => s.em)).getD k false = (slotAt tri k).em := by
      intro k
      unfold slotAt
      simp only [List.getD_eq_getElem?_getD, List.getElem?_map]
      cases tri[k]? <;> rfl
    simp only [hget]
    rw [← key]
    rfl

theorem insertShapeNode_fan_marks_witness :
    (((insertShapeNode_fan
          ([⟨⟨0, 0, -1⟩, ⟨0, 0, 1⟩, true, .cut 2 (-1)⟩, ⟨⟨1, 0, -1⟩, ⟨0, 0, 1⟩, false, .cut 0 (-1)⟩,
            ⟨⟨1, 0, -2⟩, ⟨0, 0, 1⟩, true, .vertex 1⟩, ⟨⟨0, 1, -2⟩, ⟨0, 0, 1⟩, true, .vertex 2⟩] :
            List (Slot ℚ)) false 2 ⟨initialLoaderState, [], 0⟩).ls.faceEdgeMarks.drop
        (⟨initialLoaderState, [], 0⟩ : SecondPass ℚ).ls.faceEdgeMarks.length).map
          FaceEdgeMark.edgeMarks).sum
      = (([⟨⟨0, 0, -1⟩, ⟨0, 0, 1⟩, true, .cut 2 (-1)⟩, ⟨⟨1, 0, -1⟩, ⟨0, 0, 1⟩, false, .cut 0 (-1)⟩,
            ⟨⟨1, 0, -2⟩, ⟨0, 0, 1⟩, true, .vertex 1⟩, ⟨⟨0, 1, -2⟩, ⟨0, 0, 1⟩, true, .vertex 2⟩] :
            List (Slot ℚ)).map (fun s => s.em)).count true :=
  (insertShapeNode_fan_marks
    ([⟨⟨0, 0, -1⟩, ⟨0, 0, 1⟩, true, .cut 2 (-1)⟩, ⟨⟨1, 0, -1⟩, ⟨0, 0, 1⟩, false, .cut 0 (-1)⟩,
      ⟨⟨1, 0, -2⟩, ⟨0, 0, 1⟩, true, .vertex 1⟩, ⟨⟨0, 1, -2⟩, ⟨0, 0, 1⟩, true, .vertex 2⟩] :
      List (Slot ℚ)) false 2 ⟨initialLoaderState, [], 0⟩ (by decide) rfl).2.2.2

/-- Running the repairs of a list of records leaves a vertex that is the apex
of none of them where it was. -/
theorem repair_fold_other (sqrt : α → α) (k : Nat) (l : List (detri_t α)) :
    ∀ cur : Nat → Vec3 α, (∀ d ∈ l, d.viP ≠ k) →
      l.foldl (detri_apply sqrt) cur k = cur k := by
  induction l with
  | nil => intro cur _; rfl
  | cons d l ih =>
    intro cur h
    simp only [List.foldl]
    rw [ih _ (fun e he => h e (List.mem_cons_of_mem d he))]
    exact detri_apply_other sqrt cur d k (fun e => h d (List.mem_cons_self d l) e.symm)

/-- The apex of a record of `detriList` is the apex that the test of lines
704-730 chose in a triangle of the index stream. -/
theorem detriList_apex (sqrt : α → α) (cv : Nat → Vec3 α) (tris : List (Arr3 Nat))
    (d : detri_t α) (hd : d ∈ detriList sqrt cv tris) :
    ∃ t ∈ tris, ∃ d0 : detri_t α, detri_find sqrt cv t = some d0 ∧ d.viP = d0.viP := by
  obtain ⟨i, t, d0, ht, hf, rfl⟩ := (detriList_mem sqrt cv tris d).mp hd
  have hmem : t ∈ tris := by
    obtain ⟨h, rfl⟩ := List.getElem?_eq_some_iff.mp ht
    exact List.getElem_mem ..
  refine ⟨t, hmem, d0, hf, ?_⟩
  rw [(detri_normalize_indices sqrt _).1, (detri_scan_spec cv tris i d0).1]

/-- C24: the `IndexedFaceSet` gets the index stream of the cleaning pass as it
is, with as many entries as `addTriangle` wrote, and the vertex array that the
repair returns; the repair changes no vertex that is not the apex of a
recorded triangle (of a triangle of the stream that the test of lines 704-730
selects), and changes nothing when the test selects no triangle. -/
theorem insertShapeNode_repair_frame (sqrt : α → α) (st : SecondPass α)
    (cleanVertices : Nat → Vec3 α) (cleanVIndices : List (Arr3 Nat)) :
    (insertShapeNode_rep sqrt st).VIndices
        = (CleanIndexedVertexArray st.ls.vertices st.ls.VIndices).2
      ∧ (insertShapeNode_rep sqrt st).VIndices.length = st.ls.VIndices.length
      ∧ (insertShapeNode_rep sqrt st).Vertices
          = insertShapeNode_repair sqrt
              (vertexArray (CleanIndexedVertexArray st.ls.vertices st.ls.VIndices).1)
              (indexTriples (CleanIndexedVertexArray st.ls.vertices st.ls.VIndices).2)
      ∧ (∀ k : Nat, (∀ d ∈ detriList sqrt cleanVertices cleanVIndices, d.viP ≠ k) →
          insertShapeNode_repair sqrt cleanVertices cleanVIndices k = cleanVertices k)
      ∧ (∀ k : Nat,
          (∀ t ∈ cleanVIndices, ∀ d : detri_t α,
            detri_find sqrt cleanVertices t = some d → d.viP ≠ k) →
          insertShapeNode_repair sqrt cleanVertices cleanVIndices k = cleanVertices k)
      ∧ ((∀ t ∈ cleanVIndices, detri_find sqrt cleanVertices t = none) →
          insertShapeNode_repair sqrt cleanVertices cleanVIndices = cleanVertices) := by
  have hframe : ∀ k : Nat, (∀ d ∈ detriList sqrt cleanVertices cleanVIndices, d.viP ≠ k) →
      insertShapeNode_repair sqrt cleanVertices cleanVIndices k = cleanVertices k :=
    fun k h => repair_fold_other sqrt k _ cleanVertices h
  refine ⟨rfl, ?_, rfl, hframe, ?_, ?_⟩
  · simp [insertShapeNode_rep, CleanIndexedVertexArray]
  · intro k h
    apply hframe
    intro d hd
    obtain ⟨t, ht, d0, hf, he⟩ := detriList_apex sqrt cleanVertices cleanVIndices d hd
    rw [he]
    exact h t ht d0 hf
  · intro h
    funext k
    apply hframe
    intro d hd
    obtain ⟨t, ht, d0, hf, _⟩ := detriList_apex sqrt cleanVertices cleanVIndices d hd
    rw [h t ht] at hf
    exact absurd hf (by simp)

/-- The `switch` of `countClippedFaces` yields 0 exactly for three codes that
are all `CLIPPED_BY_NEAR` or all `CLIPPED_BY_FAR`. -/
theorem switch_zero (L : BlenderFileLoader α) (z1 z2 z3 : α) :
    countClippedFaces_switch (numClippedOf ⟨clipCode L z1, clipCode L z2, clipCode L z3⟩)
        (sumOf ⟨clipCode L z1, clipCode L z2, clipCode L z3⟩) = 0
      ↔ (clipCode L z1 = -1 ∧ clipCode L z2 = -1 ∧ clipCode L z3 = -1)
        ∨ (clipCode L z1 = 1 ∧ clipCode L z2 = 1 ∧ clipCode L z3 = 1) := by
  rcases clipCode_cases L z1 with ⟨_, h1⟩ | ⟨_, _, h1⟩ | ⟨_, _, h1⟩ <;>
  rcases clipCode_cases L z2 with ⟨_, h2⟩ | ⟨_, _, h2⟩ | ⟨_, _, h2⟩ <;>
  rcases clipCode_cases L z3 with ⟨_, h3⟩ | ⟨_, _, h3⟩ | ⟨_, _, h3⟩ <;>
  rw [h1, h2, h3] <;> decide

/-- A face adds no triangle to the count of the first loop exactly when it is
skipped for its material or all its vertices are clipped by one plane. -/
theorem faceTriangles_eq_zero (L : BlenderFileLoader α) (B : Blenlib α)
    (obi : ObjectInstanceRen α) (vlr : VlakRen α) :
    faceTriangles L B obi vlr = 0
      ↔ vlr.mat.onlycast = true ∨ vlr.mat.wire = true ∨ FullyClipped L obi vlr := by
  unfold faceTriangles insertShapeNode_count FullyClipped faceDepths CLIPPED_BY_NEAR CLIPPED_BY_FAR
  cases ho : vlr.mat.onlycast
  swap
  · simp
  cases hw : vlr.mat.wire
  swap
  · simp
  simp only [Bool.false_eq_true, if_false, false_or]
  cases vlr.v4 with
  | none =>
    simp only [Nat.zero_add, countClippedFaces_numTris]
    rw [switch_zero]
    simp
  | some w4 =>
    simp only []
    cases testEdgeRotation B (cameraCo L obi vlr.v1.co) (cameraCo L obi vlr.v2.co)
      (cameraCo L obi vlr.v3.co) (cameraCo L obi w4.co)
    · simp only [Bool.not_false, if_true, Nat.zero_add, Nat.add_eq_zero, countClippedFaces_numTris]
      rw [switch_zero, switch_zero]
      simp only [List.mem_cons, List.mem_singleton, List.not_mem_nil, or_false, forall_eq_or_imp,
        forall_eq]
      constructor
      · rintro ⟨a | a, b | b⟩
        · exact Or.inl ⟨a.1, a.2.1, a.2.2, b.2.2⟩
        · exact absurd (a.1.symm.trans b.1) (by decide : ¬ ((-1 : Int) = 1))
        · exact absurd (a.1.symm.trans b.1) (by decide : ¬ ((1 : Int) = -1))
        · exact Or.inr ⟨a.1, a.2.1, a.2.2, b.2.2⟩
      · rintro (⟨a, b, c, d⟩ | ⟨a, b, c, d⟩)
        · exact ⟨Or.inl ⟨a, b, c⟩, Or.inl ⟨a, c, d⟩⟩
        · exact ⟨Or.inr ⟨a, b, c⟩, Or.inr ⟨a, c, d⟩⟩
    · simp only [Bool.not_true, Bool.false_eq_true, if_false, Nat.zero_add, Nat.add_eq_zero,
        countClippedFaces_numTris]
      rw [switch_zero, switch_zero]
      simp only [List.mem_cons, List.mem_singleton, List.not_mem_nil, or_false, forall_eq_or_imp,
        forall_eq]
      constructor
      · rintro ⟨a | a, b | b⟩
        · exact Or.inl ⟨a.1, a.2.1, b.2.1, b.2.2⟩
        · exact absurd (a.2.1.symm.trans b.1) (by decide : ¬ ((-1 : Int) = 1))
        · exact absurd (a.2.1.symm.trans b.1) (by decide : ¬ ((1 : Int) = -1))
        · exact Or.inr ⟨a.1, a.2.1, b.2.1, b.2.2⟩
      · rintro (⟨a, b, c, d⟩ | ⟨a, b, c, d⟩)
        · exact ⟨Or.inl ⟨a, b, d⟩, Or.inl ⟨b, c, d⟩⟩
        · exact ⟨Or.inr ⟨a, b, d⟩, Or.inr ⟨b, c, d⟩⟩

/-- The count of the first loop stays where it is over faces that add nothing. -/
theorem firstPass_fold_zero (L : BlenderFileLoader α) (B : Blenlib α)
    (obi : ObjectInstanceRen α) (l : List (VlakRen α)) :
    ∀ st : FirstPass, (∀ vlr ∈ l, faceTriangles L B obi vlr = 0) →
      (l.foldl (insertShapeNode_count L B obi) st).numFaces = st.numFaces := by
  induction l with
  | nil => intro st _; rfl
  | cons f l ih =>
    intro st h
    simp only [List.foldl]
    rw [ih _ (fun v hv => h v (List.mem_cons_of_mem f hv)), insertShapeNode_count_numFaces]
    have := h f (List.mem_cons_self f l)
    unfold faceTriangles at this
    rw [this, Nat.add_zero]

/-- The second loop makes as many `addTriangle` calls as the first loop counts. -/
theorem secondPass_emitted (L : BlenderFileLoader α) (B : Blenlib α)
    (obi : ObjectInstanceRen α) (r : Nat) :
    Emitted (insertShapeNode_secondPass L B obi r) r (insertShapeNode_firstPass L B obi).numFaces := by
  have key : ∀ (l : List (VlakRen α)) (st : SecondPass α) (fp : FirstPass),
      Emitted st r fp.numFaces →
      Emitted (l.foldl (insertShapeNode_emit L B obi) st) r
        (l.foldl (insertShapeNode_count L B obi) fp).numFaces := by
    intro l
    induction l with
    | nil => intro st fp h; simpa using h
    | cons vlr l ih =>
      intro st fp h
      simp only [List.foldl]
      apply ih
      rw [insertShapeNode_count_numFaces]
      exact emitted_emit L B obi st vlr r fp.numFaces h
  have h0 : Emitted (⟨initialLoaderState, [], r⟩ : SecondPass α) r (FirstPass.mk 0 false).numFaces := by
    simp [Emitted, initialLoaderState]
  exact key obi.vlak _ _ h0

/-- When the first loop counts a triangle, `insertShapeNode` runs the second
loop and adds one child to `_Scene`. -/
theorem insertShapeNode_adds_node (sqrt : α → α) (L : BlenderFileLoader α) (B : Blenlib α)
    (obi : ObjectInstanceRen α) (s : LoaderRun α)
    (h : (insertShapeNode_firstPass L B obi).numFaces ≠ 0) :
    (insertShapeNode sqrt L B obi s)._Scene.length = s._Scene.length + 1
      ∧ (insertShapeNode sqrt L B obi s)._numFacesRead
          = s._numFacesRead + (insertShapeNode_firstPass L B obi).numFaces := by
  unfold insertShapeNode
  rw [if_neg h]
  exact ⟨by simp, (secondPass_emitted L B obi s._numFacesRead).1⟩

/-- C21: when every face of a mesh instance is skipped for its material
(`MA_ONLYCAST` or wire) or has all its vertices clipped by one plane, the first
loop counts `numFaces = 0` and `insertShapeNode` returns with the loader as it
was: `_Scene` has no new child, and `_numFacesRead`, which counts the calls of
`addTriangle`, has not moved. -/
theorem insertShapeNode_no_output (sqrt : α → α) (L : BlenderFileLoader α) (B : Blenlib α)
    (obi : ObjectInstanceRen α) (s : LoaderRun α)
    (h : ∀ vlr ∈ obi.vlak,
      vlr.mat.onlycast = true ∨ vlr.mat.wire = true ∨ FullyClipped L obi vlr) :
    (insertShapeNode_firstPass L B obi).numFaces = 0
      ∧ insertShapeNode sqrt L B obi s = s := by
  have h0 : (insertShapeNode_firstPass L B obi).numFaces = 0 :=
    firstPass_fold_zero L B obi obi.vlak ⟨0, false⟩
      (fun vlr hv => (faceTriangles_eq_zero L B obi vlr).mpr (h vlr hv))
  refine ⟨h0, ?_⟩
  unfold insertShapeNode
  rw [if_pos h0]

theorem insertShapeNode_no_output_witness :
    insertShapeNode Real.sqrt (⟨-1, -10, 0, false⟩ : BlenderFileLoader ℝ)
        ⟨fun a b => decide (a = b), distSqPointSegment, Vec3.normalizeSafe Real.sqrt⟩
        ⟨false, fun v => v, fun v => v,
          [⟨⟨⟨0, 0, -2⟩, ⟨0, 0, 1⟩⟩, ⟨⟨1, 0, -2⟩, ⟨0, 0, 1⟩⟩, ⟨⟨0, 1, -2⟩, ⟨0, 0, 1⟩⟩, none,
              ⟨1, false, true⟩, false, false, true, false, false, false, false, ⟨0, 0, 1⟩⟩,
            ⟨⟨⟨0, 0, -12⟩, ⟨0, 0, 1⟩⟩, ⟨⟨1, 0, -12⟩, ⟨0, 0, 1⟩⟩, ⟨⟨1, 1, -13⟩, ⟨0, 0, 1⟩⟩,
              some ⟨⟨0, 1, -12⟩, ⟨0, 0, 1⟩⟩,
              ⟨2, false, false⟩, false, true, true, false, false, false, true, ⟨0, 0, 1⟩⟩]⟩
        ⟨[], 7⟩
      = ⟨[], 7⟩ :=
  (insertShapeNode_no_output Real.sqrt (⟨-1, -10, 0, false⟩ : BlenderFileLoader ℝ)
    ⟨fun a b => decide (a = b), distSqPointSegment, Vec3.normalizeSafe Real.sqrt⟩
    ⟨false, fun v => v, fun v => v,
      [⟨⟨⟨0, 0, -2⟩, ⟨0, 0, 1⟩⟩, ⟨⟨1, 0, -2⟩, ⟨0, 0, 1⟩⟩, ⟨⟨0, 1, -2⟩, ⟨0, 0, 1⟩⟩, none,
          ⟨1, false, true⟩, false, false, true, false, false, false, false, ⟨0, 0, 1⟩⟩,
        ⟨⟨⟨0, 0, -12⟩, ⟨0, 0, 1⟩⟩, ⟨⟨1, 0, -12⟩, ⟨0, 0, 1⟩⟩, ⟨⟨1, 1, -13⟩, ⟨0, 0, 1⟩⟩,
          some ⟨⟨0, 1, -12⟩, ⟨0, 0, 1⟩⟩,
          ⟨2, false, false⟩, false, true, true, false, false, false, true, ⟨0, 0, 1⟩⟩]⟩
    ⟨[], 7⟩ (by
      intro vlr hv
      simp only [List.mem_cons, List.mem_singleton, List.not_mem_nil, or_false] at hv
      rcases hv with rfl | rfl
      · exact Or.inr (Or.inl rfl)
      · refine Or.inr (Or.inr (Or.inr ?_))
        norm_num [faceDepths, cameraCo, clipCode, CLIPPED_BY_FAR, CLIPPED_BY_NEAR,
          NOT_CLIPPED])).2

/-- C22, amended: with the classification of `countClippedFaces`, every edge of
the output polygon of `clipTriangle` (from a slot to the next, the last slot
back to the first) either joins two slots on one original edge `i` (end
vertices of that edge or points computed by `clipLine` on it), and then its
mark is `em[i]`, also when the edge lies in a clip plane; or joins two points
computed by `clipLine` at the same clip plane, and then its mark is false. -/
theorem clipTriangle_edge_marks (L : BlenderFileLoader α) (v1 v2 v3 n1 n2 n3 : Vec3 α)
    (em1 em2 em3 : Bool) :
    ∀ e ∈ outputEdges
        (clipTriangle L v1 v2 v3 n1 n2 n3 em1 em2 em3 (countClippedFaces L v1 v2 v3).2),
      (∀ i : Nat, i < 3 → e.1.origin.onEdge i → e.2.origin.onEdge i →
          e.1.em = (Arr3.mk em1 em2 em3).get i)
        ∧ (e.1.origin.samePlane e.2.origin → e.1.em = false)
        ∧ ((∃ i : Nat, i < 3 ∧ e.1.origin.onEdge i ∧ e.2.origin.onEdge i)
            ∨ e.1.origin.samePlane e.2.origin) := by
  rw [countClippedFaces_clip]
  rcases clipCode_cases L v1.z with ⟨_, h1⟩ | ⟨_, _, h1⟩ | ⟨_, _, h1⟩ <;>
  rcases clipCode_cases L v2.z with ⟨_, h2⟩ | ⟨_, _, h2⟩ | ⟨_, _, h2⟩ <;>
  rcases clipCode_cases L v3.z with ⟨_, h3⟩ | ⟨_, _, h3⟩ | ⟨_, _, h3⟩ <;>
  rw [h1, h2, h3] <;>
  simp only [clipTriangle, clipTriangle_body, outputEdges, List.foldl, Arr3.get, NOT_CLIPPED,
    Int.reduceNeg, Int.reduceEq, if_true, if_false, ne_eq, not_true_eq_false, not_false_eq_true,
    List.nil_append, List.cons_append, List.rotate_cons_succ, List.rotate_zero, List.zip_cons_cons,
    List.zip_nil_right, List.mem_cons, List.mem_singleton, List.not_mem_nil, or_false,
    forall_eq_or_imp, forall_eq, false_implies, implies_true, Nat.reduceAdd, Nat.reduceMod,
    neg_eq_zero, one_ne_zero, OfNat.ofNat_ne_zero, Origin.onEdge, Origin.samePlane] <;>
  (repeat' apply And.intro) <;>
  first
    | trivial
    | decide
    | (intro i hi; interval_cases i <;> simp)
    | simp

theorem clipTriangle_edge_marks_witness :
    (((⟨⟨1 / 2, 0, -1⟩, ⟨0, 0, 1⟩, false, .cut 2 (-1)⟩,
          ⟨⟨0, 0, -1⟩, ⟨0, 0, 1⟩, true, .cut 0 (-1)⟩) : Slot ℚ × Slot ℚ)
        ∈ outputEdges
            (clipTriangle (⟨-1, -10, 0, false⟩ : BlenderFileLoader ℚ) ⟨0, 0, 0⟩ ⟨0, 0, -2⟩
              ⟨1, 0, -2⟩ ⟨0, 0, 1⟩ ⟨0, 0, 1⟩ ⟨0, 0, 1⟩ true false true
              (countClippedFaces (⟨-1, -10, 0, false⟩ : BlenderFileLoader ℚ)
                ⟨0, 0, 0⟩ ⟨0, 0, -2⟩ ⟨1, 0, -2⟩).2))
      ∧ ((Origin.cut 2 (-1)).samePlane (Origin.cut 0 (-1)) →
          (⟨⟨1 / 2, 0, -1⟩, ⟨0, 0, 1⟩, false, .cut 2 (-1)⟩ : Slot ℚ).em = false) :=
  ⟨by
      norm_num [outputEdges, clipTriangle, clipTriangle_body, countClippedFaces,
        countClippedFaces_body, Arr3.get, Arr3.set, clipLine, clipLine_order, clipLine_interp,
        planeDepth, CLIPPED_BY_NEAR, CLIPPED_BY_FAR, NOT_CLIPPED, List.rotate_cons_succ,
        List.rotate_zero],
    (clipTriangle_edge_marks (⟨-1, -10, 0, false⟩ : BlenderFileLoader ℚ)
      ⟨0, 0, 0⟩ ⟨0, 0, -2⟩ ⟨1, 0, -2⟩ ⟨0, 0, 1⟩ ⟨0, 0, 1⟩ ⟨0, 0, 1⟩ true false true
      (⟨⟨1 / 2, 0, -1⟩, ⟨0, 0, 1⟩, false, .cut 2 (-1)⟩, ⟨⟨0, 0, -1⟩, ⟨0, 0, 1⟩, true, .cut 0 (-1)⟩)
      (by
        norm_num [outputEdges, clipTriangle, clipTriangle_body, countClippedFaces,
          countClippedFaces_body, Arr3.get, Arr3.set, clipLine, clipLine_order, clipLine_interp,
          planeDepth, CLIPPED_BY_NEAR, CLIPPED_BY_FAR, NOT_CLIPPED, List.rotate_cons_succ,
        List.rotate_zero])).2.1⟩

/-- C1: `countClippedFaces` returns the value of the specification's table at
`k` = number of vertices whose Z is greater than `_z_near` or less than `_z_far`
and `s` = sum of the classification codes of the three depths (with the codes
of the source, and also with the opposite signs, as the specification numbers
them); `k` and `s` are the count and the sum of the array the function fills;
the table has a row for every case that occurs, and the returned value is one
of 0, 1, 2, 3. -/
theorem countClippedFaces_table (L : BlenderFileLoader α) (v1 v2 v3 : Vec3 α) :
    specTable (numClippedVertices L v1 v2 v3) (codeSum L v1 v2 v3)
        = some (countClippedFaces L v1 v2 v3).1
      ∧ specTable (numClippedVertices L v1 v2 v3) (-codeSum L v1 v2 v3)
        = some (countClippedFaces L v1 v2 v3).1
      ∧ numClippedOf (countClippedFaces L v1 v2 v3).2 = numClippedVertices L v1 v2 v3
      ∧ sumOf (countClippedFaces L v1 v2 v3).2 = codeSum L v1 v2 v3
      ∧ (countClippedFaces L v1 v2 v3).1 ∈ [0, 1, 2, 3] := by
  rw [countClippedFaces_clip, countClippedFaces_numTris]
  unfold numClippedVertices codeSum clipCode
  by_cases a1 : v1.z > L._z_near <;> by_cases b1 : v1.z < L._z_far <;>
  by_cases a2 : v2.z > L._z_near <;> by_cases b2 : v2.z < L._z_far <;>
  by_cases a3 : v3.z > L._z_near <;> by_cases b3 : v3.z < L._z_far <;>
  simp only [a1, b1, a2, b2, a3, b3, List.filter, List.map, List.sum_cons, List.sum_nil,
    List.length_cons, List.length_nil, or_self, or_true, true_or, or_false, false_or,
    decide_True, decide_False, if_true, if_false] <;>
  decide

/-- C22 as stated fails: the triangle has `v1` and `v2` on the near plane
(`Z = _z_near`, which is `NOT_CLIPPED`) and `em1` set; the output edge from slot
0 to slot 1 joins two points of the near plane and is marked. -/
theorem clipTriangle_edge_in_plane_marked :
    ¬ ∀ e ∈ outputEdges
        (clipTriangle (⟨-1, -10, 0, false⟩ : BlenderFileLoader ℚ) ⟨0, 0, -1⟩ ⟨1, 0, -1⟩
          ⟨0, 1, -2⟩ ⟨0, 0, 1⟩ ⟨0, 0, 1⟩ ⟨0, 0, 1⟩ true false false
          (countClippedFaces (⟨-1, -10, 0, false⟩ : BlenderFileLoader ℚ)
            ⟨0, 0, -1⟩ ⟨1, 0, -1⟩ ⟨0, 1, -2⟩).2),
      (e.1.co.z = (⟨-1, -10, 0, false⟩ : BlenderFileLoader ℚ)._z_near
          ∧ e.2.co.z = (⟨-1, -10, 0, false⟩ : BlenderFileLoader ℚ)._z_near)
        ∨ (e.1.co.z = (⟨-1, -10, 0, false⟩ : BlenderFileLoader ℚ)._z_far
          ∧ e.2.co.z = (⟨-1, -10, 0, false⟩ : BlenderFileLoader ℚ)._z_far) →
      e.1.em = false := by
  intro h
  have h1 := h (⟨⟨0, 0, -1⟩, ⟨0, 0, 1⟩, true, .vertex 0⟩, ⟨⟨1, 0, -1⟩, ⟨0, 0, 1⟩, false, .vertex 1⟩)
    (by decide) (Or.inl ⟨rfl, rfl⟩)
  exact absurd h1 (by decide)

theorem unsigned_of_lt (n : Nat) (h : n < 2 ^ 32) : unsigned n = n :=
  Nat.mod_eq_of_lt (by omega)

theorem unsigned_add (a b : Nat) : unsigned (unsigned a + b) = unsigned (a + b) := by
  unfold unsigned
  rw [Nat.add_mod, Nat.mod_mod, ← Nat.add_mod]

/-- One iteration with the 32-bit cursor is the iteration with the unbounded
cursor, as long as the cursor stays below `2^32`. -/
theorem addTriangle_body_unsigned_eq (fv fn : Arr3 (Vec3 α)) (ls : LoaderState α) (i : Nat)
    (h : ls.currentIndex + 3 < 2 ^ 32) :
    addTriangle_body_unsigned fv fn ls i = addTriangle_body fv fn ls i := by
  unfold addTriangle_body_unsigned
  rw [unsigned_of_lt _ h]
  rfl

theorem addTriangle_body_cursor (fv fn : Arr3 (Vec3 α)) (ls : LoaderState α) (i : Nat) :
    (addTriangle_body fv fn ls i).currentIndex = ls.currentIndex + 3 := rfl

theorem addTriangle_body_unsigned_cursor (fv fn : Arr3 (Vec3 α)) (ls : LoaderState α) (i : Nat) :
    (addTriangle_body_unsigned fv fn ls i).currentIndex = unsigned (ls.currentIndex + 3) := rfl

/-- One call with the 32-bit cursor is the call with the unbounded cursor, as
long as the cursor stays below `2^32`. -/
theorem addTriangle_unsigned_eq (ls : LoaderState α) (v1 v2 v3 n1 n2 n3 : Vec3 α)
    (fm em1 em2 em3 : Bool) (h : ls.currentIndex + 9 < 2 ^ 32) :
    addTriangle_unsigned ls v1 v2 v3 n1 n2 n3 fm em1 em2 em3
      = addTriangle ls v1 v2 v3 n1 n2 n3 fm em1 em2 em3 := by
  unfold addTriangle_unsigned addTriangle
  simp only [List.foldl]
  have hc : (if ls.currentIndex = 0 then { ls with minBBox := v1, maxBBox := v1 } else ls).currentIndex
      = ls.currentIndex := by
    split_ifs <;> rfl
  rw [addTriangle_body_unsigned_eq _ _ _ 0 (by rw [hc]; omega)]
  rw [addTriangle_body_unsigned_eq _ _ _ 1 (by rw [addTriangle_body_cursor, hc]; omega)]
  rw [addTriangle_body_unsigned_eq _ _ _ 2
    (by rw [addTriangle_body_cursor, addTriangle_body_cursor, hc]; omega)]

/-- The cursor after one call with the 32-bit cursor. -/
theorem addTriangle_unsigned_cursor (ls : LoaderState α) (v1 v2 v3 n1 n2 n3 : Vec3 α)
    (fm em1 em2 em3 : Bool) :
    (addTriangle_unsigned ls v1 v2 v3 n1 n2 n3 fm em1 em2 em3).currentIndex
      = unsigned (ls.currentIndex + 9) := by
  unfold addTriangle_unsigned
  simp only [List.foldl]
  have hc : (if ls.currentIndex = 0 then { ls with minBBox := v1, maxBBox := v1 } else ls).currentIndex
      = ls.currentIndex := by
    split_ifs <;> rfl
  show (addTriangle_body_unsigned _ _ _ 2).currentIndex = _
  rw [addTriangle_body_unsigned_cursor, addTriangle_body_unsigned_cursor,
    addTriangle_body_unsigned_cursor, hc, unsigned_add, Nat.add_assoc, unsigned_add]

/-- A sequence of calls with the 32-bit cursor is the sequence with the
unbounded cursor, as long as the cursor stays below `2^32`. -/
theorem addTriangles_unsigned_eq (calls : List (TriangleArgs α)) :
    ∀ ls : LoaderState α, ls.currentIndex + 9 * calls.length < 2 ^ 32 →
      addTriangles_unsigned ls calls = addTriangles ls calls := by
  induction calls with
  | nil => intro ls _; rfl
  | cons c calls ih =>
    intro ls h
    simp only [List.length_cons] at h
    have hc : addTriangle_unsigned ls c.v1 c.v2 c.v3 c.n1 c.n2 c.n3 c.fm c.em1 c.em2 c.em3
        = addTriangle ls c.v1 c.v2 c.v3 c.n1 c.n2 c.n3 c.fm c.em1 c.em2 c.em3 :=
      addTriangle_unsigned_eq ls _ _ _ _ _ _ _ _ _ _ (by omega)
    have hi := (addTriangle_appends ls c.v1 c.v2 c.v3 c.n1 c.n2 c.n3 c.fm c.em1 c.em2 c.em3).2.2.2.2.2.2.1
    show addTriangles_unsigned
        (addTriangle_unsigned ls c.v1 c.v2 c.v3 c.n1 c.n2 c.n3 c.fm c.em1 c.em2 c.em3) calls
      = addTriangles
        (addTriangle ls c.v1 c.v2 c.v3 c.n1 c.n2 c.n3 c.fm c.em1 c.em2 c.em3) calls
    rw [hc]
    exact ih _ (by rw [hi]; omega)

/-- The 32-bit cursor after a sequence of calls. -/
theorem addTriangles_unsigned_cursor (calls : List (TriangleArgs α)) :
    ∀ ls : LoaderState α, ls.currentIndex < 2 ^ 32 →
      (addTriangles_unsigned ls calls).currentIndex
        = unsigned (ls.currentIndex + 9 * calls.length) := by
  induction calls with
  | nil => intro ls h; exact (unsigned_of_lt _ (by simpa using h)).symm
  | cons c calls ih =>
    intro ls _
    show (addTriangles_unsigned
        (addTriangle_unsigned ls c.v1 c.v2 c.v3 c.n1 c.n2 c.n3 c.fm c.em1 c.em2 c.em3)
        calls).currentIndex = _
    have hlt : (addTriangle_unsigned ls c.v1 c.v2 c.v3 c.n1 c.n2 c.n3 c.fm c.em1 c.em2
        c.em3).currentIndex < 2 ^ 32 := by
      rw [addTriangle_unsigned_cursor]
      unfold unsigned
      have := Nat.mod_lt (ls.currentIndex + 9) (show 0 < 4294967296 by decide)
      omega
    rw [ih _ hlt, addTriangle_unsigned_cursor, unsigned_add, List.length_cons]
    congr 1
    ring

/-- C20, amended: `n` calls of `addTriangle`, with `9 n < 2^32` so that the
32-bit cursor does not wrap, on a `LoaderState` with `currentIndex = 0` leave
`currentIndex = 9 n`, append the `3 n` vertices and the `3 n` normals of the
calls in call order (equal points are not merged), append the index entries
`0, 3, 6, ...`, the `m`-th being `3 m` for `m < 3 n`, to both the vertex-index
and the normal-index buffer, and write exactly `n` mark entries. -/
theorem addTriangle_unsigned_appends (ls : LoaderState α) (calls : List (TriangleArgs α))
    (h : ls.currentIndex = 0) (hb : 9 * calls.length < 2 ^ 32) :
    (addTriangles_unsigned ls calls).currentIndex = 9 * calls.length
      ∧ (addTriangles_unsigned ls calls).vertices
          = ls.vertices ++ (calls.map (fun c => [c.v1, c.v2, c.v3])).flatten
      ∧ (addTriangles_unsigned ls calls).normals
          = ls.normals ++ (calls.map (fun c => [c.n1, c.n2, c.n3])).flatten
      ∧ (addTriangles_unsigned ls calls).VIndices
          = ls.VIndices ++ (List.range (3 * calls.length)).map (fun m => 3 * m)
      ∧ (addTriangles_unsigned ls calls).NIndices
          = ls.NIndices ++ (List.range (3 * calls.length)).map (fun m => 3 * m)
      ∧ (addTriangles_unsigned ls calls).faceEdgeMarks
          = ls.faceEdgeMarks ++ calls.map (fun c => ⟨c.fm, c.em1, c.em2, c.em3⟩)
      ∧ (addTriangles_unsigned ls calls).faceEdgeMarks.length
          = ls.faceEdgeMarks.length + calls.length := by
  rw [addTriangles_unsigned_eq calls ls (by rw [h]; omega)]
  obtain ⟨b1, b2, b3, b4, b5, b6⟩ := addTriangles_general calls ls
  rw [h] at b1 b4 b5
  refine ⟨by rw [b1]; ring, b2, b3, ?_, ?_, b6, by rw [b6]; simp⟩
  · rw [b4]; simp
  · rw [b5]; simp

theorem addTriangle_unsigned_appends_witness :
    (addTriangles_unsigned (initialLoaderState : LoaderState ℚ)
        [⟨⟨0, 0, -1⟩, ⟨1, 0, -3⟩, ⟨0, 1, -2⟩, ⟨0, 0, 1⟩, ⟨0, 0, 1⟩, ⟨0, 0, 1⟩,
            false, true, false, true⟩,
          ⟨⟨0, 0, -1⟩, ⟨5, -1, -2⟩, ⟨1, 0, -3⟩, ⟨0, 0, 1⟩, ⟨0, 0, 1⟩, ⟨0, 0, 1⟩,
            true, false, false, false⟩]).VIndices
      = (initialLoaderState : LoaderState ℚ).VIndices
          ++ (List.range (3 * ([⟨⟨0, 0, -1⟩, ⟨1, 0, -3⟩, ⟨0, 1, -2⟩, ⟨0, 0, 1⟩, ⟨0, 0, 1⟩,
                ⟨0, 0, 1⟩, false, true, false, true⟩,
              ⟨⟨0, 0, -1⟩, ⟨5, -1, -2⟩, ⟨1, 0, -3⟩, ⟨0, 0, 1⟩, ⟨0, 0, 1⟩, ⟨0, 0, 1⟩,
                true, false, false, false⟩] : List (TriangleArgs ℚ)).length)).map
              (fun m => 3 * m) :=
  (addTriangle_unsigned_appends (initialLoaderState : LoaderState ℚ)
    [⟨⟨0, 0, -1⟩, ⟨1, 0, -3⟩, ⟨0, 1, -2⟩, ⟨0, 0, 1⟩, ⟨0, 0, 1⟩, ⟨0, 0, 1⟩,
        false, true, false, true⟩,
      ⟨⟨0, 0, -1⟩, ⟨5, -1, -2⟩, ⟨1, 0, -3⟩, ⟨0, 0, 1⟩, ⟨0, 0, 1⟩, ⟨0, 0, 1⟩,
        true, false, false, false⟩] rfl (by decide)).2.2.2.1

/-- C20 as stated fails: after 477218589 calls from `currentIndex = 0` the
32-bit cursor has wrapped and holds 5, not `9 n = 4294967301`. -/
theorem addTriangle_cursor_wraps :
    (addTriangles_unsigned (initialLoaderState : LoaderState ℚ)
        (List.replicate 477218589
          ⟨⟨0, 0, -1⟩, ⟨1, 0, -3⟩, ⟨0, 1, -2⟩, ⟨0, 0, 1⟩, ⟨0, 0, 1⟩, ⟨0, 0, 1⟩,
            false, true, false, true⟩)).currentIndex = 5
      ∧ (addTriangles_unsigned (initialLoaderState : LoaderState ℚ)
        (List.replicate 477218589
          ⟨⟨0, 0, -1⟩, ⟨1, 0, -3⟩, ⟨0, 1, -2⟩, ⟨0, 0, 1⟩, ⟨0, 0, 1⟩, ⟨0, 0, 1⟩,
            false, true, false, true⟩)).currentIndex
        ≠ 9 * (List.replicate 477218589
          (⟨⟨0, 0, -1⟩, ⟨1, 0, -3⟩, ⟨0, 1, -2⟩, ⟨0, 0, 1⟩, ⟨0, 0, 1⟩, ⟨0, 0, 1⟩,
            false, true, false, true⟩ : TriangleArgs ℚ)).length := by
  rw [addTriangles_unsigned_cursor _ _ (by decide), List.length_replicate]
  have h5 : unsigned ((initialLoaderState : LoaderState ℚ).currentIndex + 9 * 477218589) = 5 := by
    show (0 + 9 * 477218589) % 4294967296 = 5
    norm_num
  rw [h5]
  exact ⟨rfl, by norm_num⟩

/-- A property of the loader state that every `addTriangle` call and every
change of `currentMIndex` preserves holds after the second loop. -/
theorem secondPass_invariant (P : LoaderState α → Prop)
    (hadd : ∀ (ls : LoaderState α) (v1 v2 v3 n1 n2 n3 : Vec3 α) (fm em1 em2 em3 : Bool),
      P ls → P (addTriangle ls v1 v2 v3 n1 n2 n3 fm em1 em2 em3))
    (hmi : ∀ (ls : LoaderState α) (k : Nat), P ls → P { ls with currentMIndex := k })
    (L : BlenderFileLoader α) (B : Blenlib α) (obi : ObjectInstanceRen α) (r : Nat)
    (h0 : P (initialLoaderState : LoaderState α)) :
    P (insertShapeNode_secondPass L B obi r).ls := by
  have hfan : ∀ (tri : List (Slot α)) (fm : Bool) (k : Nat) (st : SecondPass α),
      P st.ls → P (insertShapeNode_fan tri fm k st).ls := by
    intro tri fm k st h
    unfold insertShapeNode_fan
    generalize List.range k = l
    induction l generalizing st with
    | nil => exact h
    | cons a l ih =>
      simp only [List.foldl]
      exact ih _ (hadd _ _ _ _ _ _ _ _ _ _ _ h)
  have hmat : ∀ (st : SecondPass α) (mat : Material),
      P st.ls → P (insertShapeNode_material st mat).ls := by
    intro st mat h
    unfold insertShapeNode_material
    split_ifs
    · exact h
    · split
      · exact hmi _ _ h
      · exact hmi _ _ h
  have hhalves : ∀ (st : SecondPass α) (mat : Material) (fm : Bool) (k1 k2 : Nat)
      (t1 t2 : List (Slot α)), P st.ls → P (insertShapeNode_halves st mat fm k1 t1 k2 t2).ls := by
    intro st mat fm k1 k2 t1 t2 h
    unfold insertShapeNode_halves
    split_ifs
    · exact h
    · exact hfan _ _ _ _ (hfan _ _ _ _ (hmat _ _ h))
    · exact hfan _ _ _ _ (hmat _ _ h)
    · exact hfan _ _ _ _ (hmat _ _ h)
    · exact hmat _ _ h
  have hemit : ∀ (st : SecondPass α) (vlr : VlakRen α),
      P st.ls → P (insertShapeNode_emit L B obi st vlr).ls := by
    intro st vlr h
    unfold insertShapeNode_emit
    split_ifs
    · exact h
    · split
      · exact hhalves _ _ _ _ _ _ _ h
      · simp only []
        split_ifs
        · exact hhalves _ _ _ _ _ _ _ h
        · exact hhalves _ _ _ _ _ _ _ h
  unfold insertShapeNode_secondPass
  have hfold : ∀ (l : List (VlakRen α)) (st : SecondPass α),
      P st.ls → P (l.foldl (insertShapeNode_emit L B obi) st).ls := by
    intro l
    induction l with
    | nil => intro st h; exact h
    | cons a l ih => intro st h; exact ih _ (hemit st a h)
  exact hfold _ _ h0

/-- Every index entry written in the second loop is a value the cursor had
before its final value. -/
theorem secondPass_indices_lt (L : BlenderFileLoader α) (B : Blenlib α)
    (obi : ObjectInstanceRen α) (r : Nat) :
    (∀ x ∈ (insertShapeNode_secondPass L B obi r).ls.VIndices,
        x < (insertShapeNode_secondPass L B obi r).ls.currentIndex)
      ∧ (∀ x ∈ (insertShapeNode_secondPass L B obi r).ls.NIndices,
        x < (insertShapeNode_secondPass L B obi r).ls.currentIndex) := by
  apply secondPass_invariant
    (fun ls => (∀ x ∈ ls.VIndices, x < ls.currentIndex) ∧ (∀ x ∈ ls.NIndices, x < ls.currentIndex))
  · intro ls v1 v2 v3 n1 n2 n3 fm em1 em2 em3 h
    obtain ⟨_, _, a3, a4, _, _, a7, _⟩ := addTriangle_appends ls v1 v2 v3 n1 n2 n3 fm em1 em2 em3
    rw [a3, a4, a7]
    constructor
    · intro x hx
      simp only [List.mem_append, List.mem_cons, List.mem_singleton, List.not_mem_nil,
        or_false] at hx
      rcases hx with hx | hx | hx | hx
      · have := h.1 x hx; omega
      · omega
      · omega
      · omega
    · intro x hx
      simp only [List.mem_append, List.mem_cons, List.mem_singleton, List.not_mem_nil,
        or_false] at hx
      rcases hx with hx | hx | hx | hx
      · have := h.2 x hx; omega
      · omega
      · omega
      · omega
  · intro ls k h
    exact h
  · simp [initialLoaderState]

/-- The count of the first loop over `n` copies of one face. -/
theorem firstPass_replicate (L : BlenderFileLoader α) (B : Blenlib α)
    (obi : ObjectInstanceRen α) (vlr : VlakRen α) (n : Nat) :
    ∀ st : FirstPass,
      ((List.replicate n vlr).foldl (insertShapeNode_count L B obi) st).numFaces
        = st.numFaces + n * faceTriangles L B obi vlr := by
  induction n with
  | zero => intro st; simp
  | succ n ih =>
    intro st
    rw [List.replicate_succ, List.foldl_cons, ih, insertShapeNode_count_numFaces]
    unfold faceTriangles
    ring

/-- C10, amended: for every mesh whose count of the first loop satisfies
`9 * numFaces < 2^32`, so that none of the `unsigned` sizes and cursors wraps,
the second loop calls `addTriangle` exactly `numFaces` times, the final cursor
`ls.currentIndex` is `9 * numFaces = vSize`, every index entry written is a
cursor value below `2^32`, and every buffer holds exactly what was allocated
for it (`vSize` floats of vertices, `nSize` floats of normals, `viSize` and
`niSize` index entries, `viSize` material indices, `numFaces` mark entries). -/
theorem insertShapeNode_buffers_exact (L : BlenderFileLoader α) (B : Blenlib α)
    (obi : ObjectInstanceRen α) (r : Nat)
    (hb : 9 * (insertShapeNode_firstPass L B obi).numFaces < 2 ^ 32) :
    (insertShapeNode_alloc (insertShapeNode_firstPass L B obi).numFaces).numFaces
        = (insertShapeNode_firstPass L B obi).numFaces
      ∧ (insertShapeNode_secondPass L B obi r)._numFacesRead
          = r + (insertShapeNode_firstPass L B obi).numFaces
      ∧ (insertShapeNode_secondPass L B obi r).ls.currentIndex
          = 9 * (insertShapeNode_firstPass L B obi).numFaces
      ∧ (insertShapeNode_alloc (insertShapeNode_firstPass L B obi).numFaces).vSize
          = 9 * (insertShapeNode_firstPass L B obi).numFaces
      ∧ (∀ x ∈ (insertShapeNode_secondPass L B obi r).ls.VIndices, x < 2 ^ 32)
      ∧ (∀ x ∈ (insertShapeNode_secondPass L B obi r).ls.NIndices, x < 2 ^ 32)
      ∧ 3 * (insertShapeNode_secondPass L B obi r).ls.vertices.length
          = (insertShapeNode_alloc (insertShapeNode_firstPass L B obi).numFaces).vSize
      ∧ 3 * (insertShapeNode_secondPass L B obi r).ls.normals.length
          = (insertShapeNode_alloc (insertShapeNode_firstPass L B obi).numFaces).nSize
      ∧ (insertShapeNode_secondPass L B obi r).ls.VIndices.length
          = (insertShapeNode_alloc (insertShapeNode_firstPass L B obi).numFaces).viSize
      ∧ (insertShapeNode_secondPass L B obi r).ls.NIndices.length
          = (insertShapeNode_alloc (insertShapeNode_firstPass L B obi).numFaces).niSize
      ∧ (insertShapeNode_secondPass L B obi r).ls.MIndices.length
          = (insertShapeNode_alloc (insertShapeNode_firstPass L B obi).numFaces).viSize
      ∧ (insertShapeNode_secondPass L B obi r).ls.faceEdgeMarks.length
          = (insertShapeNode_alloc (insertShapeNode_firstPass L B obi).numFaces).numFaces := by
  obtain ⟨e1, e2, e3, e4, e5, e6, e7, e8⟩ := secondPass_emitted L B obi r
  obtain ⟨i1, i2⟩ := secondPass_indices_lt L B obi r
  have u1 : unsigned (insertShapeNode_firstPass L B obi).numFaces
      = (insertShapeNode_firstPass L B obi).numFaces := unsigned_of_lt _ (by omega)
  have u9 : unsigned (3 * 3 * (insertShapeNode_firstPass L B obi).numFaces)
      = 9 * (insertShapeNode_firstPass L B obi).numFaces := by
    rw [unsigned_of_lt _ (by omega)]
  have u3 : unsigned (3 * (insertShapeNode_firstPass L B obi).numFaces)
      = 3 * (insertShapeNode_firstPass L B obi).numFaces := unsigned_of_lt _ (by omega)
  simp only [insertShapeNode_alloc, u1, u9, u3]
  refine ⟨trivial, e1, e3, trivial, ?_, ?_, ?_, ?_, e6, e7, e8, e2⟩
  · intro x hx; have := i1 x hx; omega
  · intro x hx; have := i2 x hx; omega
  · rw [e4]; ring
  · rw [e5]; ring

theorem insertShapeNode_buffers_exact_witness :
    (insertShapeNode_secondPass (⟨-1, -10, 0, false⟩ : BlenderFileLoader ℝ)
        ⟨fun a b => decide (a = b), distSqPointSegment, Vec3.normalizeSafe Real.sqrt⟩
        ⟨false, fun v => v, fun v => v,
          [⟨⟨⟨0, 0, -2⟩, ⟨0, 0, 1⟩⟩, ⟨⟨1, 0, -2⟩, ⟨0, 0, 1⟩⟩, ⟨⟨0, 1, -2⟩, ⟨0, 0, 1⟩⟩, none,
              ⟨1, false, false⟩, false, false, true, false, false, false, false, ⟨0, 0, 1⟩⟩]⟩
        7)._numFacesRead
      = 7 + (insertShapeNode_firstPass (⟨-1, -10, 0, false⟩ : BlenderFileLoader ℝ)
        ⟨fun a b => decide (a = b), distSqPointSegment, Vec3.normalizeSafe Real.sqrt⟩
        ⟨false, fun v => v, fun v => v,
          [⟨⟨⟨0, 0, -2⟩, ⟨0, 0, 1⟩⟩, ⟨⟨1, 0, -2⟩, ⟨0, 0, 1⟩⟩, ⟨⟨0, 1, -2⟩, ⟨0, 0, 1⟩⟩, none,
              ⟨1, false, false⟩, false, false, true, false, false, false, false,
              ⟨0, 0, 1⟩⟩]⟩).numFaces :=
  (insertShapeNode_buffers_exact (⟨-1, -10, 0, false⟩ : BlenderFileLoader ℝ)
    ⟨fun a b => decide (a = b), distSqPointSegment, Vec3.normalizeSafe Real.sqrt⟩
    ⟨false, fun v => v, fun v => v,
      [⟨⟨⟨0, 0, -2⟩, ⟨0, 0, 1⟩⟩, ⟨⟨1, 0, -2⟩, ⟨0, 0, 1⟩⟩, ⟨⟨0, 1, -2⟩, ⟨0, 0, 1⟩⟩, none,
          ⟨1, false, false⟩, false, false, true, false, false, false, false, ⟨0, 0, 1⟩⟩]⟩
    7 (by
      have h1 : (insertShapeNode_firstPass (⟨-1, -10, 0, false⟩ : BlenderFileLoader ℝ)
          ⟨fun a b => decide (a = b), distSqPointSegment, Vec3.normalizeSafe Real.sqrt⟩
          ⟨false, fun v => v, fun v => v,
            [⟨⟨⟨0, 0, -2⟩, ⟨0, 0, 1⟩⟩, ⟨⟨1, 0, -2⟩, ⟨0, 0, 1⟩⟩, ⟨⟨0, 1, -2⟩, ⟨0, 0, 1⟩⟩, none,
                ⟨1, false, false⟩, false, false, true, false, false, false, false,
                ⟨0, 0, 1⟩⟩]⟩).numFaces = 1 := by
        norm_num [insertShapeNode_firstPass, insertShapeNode_count, cameraCo, countClippedFaces,
          countClippedFaces_body, countClippedFaces_switch, Arr3.get, Arr3.set, CLIPPED_BY_NEAR,
          CLIPPED_BY_FAR, NOT_CLIPPED]
      rw [h1]
      norm_num)).2.1

/-- C10 as stated fails: a mesh of 477218589 triangles inside the clip range.
The first loop counts `numFaces = 477218589`, `vSize = 3 * 3 * numFaces` wraps
to 5, and the second loop writes `3 * 477218589` vertices, 4294967301 floats,
to the buffer of `vSize` floats. -/
theorem insertShapeNode_vSize_wraps :
    (insertShapeNode_firstPass (⟨-1, -10, 0, false⟩ : BlenderFileLoader ℝ)
        ⟨fun a b => decide (a = b), distSqPointSegment, Vec3.normalizeSafe Real.sqrt⟩
        ⟨false, fun v => v, fun v => v,
          List.replicate 477218589
            ⟨⟨⟨0, 0, -2⟩, ⟨0, 0, 1⟩⟩, ⟨⟨1, 0, -2⟩, ⟨0, 0, 1⟩⟩, ⟨⟨0, 1, -2⟩, ⟨0, 0, 1⟩⟩, none,
              ⟨1, false, false⟩, false, false, true, false, false, false, false,
              ⟨0, 0, 1⟩⟩⟩).numFaces = 477218589
      ∧ (insertShapeNode_alloc 477218589).vSize = 5
      ∧ 3 * (insertShapeNode_secondPass (⟨-1, -10, 0, false⟩ : BlenderFileLoader ℝ)
        ⟨fun a b => decide (a = b), distSqPointSegment, Vec3.normalizeSafe Real.sqrt⟩
        ⟨false, fun v => v, fun v => v,
          List.replicate 477218589
            ⟨⟨⟨0, 0, -2⟩, ⟨0, 0, 1⟩⟩, ⟨⟨1, 0, -2⟩, ⟨0, 0, 1⟩⟩, ⟨⟨0, 1, -2⟩, ⟨0, 0, 1⟩⟩, none,
              ⟨1, false, false⟩, false, false, true, false, false, false, false,
              ⟨0, 0, 1⟩⟩⟩ 0).ls.vertices.length = 4294967301 := by
  have hf : ∀ l : List (VlakRen ℝ),
      faceTriangles (⟨-1, -10, 0, false⟩ : BlenderFileLoader ℝ)
        ⟨fun a b => decide (a = b), distSqPointSegment, Vec3.normalizeSafe Real.sqrt⟩
        ⟨false, fun v => v, fun v => v, l⟩
        ⟨⟨⟨0, 0, -2⟩, ⟨0, 0, 1⟩⟩, ⟨⟨1, 0, -2⟩, ⟨0, 0, 1⟩⟩, ⟨⟨0, 1, -2⟩, ⟨0, 0, 1⟩⟩, none,
          ⟨1, false, false⟩, false, false, true, false, false, false, false, ⟨0, 0, 1⟩⟩ = 1 := by
    intro l
    norm_num [faceTriangles, insertShapeNode_count, cameraCo, countClippedFaces,
      countClippedFaces_body, countClippedFaces_switch, Arr3.get, Arr3.set, CLIPPED_BY_NEAR,
      CLIPPED_BY_FAR, NOT_CLIPPED]
  have hn : (insertShapeNode_firstPass (⟨-1, -10, 0, false⟩ : BlenderFileLoader ℝ)
      ⟨fun a b => decide (a = b), distSqPointSegment, Vec3.normalizeSafe Real.sqrt⟩
      ⟨false, fun v => v, fun v => v,
        List.replicate 477218589
          ⟨⟨⟨0, 0, -2⟩, ⟨0, 0, 1⟩⟩, ⟨⟨1, 0, -2⟩, ⟨0, 0, 1⟩⟩, ⟨⟨0, 1, -2⟩, ⟨0, 0, 1⟩⟩, none,
            ⟨1, false, false⟩, false, false, true, false, false, false, false,
            ⟨0, 0, 1⟩⟩⟩).numFaces = 477218589 := by
    unfold insertShapeNode_firstPass
    rw [firstPass_replicate, hf]
  refine ⟨hn, ?_, ?_⟩
  · show (3 * 3 * (477218589 % 4294967296)) % 4294967296 = 5
    norm_num
  · rw [(secondPass_emitted _ _ _ 0).2.2.2.1, hn]

/-- A scanned triangle that has the apex and a base vertex adds the vector from
the apex to its third vertex and counts once. -/
theorem detri_neighbour_shares (cv : Nat → Vec3 α) (d : detri_t α) (t : Arr3 Nat)
    (h : sharesApexAndBase d t) :
    detri_neighbour cv d t
      = { d with v := Vec3.add d.v (Vec3.sub (cv (thirdVertex d t)) (cv d.viP)), n := d.n + 1 } := by
  unfold sharesApexAndBase at h
  simp only [List.mem_cons, List.mem_singleton, List.not_mem_nil, or_false] at h
  unfold detri_neighbour thirdVertex
  simp only []
  split_ifs with h1 h2 h3 h4 h5 h6
  · rw [← h1.1]
  · rw [← h2.1]
  · rw [← h3.1]
  · rw [← h4.1]
  · rw [← h5.1]
  · rw [← h6.1]
  · exfalso
    rcases h with ⟨e, (h | h) | (h | h)⟩ | ⟨e, (h | h) | (h | h)⟩ | ⟨e, (h | h) | (h | h)⟩
    · exact h1 ⟨e.symm, Or.inl h⟩
    · exact h2 ⟨e.symm, Or.inl h⟩
    · exact h1 ⟨e.symm, Or.inr h⟩
    · exact h2 ⟨e.symm, Or.inr h⟩
    · exact h3 ⟨e.symm, Or.inl h⟩
    · exact h4 ⟨e.symm, Or.inl h⟩
    · exact h3 ⟨e.symm, Or.inr h⟩
    · exact h4 ⟨e.symm, Or.inr h⟩
    · exact h5 ⟨e.symm, Or.inl h⟩
    · exact h6 ⟨e.symm, Or.inl h⟩
    · exact h5 ⟨e.symm, Or.inr h⟩
    · exact h6 ⟨e.symm, Or.inr h⟩

omit [LinearOrderedField α] in
theorem thirdVertex_congr (d e : detri_t α) (t : Arr3 Nat) (hP : e.viP = d.viP)
    (hA : e.viA = d.viA) (hB : e.viB = d.viB) : thirdVertex e t = thirdVertex d t := by
  unfold thirdVertex
  rw [hP, hA, hB]

omit [LinearOrderedField α] in
/-- A triangle made of the apex, one base vertex `X` and a vertex `C` that is
neither the apex nor a base vertex has `C` as its third vertex, whatever the
order of its indices. -/
theorem thirdVertex_eq (d : detri_t α) (t : Arr3 Nat) (X C : Nat)
    (hX : X = d.viA ∨ X = d.viB) (hXP : X ≠ d.viP) (hCP : C ≠ d.viP) (hCA : C ≠ d.viA)
    (hCB : C ≠ d.viB) (hP : d.viP ∈ [t.a0, t.a1, t.a2]) (hXt : X ∈ [t.a0, t.a1, t.a2])
    (hC : C ∈ [t.a0, t.a1, t.a2]) : thirdVertex d t = C := by
  obtain ⟨a0, a1, a2⟩ := t
  simp only [List.mem_cons, List.mem_singleton, List.not_mem_nil, or_false] at hP hXt hC
  unfold thirdVertex
  simp only []
  rcases hX with rfl | rfl <;>
    rcases hP with hP | hP | hP <;> rcases hXt with hXt | hXt | hXt <;>
    rcases hC with hC | hC | hC <;>
    first
      | exact absurd (hP.trans hXt.symm).symm hXP
      | exact absurd (hP.trans hC.symm).symm hCP
      | exact absurd (hXt.trans hC.symm).symm hCA
      | exact absurd (hXt.trans hC.symm).symm hCB
      | (subst hP hXt hC
         simp [hXP, hCP, hCA, hCB, Ne.symm hXP, Ne.symm hCP, Ne.symm hCA, Ne.symm hCB])

/-- The loop of the scan is the fold of `detri_neighbour` over the triangles
other than number `i`. -/
theorem detri_scan_others (cv : Nat → Vec3 α) (tris : List (Arr3 Nat)) (i : Nat)
    (d0 : detri_t α) :
    detri_scan cv tris i d0
      = (otherTriangles tris i).foldl (detri_neighbour cv) { d0 with v := ⟨0, 0, 0⟩, n := 0 } := by
  unfold detri_scan otherTriangles
  generalize tris.enum = l
  generalize ({ d0 with v := (⟨0, 0, 0⟩ : Vec3 α), n := 0 } : detri_t α) = d
  induction l generalizing d with
  | nil => rfl
  | cons a l ih =>
    simp only [List.foldl, List.filter]
    by_cases hi : i = a.1
    · simp only [hi, if_true, ne_eq, not_true_eq_false, decide_False]
      simpa [hi] using ih d
    · simp only [hi, if_false, ne_eq, not_false_eq_true, decide_True, List.map, List.foldl]
      exact ih _

/-- The fold of `detri_neighbour` over a list of triangles: the count rises by
one for every triangle with the apex and a base vertex, and the direction
grows by the vectors from the apex to their third vertices, in list order. -/
theorem detri_neighbour_foldl (cv : Nat → Vec3 α) (l : List (Arr3 Nat)) :
    ∀ d : detri_t α,
      (l.foldl (detri_neighbour cv) d).viP = d.viP ∧ (l.foldl (detri_neighbour cv) d).viA = d.viA
      ∧ (l.foldl (detri_neighbour cv) d).viB = d.viB
      ∧ (l.foldl (detri_neighbour cv) d).n
          = d.n + l.countP (fun u => decide (sharesApexAndBase d u))
      ∧ (l.foldl (detri_neighbour cv) d).v
          = ((l.filter (fun u => decide (sharesApexAndBase d u))).map
              (fun u => Vec3.sub (cv (thirdVertex d u)) (cv d.viP))).foldl Vec3.add d.v := by
  induction l with
  | nil => intro d; simp
  | cons a l ih =>
    intro d
    simp only [List.foldl]
    obtain ⟨h1, h2, h3, h4, h5⟩ := ih (detri_neighbour cv d a)
    obtain ⟨n1, n2, n3⟩ := detri_neighbour_indices cv d a
    have hs : ∀ u, sharesApexAndBase (detri_neighbour cv d a) u ↔ sharesApexAndBase d u :=
      fun u => sharesApexAndBase_congr d _ u n1 n2 n3
    have ht : ∀ u, thirdVertex (detri_neighbour cv d a) u = thirdVertex d u :=
      fun u => thirdVertex_congr d _ u n1 n2 n3
    simp only [hs, ht, n1] at h4 h5
    refine ⟨h1.trans n1, h2.trans n2, h3.trans n3, ?_, ?_⟩
    · rw [h4]
      by_cases hsa : sharesApexAndBase d a
      · rw [detri_neighbour_shares cv d a hsa]
        simp only [List.countP_cons, hsa, decide_True, if_true]
        omega
      · rw [(detri_neighbour_rule_core cv d a).2.1 hsa]
        simp [List.countP_cons, hsa]
    · rw [h5]
      by_cases hsa : sharesApexAndBase d a
      · rw [detri_neighbour_shares cv d a hsa]
        simp [List.filter, hsa]
      · rw [(detri_neighbour_rule_core cv d a).2.1 hsa]
        simp [List.filter, hsa]

/-- C19, amended: for every recorded triangle (number `i` of the index stream,
selected by the test of lines 704-730 with apex and base `d0`), the record is
put on `detriList`; its count `n` is the number of triangles of the stream
other than number `i` that have the apex at one position and `viA` or `viB`
(one of them or both) at another position, each counted once; the direction
accumulated before normalising is the sum, over the same triangles in stream
order, of the vectors from the apex to their third vertex; and in a triangle
made of the apex, one base vertex and a vertex `C` that is neither, the third
vertex is `C`. -/
theorem detri_scan_rule (sqrt : α → α) (cleanVertices : Nat → Vec3 α)
    (cleanVIndices : List (Arr3 Nat)) (i : Nat) (t : Arr3 Nat) (d0 : detri_t α)
    (ht : cleanVIndices[i]? = some t) (hf : detri_find sqrt cleanVertices t = some d0) :
    detri_normalize sqrt (detri_scan cleanVertices cleanVIndices i d0)
        ∈ detriList sqrt cleanVertices cleanVIndices
      ∧ (detri_scan cleanVertices cleanVIndices i d0).n
          = (otherTriangles cleanVIndices i).countP (fun u => decide (sharesApexAndBase d0 u))
      ∧ (detri_scan cleanVertices cleanVIndices i d0).v
          = Vec3.sum (((otherTriangles cleanVIndices i).filter
              (fun u => decide (sharesApexAndBase d0 u))).map
              (fun u => Vec3.sub (cleanVertices (thirdVertex d0 u)) (cleanVertices d0.viP)))
      ∧ (∀ (u : Arr3 Nat) (X C : Nat), (X = d0.viA ∨ X = d0.viB) → X ≠ d0.viP → C ≠ d0.viP →
          C ≠ d0.viA → C ≠ d0.viB → d0.viP ∈ [u.a0, u.a1, u.a2] → X ∈ [u.a0, u.a1, u.a2] →
          C ∈ [u.a0, u.a1, u.a2] → thirdVertex d0 u = C) := by
  refine ⟨(detriList_mem sqrt cleanVertices cleanVIndices _).mpr ⟨i, t, d0, ht, hf, rfl⟩, ?_, ?_,
    fun u X C hX hXP hCP hCA hCB hP hXt hC => thirdVertex_eq d0 u X C hX hXP hCP hCA hCB hP hXt hC⟩
  · rw [detri_scan_others]
    obtain ⟨_, _, _, h4, _⟩ := detri_neighbour_foldl cleanVertices (otherTriangles cleanVIndices i)
      { d0 with v := ⟨0, 0, 0⟩, n := 0 }
    rw [h4]
    simp only [Nat.zero_add]
    rfl
  · rw [detri_scan_others]
    obtain ⟨_, _, _, _, h5⟩ := detri_neighbour_foldl cleanVertices (otherTriangles cleanVIndices i)
      { d0 with v := ⟨0, 0, 0⟩, n := 0 }
    rw [h5]
    rfl

theorem detri_scan_rule_witness :
    (detri_scan (fun vi => if vi = 0 then (⟨1, 0, 0⟩ : Vec3 ℝ) else if vi = 3 then ⟨0, 0, 0⟩
          else if vi = 6 then ⟨2, 0, 0⟩ else ⟨1, 1, 0⟩)
        [⟨0, 3, 6⟩, ⟨0, 6, 9⟩] 0 ⟨3, 6, 0, ⟨0, 0, 0⟩, 0⟩).n
      = (otherTriangles [⟨0, 3, 6⟩, ⟨0, 6, 9⟩] 0).countP
          (fun u => decide (sharesApexAndBase (⟨3, 6, 0, ⟨0, 0, 0⟩, 0⟩ : detri_t ℝ) u)) :=
  (detri_scan_rule Real.sqrt
    (fun vi => if vi = 0 then (⟨1, 0, 0⟩ : Vec3 ℝ) else if vi = 3 then ⟨0, 0, 0⟩
      else if vi = 6 then ⟨2, 0, 0⟩ else ⟨1, 1, 0⟩)
    [⟨0, 3, 6⟩, ⟨0, 6, 9⟩] 0 ⟨0, 3, 6⟩ ⟨3, 6, 0, ⟨0, 0, 0⟩, 0⟩ rfl (by
      simp only [detri_find, distPointSegment_lt_eps]
      norm_num [distSqPointSegment, Vec3.sub, Vec3.dot, Vec3.add, Vec3.smul, Vec3.normSq])).2.1

/-- C19 as stated fails: in the mesh of a doubled face, the two triangles
`(0, 3, 6)` with the apex `P = (1, 0, 0)` at offset 0 between `A = (0, 0, 0)` at
3 and `B = (2, 0, 0)` at 6, each record has `n = 1` and the direction from `P`
to `B`: the other triangle contributes although it has both base vertices
among its other indices, not exactly one. -/
theorem detri_scan_doubled_face :
    detriList Real.sqrt
        (fun vi => if vi = 0 then ⟨1, 0, 0⟩ else if vi = 3 then ⟨0, 0, 0⟩ else ⟨2, 0, 0⟩)
        [⟨0, 3, 6⟩, ⟨0, 3, 6⟩]
        = [⟨3, 6, 0, ⟨1, 0, 0⟩, 1⟩, ⟨3, 6, 0, ⟨1, 0, 0⟩, 1⟩]
      ∧ otherTriangles [⟨0, 3, 6⟩, ⟨0, 3, 6⟩] 0 = [⟨0, 3, 6⟩]
      ∧ ¬ sharesApexAndOneBase (⟨3, 6, 0, ⟨1, 0, 0⟩, 1⟩ : detri_t ℝ) ⟨0, 3, 6⟩ := by
  have hu := normalizeSafe_of_normSq ⟨1, 0, 0⟩ 1 (by norm_num) (by norm_num [Vec3.normSq])
  refine ⟨?_, by simp [otherTriangles, List.enum, List.enumFrom, List.filter], ?_⟩
  · simp only [detriList, List.enum, List.enumFrom, List.filterMap, detri_find,
      distPointSegment_lt_eps]
    norm_num [distSqPointSegment, Vec3.sub, Vec3.dot, Vec3.add, Vec3.smul, Vec3.normSq,
      detri_scan, detri_neighbour, detri_normalize, List.enum, List.enumFrom, hu]
  · simp [sharesApexAndOneBase]

end Freestyle
